import Mathlib

/-! S2E core: star sensor (`src/components/real/aocs/star_sensor.cpp`) and GNSS
receiver (`src/Component/AOCS/GNSSReceiver.cpp`)

A shallow embedding of the two sensor emulations and the proofs of their
specification.  The conventions below are stated for the star sensor; the GNSS
receiver follows the same ones.

Conventions of the embedding.

* `double` values are idealised as real numbers (`ℝ`): rounding, infinities and
  NaN are not modelled.  `acos`, `atan2`, `cos`, `sin` of `<cmath>` are the real
  functions.
* `int` is `Int` (32 bits, range `[-2^31, 2^31)`), `unsigned int` is `Nat` below
  `2^32`, `size_t` is `Nat` below `2^64`.  Where the C++ arithmetic is modular
  the reduction is written out (`% 2^32`, `toInt32`).
* An out-of-range access of `delay_buffer_`, a `double → int` conversion whose
  value does not fit, and a remainder by zero are undefined behaviour in C++;
  the functions return `none` there.
* The random draws of the three noise generators are inputs of every tick.
* The operations of `libra::Quaternion` that are not part of the sources
  (`operator*`, the axis-angle constructor, `Conjugate`, `FrameConversion`) are
  a parameter `QuaternionOps` of every function that uses them.
-/

noncomputable section

namespace libra

/-- Three doubles, `libra::Vector<3>`. -/
structure Vector3 where
  x : ℝ
  y : ℝ
  z : ℝ

/-- Four doubles `quaternion_[0..3]` of `libra::Quaternion`, set in this order by
the constructor `Quaternion(q_x, q_y, q_z, q_w)` of
`quaternion_inline_functions.hpp`. -/
structure Quaternion where
  q_x : ℝ
  q_y : ℝ
  q_z : ℝ
  q_w : ℝ

/-- Modelled from the spec: `libra::Vector<3>(n)`, the library constructor that
fills every component with `n` (used as `libra::Vector<3>(0.0)`). -/
def Vector3.fill (n : ℝ) : Vector3 := ⟨n, n, n⟩

/-- Modelled from the spec: `operator*(double, Vector<3>)` of the vector
library, componentwise scaling. -/
def Vector3.smul (c : ℝ) (v : Vector3) : Vector3 := ⟨c * v.x, c * v.y, c * v.z⟩

/-- Modelled from the spec: `operator+` of the vector library, componentwise
sum. -/
def Vector3.add (a b : Vector3) : Vector3 := ⟨a.x + b.x, a.y + b.y, a.z + b.z⟩

/-- Modelled from the spec: `InnerProduct` of the vector library, the Euclidean
inner product. -/
def InnerProduct (a b : Vector3) : ℝ := a.x * b.x + a.y * b.y + a.z * b.z

/-- Modelled from the spec: `Vector<3>::CalcNorm` of the vector library, the
Euclidean length. -/
def Vector3.CalcNorm (v : Vector3) : ℝ := Real.sqrt (InnerProduct v v)

/-- Modelled from the spec: `Vector<3>::CalcNormalizedVector` of the vector
library, the vector divided by its length.  For the zero vector the real
division by zero gives the zero vector again. -/
def Vector3.CalcNormalizedVector (v : Vector3) : Vector3 :=
  ⟨v.x / v.CalcNorm, v.y / v.CalcNorm, v.z / v.CalcNorm⟩

/-- The operations of `libra::Quaternion` whose code is not in the sources. -/
structure QuaternionOps where
  /-- The product `operator*(Quaternion, Quaternion)`. -/
  mul : Quaternion → Quaternion → Quaternion
  /-- The constructor `Quaternion(rotation_axis, rotation_angle_rad)`. -/
  fromAxisAngle : Vector3 → ℝ → Quaternion
  /-- The method `Quaternion::Conjugate`. -/
  Conjugate : Quaternion → Quaternion
  /-- The method `Quaternion::FrameConversion`. -/
  FrameConversion : Quaternion → Vector3 → Vector3

/-- The constant `libra::tau`, the full turn `2π`. -/
def tau : ℝ := 2 * Real.pi

/-- The constant `earth_equatorial_radius_m` in metres
(`DEFINE_PHYSICAL_CONSTANT(earth_equatorial_radius_m, 6378136.6L)`). -/
def earth_equatorial_radius_m : ℝ := 6378136.6

/-- The function `atan2(y, x)` of `<cmath>`: the angle of the point `(x, y)` in
`(-π, π]`. -/
def atan2 (y x : ℝ) : ℝ :=
  if 0 < x then Real.arctan (y / x)
  else if x < 0 then
    (if 0 ≤ y then Real.arctan (y / x) + Real.pi else Real.arctan (y / x) - Real.pi)
  else if 0 < y then Real.pi / 2
  else if y < 0 then -(Real.pi / 2)
  else 0

/-- Reinterpretation of an integer as a 32-bit two's-complement `int`: the
result of converting the `unsigned int` value `x mod 2^32` to `int`. -/
def toInt32 (x : Int) : Int := (x + 2 ^ 31) % 2 ^ 32 - 2 ^ 31

/-- The conversion `int(x)` of a `double`: truncation toward zero; undefined
(`none`) when the truncated value is not an `int`. -/
def doubleToInt (x : ℝ) : Option Int :=
  let t : Int := if 0 ≤ x then ⌊x⌋ else ⌈x⌉
  if -(2 ^ 31) ≤ t ∧ t < 2 ^ 31 then some t else none

end libra

open libra

/-- The data members of `class StarSensor` that the functions of
`star_sensor.cpp` read or write. -/
structure StarSensor where
  /-- Mount rotation, body frame to component frame. -/
  quaternion_b2c_ : Quaternion
  /-- The reported quaternion (the measurement output). -/
  measured_quaternion_i2c_ : Quaternion
  /-- The ring of historical samples. -/
  delay_buffer_ : List Quaternion
  /-- The write cursor, an `int`. -/
  buffer_position_ : Int
  /-- The step period in seconds. -/
  step_time_s_ : ℝ
  /-- The configured delay, an `unsigned int`. -/
  output_delay_ : Nat
  /-- The configured output interval, an `unsigned int`. -/
  output_interval_ : Nat
  /-- The output counter, a `size_t`. -/
  update_count_ : Nat
  /-- The capacity of the ring, an `int`. -/
  max_delay_ : Int
  /-- The boresight in the component frame. -/
  sight_direction_c_ : Vector3
  /-- The first direction orthogonal to the boresight. -/
  first_orthogonal_direction_c : Vector3
  /-- The second direction orthogonal to the boresight. -/
  second_orthogonal_direction_c : Vector3
  /-- The sun exclusion angle. -/
  sun_forbidden_angle_rad_ : ℝ
  /-- The earth exclusion angle. -/
  earth_forbidden_angle_rad_ : ℝ
  /-- The moon exclusion angle. -/
  moon_forbidden_angle_rad_ : ℝ
  /-- The angular-rate limit. -/
  capture_rate_limit_rad_s_ : ℝ
  /-- The validity flag: `true` means invalid. -/
  error_flag_ : Bool

/-- What one call of `Measure` reads from its collaborators: the true attitude
and angular velocity (`attitude`), the body-frame positions of sun, earth and
moon (`local_celestial_information`), and the draws of the three noise
generators. -/
structure TickInput where
  /-- The value of `attitude->GetQuaternion_i2b()`. -/
  quaternion_i2b : Quaternion
  /-- The value of `attitude->GetAngularVelocity_b_rad_s()`. -/
  omega_b_rad_s : Vector3
  /-- The value of `GetPositionFromSpacecraft_b_m("SUN")`. -/
  sun_b : Vector3
  /-- The value of `GetPositionFromSpacecraft_b_m("EARTH")`. -/
  earth_b : Vector3
  /-- The value of `GetPositionFromSpacecraft_b_m("MOON")`. -/
  moon_b : Vector3
  /-- The draw of `sight_direction_noise_`. -/
  sight_direction_noise : ℝ
  /-- The draw `double(rotation_noise_)`. -/
  rotation_noise : ℝ
  /-- The draw of `orthogonal_direction_noise_`. -/
  orthogonal_direction_noise : ℝ

namespace StarSensor

/-- The function `StarSensor::CalAngleVector_rad`. -/
def CalAngleVector_rad (vector1 vector2 : Vector3) : ℝ :=
  let vect1_normal := vector1.CalcNormalizedVector
  let vect2_normal := vector2.CalcNormalizedVector
  let cosTheta := InnerProduct vect1_normal vect2_normal
  let theta_rad := Real.arccos cosTheta
  theta_rad

/-- The boresight in the body frame, the local `sight_b` of the three body
judgements: `quaternion_b2c_.Conjugate().FrameConversion(sight_direction_c_)`. -/
def sight_b (L : QuaternionOps) (s : StarSensor) : Vector3 :=
  let q_c2b := L.Conjugate s.quaternion_b2c_
  L.FrameConversion q_c2b s.sight_direction_c_

/-- The function `StarSensor::SunJudgement`. -/
def SunJudgement (L : QuaternionOps) (s : StarSensor) (sun_b : Vector3) : Int :=
  let sun_angle_rad := CalAngleVector_rad sun_b (sight_b L s)
  if sun_angle_rad < s.sun_forbidden_angle_rad_ then 1 else 0

/-- The function `StarSensor::EarthJudgement`. -/
def EarthJudgement (L : QuaternionOps) (s : StarSensor) (earth_b : Vector3) : Int :=
  let earth_size_rad := atan2 earth_equatorial_radius_m earth_b.CalcNorm
  let earth_center_angle_rad := CalAngleVector_rad earth_b (sight_b L s)
  let earth_edge_angle_rad := earth_center_angle_rad - earth_size_rad
  if earth_edge_angle_rad < s.earth_forbidden_angle_rad_ then 1 else 0

/-- The function `StarSensor::MoonJudgement`. -/
def MoonJudgement (L : QuaternionOps) (s : StarSensor) (moon_b : Vector3) : Int :=
  let moon_angle_rad := CalAngleVector_rad moon_b (sight_b L s)
  if moon_angle_rad < s.moon_forbidden_angle_rad_ then 1 else 0

/-- The function `StarSensor::CaptureRateJudgement`. -/
def CaptureRateJudgement (s : StarSensor) (omega_b_rad_s : Vector3) : Int :=
  let omega_norm := omega_b_rad_s.CalcNorm
  if omega_norm > s.capture_rate_limit_rad_s_ then 1 else 0

/-- The function `StarSensor::AllJudgement`. -/
def AllJudgement (L : QuaternionOps) (s : StarSensor) (i : TickInput) : StarSensor :=
  let judgement : Int := SunJudgement L s i.sun_b
  let judgement := judgement + EarthJudgement L s i.earth_b
  let judgement := judgement + MoonJudgement L s i.moon_b
  let judgement := judgement + CaptureRateJudgement s i.omega_b_rad_s
  if judgement > 0 then { s with error_flag_ := true } else { s with error_flag_ := false }

/-- The quaternion `q_stt_temp * q_sight * q_ortho` that `StarSensor::update`
synthesizes (lines 107 to 115 and the right-hand side of line 121). -/
def observed_quaternion (L : QuaternionOps) (s : StarSensor) (i : TickInput) : Quaternion :=
  let quaternion_i2b := i.quaternion_i2b
  let q_stt_temp := L.mul quaternion_i2b s.quaternion_b2c_
  let q_sight := L.fromAxisAngle s.sight_direction_c_ i.sight_direction_noise
  let rot := tau * i.rotation_noise
  let rot_axis := Vector3.add (Vector3.smul (Real.cos rot) s.first_orthogonal_direction_c)
    (Vector3.smul (Real.sin rot) s.second_orthogonal_direction_c)
  let q_ortho := L.fromAxisAngle rot_axis i.orthogonal_direction_noise
  L.mul (L.mul q_stt_temp q_sight) q_ortho

/-- The function `StarSensor::update`.  The write `delay_buffer_[buffer_position_]`
is checked against the length of the vector, and `%` is the truncated remainder
of C++.  The increment cannot overflow after a write inside the vector, whose
length is an `int`. -/
def update (L : QuaternionOps) (s : StarSensor) (i : TickInput) : Option StarSensor :=
  let q := observed_quaternion L s i
  let s1 := AllJudgement L s i
  if 0 ≤ s1.buffer_position_ ∧ s1.buffer_position_.toNat < s1.delay_buffer_.length then
    let s2 : StarSensor := { s1 with delay_buffer_ := s1.delay_buffer_.set s1.buffer_position_.toNat q }
    let s3 : StarSensor := { s2 with buffer_position_ := s2.buffer_position_ + 1 }
    if s3.max_delay_ ≠ 0 then
      some { s3 with buffer_position_ := Int.tmod s3.buffer_position_ s3.max_delay_ }
    else none
  else none

/-- The history index `hist` that `StarSensor::Measure` computes on a refresh
(lines 93 to 96), from the state left by `update`.  The difference is taken in
`unsigned int` and converted to `int`. -/
def hist (s : StarSensor) : Int :=
  let hist := toInt32 (s.buffer_position_ - (s.output_delay_ : Int) - 1)
  if hist < 0 then s.max_delay_ - 1 else hist

/-- The function `StarSensor::Measure`: the returned quaternion and the state
after the call. -/
def Measure (L : QuaternionOps) (s : StarSensor) (i : TickInput) :
    Option (Quaternion × StarSensor) :=
  match update L s i with
  | none => none
  | some s1 =>
    let refreshed : Option StarSensor :=
      if s1.update_count_ = 0 then
        if 0 ≤ hist s1 then
          match s1.delay_buffer_[(hist s1).toNat]? with
          | some q => some { s1 with measured_quaternion_i2c_ := q }
          | none => none
        else none
      else some s1
    match refreshed with
    | none => none
    | some s2 =>
      let s3 : StarSensor := { s2 with update_count_ := (s2.update_count_ + 1) % 2 ^ 64 }
      let s4 : StarSensor := if s3.update_count_ = s3.output_interval_ then { s3 with update_count_ := 0 } else s3
      some (s4.measured_quaternion_i2c_, s4)

/-- The function `StarSensor::Initialize`, on the state left by the member
initialiser list of the constructor. -/
def Initialize (s : StarSensor) : Option StarSensor :=
  let s1 : StarSensor := { s with measured_quaternion_i2c_ := Quaternion.mk 0 0 0 1 }
  if s1.step_time_s_ = 0 then none
  else
    match doubleToInt ((((s1.output_delay_ * 2 % 2 ^ 32 : Nat) : ℝ)) / s1.step_time_s_) with
    | none => none
    | some m =>
      let s2 : StarSensor := { s1 with max_delay_ := m }
      let s3 : StarSensor := if s2.max_delay_ ≤ 0 then { s2 with max_delay_ := 1 } else s2
      let s4 : StarSensor := { s3 with
        delay_buffer_ := List.replicate s3.max_delay_.toNat s3.measured_quaternion_i2c_ }
      let s5 : StarSensor := { s4 with
        sight_direction_c_ := Vector3.fill 0
        first_orthogonal_direction_c := Vector3.fill 0
        second_orthogonal_direction_c := Vector3.fill 0 }
      let s6 : StarSensor := { s5 with sight_direction_c_ := { s5.sight_direction_c_ with x := 1 } }
      let s7 : StarSensor := { s6 with
        first_orthogonal_direction_c := { s6.first_orthogonal_direction_c with y := 1 } }
      let s8 : StarSensor := { s7 with
        second_orthogonal_direction_c := { s7.second_orthogonal_direction_c with z := 1 } }
      some { s8 with error_flag_ := true }

/-- The constructor `StarSensor::StarSensor`: the member initialiser list
followed by `Initialize()`.  The members that only `Initialize` sets start from
placeholder values, all of which `Initialize` overwrites. -/
def construct (quaternion_b2c : Quaternion) (step_time_s : ℝ) (output_delay output_interval : Nat)
    (sun_forbidden_angle_rad earth_forbidden_angle_rad moon_forbidden_angle_rad
      capture_rate_limit_rad_s : ℝ) : Option StarSensor :=
  Initialize
    { quaternion_b2c_ := quaternion_b2c
      measured_quaternion_i2c_ := Quaternion.mk 0 0 0 0
      delay_buffer_ := []
      buffer_position_ := 0
      step_time_s_ := step_time_s
      output_delay_ := output_delay
      output_interval_ := output_interval
      update_count_ := 0
      max_delay_ := 0
      sight_direction_c_ := Vector3.fill 0
      first_orthogonal_direction_c := Vector3.fill 0
      second_orthogonal_direction_c := Vector3.fill 0
      sun_forbidden_angle_rad_ := sun_forbidden_angle_rad
      earth_forbidden_angle_rad_ := earth_forbidden_angle_rad
      moon_forbidden_angle_rad_ := moon_forbidden_angle_rad
      capture_rate_limit_rad_s_ := capture_rate_limit_rad_s
      error_flag_ := false }

/-- The state after the first `n` calls of `Measure` (ticks `0` to `n - 1`),
call `t` reading the inputs `inp t`. -/
def stateAfter (L : QuaternionOps) (s0 : StarSensor) (inp : Nat → TickInput) :
    Nat → Option StarSensor
  | 0 => some s0
  | n + 1 =>
    match stateAfter L s0 inp n with
    | none => none
    | some s => (Measure L s (inp n)).map Prod.snd

/-- The quaternion returned by the `Measure` call of tick `n` (the call number
`n`, counting from `0`). -/
def reportAt (L : QuaternionOps) (s0 : StarSensor) (inp : Nat → TickInput) (n : Nat) :
    Option Quaternion :=
  match stateAfter L s0 inp n with
  | none => none
  | some s => (Measure L s (inp n)).map Prod.fst

/-- The state invariant of the ring: capacity at least one, as many slots as the
capacity, cursor inside the ring. -/
def Inv (s : StarSensor) : Prop :=
  1 ≤ s.max_delay_ ∧ (s.delay_buffer_.length : Int) = s.max_delay_ ∧
    0 ≤ s.buffer_position_ ∧ s.buffer_position_ < s.max_delay_

/-! ## Derived states, the run invariant and concrete inputs -/

/-- The state that `update` leaves when the cursor is inside the ring. -/
def updated (L : QuaternionOps) (s : StarSensor) (i : TickInput) : StarSensor :=
  { AllJudgement L s i with
    delay_buffer_ := s.delay_buffer_.set s.buffer_position_.toNat (observed_quaternion L s i)
    buffer_position_ := (s.buffer_position_ + 1) % s.max_delay_ }

/-- The value of `update_count_` after the increment and the reset of
`Measure` (lines 99 to 101). -/
def nextCount (s : StarSensor) : Nat :=
  if (s.update_count_ + 1) % 2 ^ 64 = s.output_interval_ then 0
  else (s.update_count_ + 1) % 2 ^ 64

/-- The configuration members, which no call of `Measure` writes. -/
def SameConfig (s s0 : StarSensor) : Prop :=
  s.quaternion_b2c_ = s0.quaternion_b2c_ ∧
  s.sight_direction_c_ = s0.sight_direction_c_ ∧
  s.first_orthogonal_direction_c = s0.first_orthogonal_direction_c ∧
  s.second_orthogonal_direction_c = s0.second_orthogonal_direction_c ∧
  s.max_delay_ = s0.max_delay_ ∧
  s.output_delay_ = s0.output_delay_ ∧
  s.output_interval_ = s0.output_interval_

/-- What holds of the state after `n` calls on a sensor that started with the
cursor and the output counter at zero: cursor and counter are `n` modulo the
capacity and modulo the interval, and a slot holds the sample of the last tick
that wrote it. -/
structure RunInv (L : QuaternionOps) (s0 : StarSensor) (inp : Nat → TickInput) (n : Nat)
    (s : StarSensor) : Prop where
  inv : Inv s
  config : SameConfig s s0
  cursor : s.buffer_position_ = ((n % s0.max_delay_.toNat : Nat) : Int)
  count : s.update_count_ = n % s0.output_interval_
  slots : ∀ t, t < n → n ≤ t + s0.max_delay_.toNat →
    s.delay_buffer_[t % s0.max_delay_.toNat]? = some (observed_quaternion L s0 (inp t))

/-- The history index without the correction for a negative value
(line 93). -/
def hist_raw (s : StarSensor) : Int :=
  toInt32 (s.buffer_position_ - (s.output_delay_ : Int) - 1)

/-- The state that the constructor leaves when `Initialize` chooses the
capacity `m`. -/
def constructed (quaternion_b2c : Quaternion) (step_time_s : ℝ) (output_delay output_interval : Nat)
    (sun_forbidden_angle_rad earth_forbidden_angle_rad moon_forbidden_angle_rad
      capture_rate_limit_rad_s : ℝ) (m : Int) : StarSensor :=
  { quaternion_b2c_ := quaternion_b2c
    measured_quaternion_i2c_ := Quaternion.mk 0 0 0 1
    delay_buffer_ := List.replicate m.toNat (Quaternion.mk 0 0 0 1)
    buffer_position_ := 0
    step_time_s_ := step_time_s
    output_delay_ := output_delay
    output_interval_ := output_interval
    update_count_ := 0
    max_delay_ := m
    sight_direction_c_ := ⟨1, 0, 0⟩
    first_orthogonal_direction_c := ⟨0, 1, 0⟩
    second_orthogonal_direction_c := ⟨0, 0, 1⟩
    sun_forbidden_angle_rad_ := sun_forbidden_angle_rad
    earth_forbidden_angle_rad_ := earth_forbidden_angle_rad
    moon_forbidden_angle_rad_ := moon_forbidden_angle_rad
    capture_rate_limit_rad_s_ := capture_rate_limit_rad_s
    error_flag_ := true }

/-- An instance of the quaternion operations: the Hamilton product on
`(x, y, z, w)` with scalar part `w`, the rotation by an angle about an axis, the
conjugate, and the rotation of a vector by a quaternion. -/
def hamilton : QuaternionOps where
  mul a b :=
    ⟨a.q_w * b.q_x + a.q_x * b.q_w + a.q_y * b.q_z - a.q_z * b.q_y,
     a.q_w * b.q_y - a.q_x * b.q_z + a.q_y * b.q_w + a.q_z * b.q_x,
     a.q_w * b.q_z + a.q_x * b.q_y - a.q_y * b.q_x + a.q_z * b.q_w,
     a.q_w * b.q_w - a.q_x * b.q_x - a.q_y * b.q_y - a.q_z * b.q_z⟩
  fromAxisAngle v theta :=
    ⟨v.x * Real.sin (theta / 2), v.y * Real.sin (theta / 2), v.z * Real.sin (theta / 2),
     Real.cos (theta / 2)⟩
  Conjugate q := ⟨-q.q_x, -q.q_y, -q.q_z, q.q_w⟩
  FrameConversion q v :=
    ⟨(1 - 2 * (q.q_y * q.q_y + q.q_z * q.q_z)) * v.x + 2 * (q.q_x * q.q_y + q.q_w * q.q_z) * v.y
       + 2 * (q.q_x * q.q_z - q.q_w * q.q_y) * v.z,
     2 * (q.q_x * q.q_y - q.q_w * q.q_z) * v.x + (1 - 2 * (q.q_x * q.q_x + q.q_z * q.q_z)) * v.y
       + 2 * (q.q_y * q.q_z + q.q_w * q.q_x) * v.z,
     2 * (q.q_x * q.q_z + q.q_w * q.q_y) * v.x + 2 * (q.q_y * q.q_z - q.q_w * q.q_x) * v.y
       + (1 - 2 * (q.q_x * q.q_x + q.q_y * q.q_y)) * v.z⟩

/-- The identity quaternion `(0, 0, 0, 1)`. -/
def q_identity : Quaternion := ⟨0, 0, 0, 1⟩

/-- The half turn about the first axis, `(1, 0, 0, 0)`. -/
def q_half_turn : Quaternion := ⟨1, 0, 0, 0⟩

/-- A tick with true attitude `q`, the spacecraft at rest, sun, earth and moon
behind the sensor, and all three noise draws zero. -/
def quietTick (q : Quaternion) : TickInput :=
  { quaternion_i2b := q
    omega_b_rad_s := ⟨0, 0, 0⟩
    sun_b := ⟨-149597870700, 0, 0⟩
    earth_b := ⟨-7000000, 0, 0⟩
    moon_b := ⟨-384400000, 0, 0⟩
    sight_direction_noise := 0
    rotation_noise := 0
    orthogonal_direction_noise := 0 }

/-- A sequence of ticks in which the attitude is the half turn at tick `k` and
the identity at every other tick. -/
def turnAt (k t : Nat) : TickInput :=
  quietTick (if t = k then q_half_turn else q_identity)

/-- A sensor with identity mount, step `0.1 s`, delay `1`, interval `5`, as the
constructor leaves it: capacity `20`. -/
def sampleSensor : StarSensor :=
  constructed q_identity (1 / 10) 1 5 (1 / 2) (1 / 2) (1 / 2) 1 20

/-- A sensor with identity mount, step `1 s`, delay `10`, interval `1`, as the
constructor leaves it: capacity `20`. -/
def wrapSensor : StarSensor :=
  constructed q_identity 1 10 1 (1 / 2) (1 / 2) (1 / 2) 1 20

/-- A sensor like `sampleSensor` with the earth forbidden angle `1.2 rad`. -/
def wideSensor : StarSensor :=
  constructed q_identity (1 / 10) 1 5 (1 / 2) (6 / 5) (1 / 2) 1 20

/-- The history index as the specification words it: `cursor - delay - 1`
wrapped into `[0, capacity)`. -/
def wrappedIndex (cursor : Int) (delay : Nat) (capacity : Int) : Int :=
  (cursor - (delay : Int) - 1) % capacity

/-- A tick like `quietTick q_identity` with the sun straight ahead of the
boresight. -/
def sunAheadTick : TickInput :=
  { quietTick q_identity with sun_b := ⟨149597870700, 0, 0⟩ }

/-- A sequence of ticks in which the sun is straight ahead of the boresight at
tick `k` and behind the sensor at every other tick. -/
def sunAheadAt (k t : Nat) : TickInput :=
  if t = k then sunAheadTick else quietTick q_identity

end StarSensor

/-! ## GNSS receiver (`src/Component/AOCS/GNSSReceiver.cpp`)

The receiver uses the older spelling of the vector and quaternion library
(`norm`, `inner_product`, `frame_conv`, `frame_conv_inv`).  The quaternion
methods and `AcTan` are not part of the sources and are a parameter
`GnssOps`; the draws of the three noise generators and the catalog of GNSS
satellites are inputs of every tick. -/

namespace libra

/-- Modelled from the spec: `operator-(Vector<3>, Vector<3>)` of the vector
library, componentwise difference. -/
def Vector3.sub (a b : Vector3) : Vector3 := ⟨a.x - b.x, a.y - b.y, a.z - b.z⟩

/-- Modelled from the spec: unary `operator-` of the vector library,
componentwise negation. -/
def Vector3.neg (a : Vector3) : Vector3 := ⟨-a.x, -a.y, -a.z⟩

/-- Modelled from the spec: `inner_product` of the vector library, the
Euclidean inner product. -/
def inner_product (a b : Vector3) : ℝ := a.x * b.x + a.y * b.y + a.z * b.z

/-- Modelled from the spec: `norm` of the vector library, the Euclidean
length. -/
def Vector3.norm (v : Vector3) : ℝ := Real.sqrt (inner_product v v)

/-- Modelled from the spec: the macro `DEG2RAD`, the factor from degrees to
radians (cone half-angles are "input degrees, stored radians"). -/
def DEG2RAD : ℝ := Real.pi / 180

/-- The library functions of the receiver whose code is not in the sources. -/
structure GnssOps where
  /-- The method `Quaternion::frame_conv`. -/
  frame_conv : Quaternion → Vector3 → Vector3
  /-- The method `Quaternion::frame_conv_inv`. -/
  frame_conv_inv : Quaternion → Vector3 → Vector3
  /-- The function `AcTan(y, x)`. -/
  AcTan : ℝ → ℝ → ℝ

end libra

/-- Modelled from the spec: the enumeration `AntennaModel` of `GNSSReceiver.h`,
the two antenna models that `CheckAntenna` tells apart. -/
inductive AntennaModel where
  | SIMPLE
  | CONE

/-- Modelled from the spec: the record `GnssInfo` of `GNSSReceiver.h`, in the
order of the initialiser `{ gnss_id, lat, lon, dist }`. -/
structure GnssInfo where
  ID : String
  latitude : ℝ
  longitude : ℝ
  distance : ℝ

/-- Modelled from the spec: one entry of the catalog `gnss_satellites_`, "a
catalog exposing target count, per-index identifier string, per-index inertial
position".  The catalog is a list of entries: `GetNumOfSatellites()` is its
length, `GetIDFromIndex(i)` and `GetSatellitePositionEci(i)` read entry `i`. -/
structure GnssSatellite where
  ID : String
  PositionEci : Vector3

/-- The data members of `class GNSSReceiver` that the functions of
`GNSSReceiver.cpp` read or write. -/
structure GNSSReceiver where
  /-- The identifier filter, one letter per compatible constellation. -/
  gnss_id_ : String
  /-- The antenna model. -/
  antenna_model_ : AntennaModel
  /-- The antenna position in the body frame. -/
  antenna_position_b_ : Vector3
  /-- The rotation from the body frame to the antenna frame. -/
  q_b2c_ : Quaternion
  /-- The half width of the antenna cone, in degrees. -/
  half_width_ : ℝ
  /-- The reported position. -/
  position_eci_ : Vector3
  /-- The visibility flag, an `int`. -/
  is_gnss_sats_visible_ : Int
  /-- The number of visible satellites, an `int`. -/
  gnss_sats_visible_num_ : Int
  /-- The per-satellite records. -/
  vec_gnssinfo_ : List GnssInfo

/-- What one call of `GNSSReceiver::MainRoutine` reads from its collaborators:
the true position and attitude (`dynamics_`), the catalog
(`gnss_satellites_`), and the draws of the three noise generators. -/
structure GnssTick where
  /-- The value of `dynamics_->GetOrbit().GetSatPosition_i()`. -/
  pos_true_eci : Vector3
  /-- The value of `dynamics_->GetQuaternion_i2b()`. -/
  q_i2b : Quaternion
  /-- The catalog `gnss_satellites_`. -/
  catalog : List GnssSatellite
  /-- The draw of `nrs_eci_x_`. -/
  noise_x : ℝ
  /-- The draw of `nrs_eci_y_`. -/
  noise_y : ℝ
  /-- The draw of `nrs_eci_z_`. -/
  noise_z : ℝ

namespace GNSSReceiver

/-- The test `gnss_id_.find(id_tmp[0]) != string::npos` of line 108: the first
character of the identifier (the terminating null character for an empty
identifier) occurs in `gnss_id_`. -/
def compatible (gnss_id : String) (id_tmp : String) : Bool :=
  decide (id_tmp.data.headD (Char.ofNat 0) ∈ gnss_id.data)

/-- The local `antenna_direction_i` of both antenna checks (lines 72 to 75 and
91 to 94): the antenna normal `(0, 0, 1)` taken to the inertial frame. -/
def antenna_direction_i (L : GnssOps) (s : GNSSReceiver) (q_i2b : Quaternion) : Vector3 :=
  let antenna_direction_c : Vector3 := { Vector3.fill 0 with z := 1 }
  let antenna_direction_b := L.frame_conv_inv s.q_b2c_ antenna_direction_c
  L.frame_conv_inv q_i2b antenna_direction_b

/-- The local `ant_pos_i` of `CheckAntennaCone` (lines 96 and 97). -/
def ant_pos_i (L : GnssOps) (s : GNSSReceiver) (pos_true_eci_ : Vector3) (q_i2b : Quaternion) :
    Vector3 :=
  let sat2ant_i := L.frame_conv_inv q_i2b s.antenna_position_b_
  Vector3.add pos_true_eci_ sat2ant_i

/-- The local `ant2gnss_i` of the loop body (line 112). -/
def ant2gnss_i (ant_pos_i gnss_sat_pos_i : Vector3) : Vector3 :=
  Vector3.sub gnss_sat_pos_i ant_pos_i

/-- The local `ant2gnss_i_n` of the loop body (lines 113 and 114). -/
def ant2gnss_i_n (ant_pos_i gnss_sat_pos_i : Vector3) : Vector3 :=
  let normalizer := 1 / (ant2gnss_i ant_pos_i gnss_sat_pos_i).norm
  Vector3.smul normalizer (ant2gnss_i ant_pos_i gnss_sat_pos_i)

/-- The local `tmp` of the loop body (line 124). -/
def occlusion_tmp (ant_pos_i gnss_sat_pos_i : Vector3) : Vector3 :=
  Vector3.add ant_pos_i
    (Vector3.smul (inner_product (Vector3.neg ant_pos_i) (ant2gnss_i_n ant_pos_i gnss_sat_pos_i))
      (ant2gnss_i ant_pos_i gnss_sat_pos_i))

/-- The local `is_visible_ant2gnss` of the loop body after lines 117 to 131,
the earth-occlusion test. -/
def is_visible_ant2gnss (ant_pos_i gnss_sat_pos_i : Vector3) : Int :=
  let Re : ℝ := 6378137.0
  let inner1 := inner_product ant_pos_i gnss_sat_pos_i
  if inner1 > 0 then 1
  else
    let tmp := occlusion_tmp ant_pos_i gnss_sat_pos_i
    if tmp.norm < Re then 0 else 1

/-- The local `inner2` of the loop body (line 133). -/
def inner2 (antenna_direction_i ant_pos_i gnss_sat_pos_i : Vector3) : ℝ :=
  inner_product antenna_direction_i (ant2gnss_i_n ant_pos_i gnss_sat_pos_i)

/-- The function `GNSSReceiver::SetGnssInfo`. -/
def SetGnssInfo (L : GnssOps) (s : GNSSReceiver) (ant2gnss_i : Vector3) (q_i2b : Quaternion)
    (gnss_id : String) : GNSSReceiver :=
  let ant2gnss_b := L.frame_conv q_i2b ant2gnss_i
  let ant2gnss_c := L.frame_conv s.q_b2c_ ant2gnss_b
  let dist := ant2gnss_c.norm
  let lon := L.AcTan ant2gnss_c.y ant2gnss_c.x
  let lat := L.AcTan ant2gnss_c.z dist
  let gnss_info_new : GnssInfo := { ID := gnss_id, latitude := lat, longitude := lon, distance := dist }
  { s with vec_gnssinfo_ := s.vec_gnssinfo_ ++ [gnss_info_new] }

/-- The body of the loop of `GNSSReceiver::CheckAntennaCone` (lines 106 to 139)
for one catalog entry. -/
def CheckAntennaCone_body (L : GnssOps) (ant_pos_i antenna_direction_i : Vector3)
    (q_i2b : Quaternion) (s : GNSSReceiver) (sat : GnssSatellite) : GNSSReceiver :=
  let id_tmp := sat.ID
  if compatible s.gnss_id_ id_tmp = false then s
  else
    let gnss_sat_pos_i := sat.PositionEci
    let ant2gnss := ant2gnss_i ant_pos_i gnss_sat_pos_i
    let is_visible := is_visible_ant2gnss ant_pos_i gnss_sat_pos_i
    let inner2 := inner2 antenna_direction_i ant_pos_i gnss_sat_pos_i
    if inner2 > Real.cos (s.half_width_ * DEG2RAD) ∧ is_visible ≠ 0 then
      let s1 : GNSSReceiver := { s with gnss_sats_visible_num_ := s.gnss_sats_visible_num_ + 1 }
      SetGnssInfo L s1 ant2gnss q_i2b id_tmp
    else s

/-- The function `GNSSReceiver::CheckAntennaCone`. -/
def CheckAntennaCone (L : GnssOps) (s : GNSSReceiver) (catalog : List GnssSatellite)
    (pos_true_eci_ : Vector3) (q_i2b : Quaternion) : GNSSReceiver :=
  let s1 : GNSSReceiver := { s with vec_gnssinfo_ := [] }
  let antenna_direction := antenna_direction_i L s1 q_i2b
  let ant_pos := ant_pos_i L s1 pos_true_eci_ q_i2b
  let s2 : GNSSReceiver := { s1 with gnss_sats_visible_num_ := 0 }
  let s3 := catalog.foldl (CheckAntennaCone_body L ant_pos antenna_direction q_i2b) s2
  if s3.gnss_sats_visible_num_ > 0 then { s3 with is_gnss_sats_visible_ := 1 }
  else { s3 with is_gnss_sats_visible_ := 0 }

/-- The function `GNSSReceiver::CheckAntennaSimple`. -/
def CheckAntennaSimple (L : GnssOps) (s : GNSSReceiver) (pos_true_eci_ : Vector3)
    (q_i2b : Quaternion) : GNSSReceiver :=
  let inner := inner_product pos_true_eci_ (antenna_direction_i L s q_i2b)
  if inner ≤ 0 then { s with is_gnss_sats_visible_ := 0 }
  else { s with is_gnss_sats_visible_ := 1 }

/-- The function `GNSSReceiver::CheckAntenna`. -/
def CheckAntenna (L : GnssOps) (s : GNSSReceiver) (catalog : List GnssSatellite)
    (pos_true_eci_ : Vector3) (q_i2b : Quaternion) : GNSSReceiver :=
  match s.antenna_model_ with
  | AntennaModel.SIMPLE => CheckAntennaSimple L s pos_true_eci_ q_i2b
  | AntennaModel.CONE => CheckAntennaCone L s catalog pos_true_eci_ q_i2b

/-- The function `GNSSReceiver::AddNoise`. -/
def AddNoise (s : GNSSReceiver) (pos_true_eci_ : Vector3) (t : GnssTick) : GNSSReceiver :=
  { s with position_eci_ :=
      ⟨pos_true_eci_.x + t.noise_x, pos_true_eci_.y + t.noise_y, pos_true_eci_.z + t.noise_z⟩ }

/-- The function `GNSSReceiver::MainRoutine`. -/
def MainRoutine (L : GnssOps) (s : GNSSReceiver) (t : GnssTick) : GNSSReceiver :=
  let pos_true_eci_ := t.pos_true_eci
  let q_i2b := t.q_i2b
  let s1 := CheckAntenna L s t.catalog pos_true_eci_ q_i2b
  if s1.is_gnss_sats_visible_ = 1 then AddNoise s1 pos_true_eci_ t
  else { s1 with position_eci_ := ⟨0, 0, 0⟩ }

/-- The state after the ticks `ticks`, in order. -/
def run (L : GnssOps) (s : GNSSReceiver) (ticks : List GnssTick) : GNSSReceiver :=
  ticks.foldl (MainRoutine L) s

/-- The condition under which the loop body counts a catalog entry: the
identifier is compatible, the cone test passes and the occlusion test
passes. -/
def counted (gnss_id : String) (half_width : ℝ) (ant_pos_i antenna_direction_i : Vector3)
    (sat : GnssSatellite) : Bool :=
  compatible gnss_id sat.ID &&
    decide (inner2 antenna_direction_i ant_pos_i sat.PositionEci
      > Real.cos (half_width * DEG2RAD)) &&
    decide (is_visible_ant2gnss ant_pos_i sat.PositionEci ≠ 0)

/-- The record that `SetGnssInfo` appends for a catalog entry. -/
def gnss_info (L : GnssOps) (q_b2c q_i2b : Quaternion) (ant_pos_i : Vector3)
    (sat : GnssSatellite) : GnssInfo :=
  let ant2gnss_c := L.frame_conv q_b2c (L.frame_conv q_i2b
    (ant2gnss_i ant_pos_i sat.PositionEci))
  { ID := sat.ID
    latitude := L.AcTan ant2gnss_c.z ant2gnss_c.norm
    longitude := L.AcTan ant2gnss_c.y ant2gnss_c.x
    distance := ant2gnss_c.norm }

/-- The configuration members, which no function of the receiver writes after
construction. -/
def SameConfig (s1 s2 : GNSSReceiver) : Prop :=
  s1.gnss_id_ = s2.gnss_id_ ∧ s1.antenna_model_ = s2.antenna_model_ ∧
    s1.antenna_position_b_ = s2.antenna_position_b_ ∧ s1.q_b2c_ = s2.q_b2c_ ∧
    s1.half_width_ = s2.half_width_

/-- The closest-approach point as the specification words it: the orthogonal
projection of the earth's centre (the origin) onto the line from the antenna
to the target, `a + ((-a) · n) n` with `n` the unit direction. -/
def closest_approach (ant_pos_i gnss_sat_pos_i : Vector3) : Vector3 :=
  Vector3.add ant_pos_i
    (Vector3.smul (inner_product (Vector3.neg ant_pos_i) (ant2gnss_i_n ant_pos_i gnss_sat_pos_i))
      (ant2gnss_i_n ant_pos_i gnss_sat_pos_i))

/-- An instance of the library functions of the receiver: the rotation of a
vector by a quaternion and by its conjugate, and `atan2` for `AcTan`. -/
def gnssOps : GnssOps where
  frame_conv q v := StarSensor.hamilton.FrameConversion q v
  frame_conv_inv q v := StarSensor.hamilton.FrameConversion (StarSensor.hamilton.Conjugate q) v
  AcTan y x := atan2 y x

/-- A receiver with the cone antenna model: GPS only (`"G"`), antenna at the
body origin looking along the body `z` axis, half width `60` degrees. -/
def coneReceiver : GNSSReceiver :=
  { gnss_id_ := "G"
    antenna_model_ := AntennaModel.CONE
    antenna_position_b_ := ⟨0, 0, 0⟩
    q_b2c_ := StarSensor.q_identity
    half_width_ := 60
    position_eci_ := ⟨0, 0, 0⟩
    is_gnss_sats_visible_ := 0
    gnss_sats_visible_num_ := 0
    vec_gnssinfo_ := [] }

/-- A receiver like `coneReceiver` with the simple antenna model. -/
def simpleReceiver : GNSSReceiver :=
  { coneReceiver with antenna_model_ := AntennaModel.SIMPLE }

/-- A tick with identity attitude, the spacecraft at `7000 km` on the negative
`z` axis and one GPS satellite at `26000 km` on the positive `z` axis: the
earth's centre lies on the segment from the antenna to the satellite. -/
def behindEarthTick : GnssTick :=
  { pos_true_eci := ⟨0, 0, -7000000⟩
    q_i2b := StarSensor.q_identity
    catalog := [⟨"G01", ⟨0, 0, 26000000⟩⟩]
    noise_x := 1
    noise_y := 2
    noise_z := 3 }

/-- A tick with identity attitude, the spacecraft at `7000 km` on the positive
`z` axis, one GPS satellite straight above it at `26000 km` and one GLONASS
satellite (`"R01"`) at the same place. -/
def overheadTick : GnssTick :=
  { pos_true_eci := ⟨0, 0, 7000000⟩
    q_i2b := StarSensor.q_identity
    catalog := [⟨"G01", ⟨0, 0, 26000000⟩⟩, ⟨"R01", ⟨0, 0, 26000000⟩⟩]
    noise_x := 1
    noise_y := 2
    noise_z := 3 }

/-- A receiver like `coneReceiver` with half width `90` degrees. -/
def hemiReceiver : GNSSReceiver :=
  { coneReceiver with half_width_ := 90 }

/-- A tick with identity attitude, the spacecraft at `7000 km` on the positive
`x` axis and one GPS satellite at `(-17000, 7000, 0) km`: the line of sight
passes `1960 km` from the earth's centre. -/
def grazingTick : GnssTick :=
  { pos_true_eci := ⟨7000000, 0, 0⟩
    q_i2b := StarSensor.q_identity
    catalog := [⟨"G01", ⟨-17000000, 7000000, 0⟩⟩]
    noise_x := 1
    noise_y := 2
    noise_z := 3 }

/-- A tick with identity attitude, the spacecraft at `7000 km` on the positive
`z` axis and one GPS satellite at right angles to the boresight, `26000 km`
to the side. -/
def sideTick : GnssTick :=
  { pos_true_eci := ⟨0, 0, 7000000⟩
    q_i2b := StarSensor.q_identity
    catalog := [⟨"G01", ⟨26000000, 0, 7000000⟩⟩]
    noise_x := 1
    noise_y := 2
    noise_z := 3 }

/-- A tick with identity attitude, the spacecraft at `7000 km` on the positive
`z` axis and one GPS satellite straight above it at `26000 km`. -/
def zenithTick : GnssTick :=
  { pos_true_eci := ⟨0, 0, 7000000⟩
    q_i2b := StarSensor.q_identity
    catalog := [⟨"G01", ⟨0, 0, 26000000⟩⟩]
    noise_x := 1
    noise_y := 2
    noise_z := 3 }

/-- A receiver like `simpleReceiver` whose count of visible satellites is
`3`. -/
def staleReceiver : GNSSReceiver :=
  { simpleReceiver with gnss_sats_visible_num_ := 3 }

end GNSSReceiver

/-! ## Runge-Kutta integrator (`src/library/numerical_integration/runge_kutta_template.hpp`)

`libra::Vector<N>` is the type of functions from `Fin N` to the reals, with the
componentwise sum and the componentwise product by a scalar of the vector
library.  The declaration of the class (`runge_kutta.hpp`) is not part of the sources: the
tables `a_`, `b_`, `c_` and the slopes `k_` are indexed within their sizes and are
modelled as total functions of the index, and the pure virtual
`DerivativeFunction` is a parameter `f`. -/

namespace libra

/-- The data members of `class RungeKutta<N>` that `Integrate` and `CalcSlope`
read or write. -/
structure RungeKutta (N : Nat) where
  /-- The number of stages. -/
  stage_ : Nat
  /-- The coefficients `a_[i][j]`. -/
  a_ : Nat → Nat → ℝ
  /-- The weights `b_[i]`. -/
  b_ : Nat → ℝ
  /-- The nodes `c_[i]`. -/
  c_ : Nat → ℝ
  /-- The slopes `k_[i]`. -/
  k_ : Nat → (Fin N → ℝ)
  /-- The step width. -/
  step_width_s_ : ℝ
  /-- The current time. -/
  current_time_s_ : ℝ
  /-- The current state. -/
  current_state_ : Fin N → ℝ

namespace RungeKutta

/-- The function `RungeKutta<N>::CalcSlope`. -/
def CalcSlope {N : Nat} (f : ℝ → (Fin N → ℝ) → (Fin N → ℝ)) (rk : RungeKutta N) :
    RungeKutta N :=
  let rk0 : RungeKutta N :=
    { rk with k_ := Function.update rk.k_ 0 (f rk.current_time_s_ rk.current_state_) }
  (List.range' 1 (rk0.stage_ - 1)).foldl
    (fun (r : RungeKutta N) (i : Nat) =>
      let state := (List.range i).foldl
        (fun (state : Fin N → ℝ) (j : Nat) => state + (r.a_ i j * r.step_width_s_) • r.k_ j)
        r.current_state_
      let time_s := r.current_time_s_ + r.c_ i * r.step_width_s_
      { r with k_ := Function.update r.k_ i (f time_s state) })
    rk0

/-- The function `RungeKutta<N>::Integrate`. -/
def Integrate {N : Nat} (f : ℝ → (Fin N → ℝ) → (Fin N → ℝ)) (rk : RungeKutta N) :
    RungeKutta N :=
  let rk1 := CalcSlope f rk
  (List.range rk1.stage_).foldl
    (fun (r : RungeKutta N) (i : Nat) =>
      { r with current_state_ := r.current_state_ + (r.b_ i * r.step_width_s_) • r.k_ i })
    rk1

/-- The slopes of the general explicit Runge-Kutta method as the specification
words them: `k_0 = f(t, x)` and
`k_i = f(t + c_i * h, x + h * sum_{j < i} a_ij * k_j)` for `i ≥ 1`. -/
def stageSlope {N : Nat} (f : ℝ → (Fin N → ℝ) → (Fin N → ℝ)) (a : Nat → Nat → ℝ)
    (c : Nat → ℝ) (h t : ℝ) (x : Fin N → ℝ) : Nat → (Fin N → ℝ)
  | 0 => f t x
  | i + 1 =>
    f (t + c (i + 1) * h) (x + h • ∑ j : Fin (i + 1), a (i + 1) j • stageSlope f a c h t x j)
termination_by i => i
decreasing_by exact j.isLt

/-- The state after one step of the general explicit Runge-Kutta method with
`s` stages as the specification words it: `x + h * sum_{i < s} b_i * k_i`. -/
def explicitStep {N : Nat} (f : ℝ → (Fin N → ℝ) → (Fin N → ℝ)) (a : Nat → Nat → ℝ)
    (b c : Nat → ℝ) (s : Nat) (h t : ℝ) (x : Fin N → ℝ) : Fin N → ℝ :=
  x + h • ∑ i ∈ Finset.range s, b i • stageSlope f a c h t x i

/-- The explicit Euler method as a Runge-Kutta table: one stage, `b_0 = 1`,
on the scalar equation `x' = x` with step `1/10`, at time `0` and state `1`. -/
def eulerExample : RungeKutta 1 :=
  { stage_ := 1
    a_ := fun _ _ => 0
    b_ := fun _ => 1
    c_ := fun _ => 0
    k_ := fun _ _ => 0
    step_width_s_ := 1 / 10
    current_time_s_ := 0
    current_state_ := fun _ => 1 }

end RungeKutta

end libra

/-! ## Ground-station link calculator (`src/Component/CommGS/GScalculator.cpp`)

The calculator reads its collaborators (`Spacecraft`, `GroundStation`, `Antenna`)
only through a few getters; their answers are inputs of `Update`. -/

namespace libra

/-- Modelled from the spec: the constant `libra::pi` of the mathematical
constants header. -/
def pi : ℝ := Real.pi

/-- The function `log10` of `<cmath>`. -/
def log10 (x : ℝ) : ℝ := Real.logb 10 x

/-- The function `pow` of `<cmath>` on doubles. -/
def pow (x y : ℝ) : ℝ := x ^ y

/-- The constant `environment::boltzmann_constant_J_K`
(`DEFINE_PHYSICAL_CONSTANT(boltzmann_constant_J_K, 1.380649e-23L)`). -/
def boltzmann_constant_J_K : ℝ := 1.380649e-23

end libra

/-- The answers of an `Antenna` object that the link calculator reads. -/
structure Antenna where
  /-- The answer of `IsTransmitter()`. -/
  IsTransmitter : Bool
  /-- The answer of `IsReceiver()`. -/
  IsReceiver : Bool
  /-- The answer of `GetFrequency()`. -/
  GetFrequency : ℝ
  /-- The answer of `CalcTxEIRP(angle)`. -/
  CalcTxEIRP : ℝ → ℝ
  /-- The answer of `CalcRxGT(angle)`. -/
  CalcRxGT : ℝ → ℝ

/-- The answers of the spacecraft and of the ground station that `Update`
reads. -/
structure LinkInput where
  /-- The answer of `groundstation.IsVisible(spacecraft.GetSatID())`. -/
  is_visible : Bool
  /-- The answer of `dynamics.GetOrbit().GetSatPosition_i()`. -/
  sc_pos_i : Vector3
  /-- The answer of `groundstation.GetGSPosition_i()`. -/
  gs_pos_i : Vector3

/-- The data members of `class GScalculator`. -/
structure GScalculator where
  loss_polarization_ : ℝ
  loss_atmosphere_ : ℝ
  loss_rainfall_ : ℝ
  loss_others_ : ℝ
  EbN0_ : ℝ
  hardware_deterioration_ : ℝ
  coding_gain_ : ℝ
  margin_req_ : ℝ
  max_bitrate_ : ℝ

namespace GScalculator

/-- The constructor `GScalculator::GScalculator`. -/
def construct (loss_polarization loss_atmosphere loss_rainfall loss_others EbN0
    hardware_deterioration coding_gain margin_req : ℝ) : GScalculator :=
  { loss_polarization_ := loss_polarization
    loss_atmosphere_ := loss_atmosphere
    loss_rainfall_ := loss_rainfall
    loss_others_ := loss_others
    EbN0_ := EbN0
    hardware_deterioration_ := hardware_deterioration
    coding_gain_ := coding_gain
    margin_req_ := margin_req
    max_bitrate_ := 0 }

/-- The local `loss_space_dB` of `CalcMaxBitrate`. -/
def loss_space_dB (frequency : ℝ) (sc_pos_i gs_pos_i : Vector3) : ℝ :=
  let dist_sc_gs_km : ℝ := Vector3.norm (Vector3.sub sc_pos_i gs_pos_i) / 1000;
  (-20) * log10 (4 * libra.pi * dist_sc_gs_km / (300 / frequency / 1000))

/-- The local `cn0_dBHz` of `CalcMaxBitrate`. -/
def cn0_dBHz (g : GScalculator) (sc_ant gs_ant : Antenna) (w : LinkInput) : ℝ :=
  let sc_boresight_angle_rad : ℝ := 0
  let gs_boresight_angle_rad : ℝ := 0
  sc_ant.CalcTxEIRP sc_boresight_angle_rad
    + loss_space_dB sc_ant.GetFrequency w.sc_pos_i w.gs_pos_i
    + g.loss_polarization_ + g.loss_atmosphere_ + g.loss_rainfall_ + g.loss_others_
    + gs_ant.CalcRxGT gs_boresight_angle_rad - 10 * log10 boltzmann_constant_J_K

/-- The local `margin_for_bitrate_dB` of `CalcMaxBitrate`. -/
def margin_for_bitrate_dB (g : GScalculator) (sc_ant gs_ant : Antenna) (w : LinkInput) : ℝ :=
  cn0_dBHz g sc_ant gs_ant w - (g.EbN0_ + g.hardware_deterioration_ + g.coding_gain_)
    - g.margin_req_

/-- The function `GScalculator::CalcMaxBitrate`. -/
def CalcMaxBitrate (g : GScalculator) (sc_ant gs_ant : Antenna) (w : LinkInput) : ℝ :=
  if (!sc_ant.IsTransmitter || !gs_ant.IsReceiver) = true then 0
  else if margin_for_bitrate_dB g sc_ant gs_ant w > 0 then
    libra.pow 10 (margin_for_bitrate_dB g sc_ant gs_ant w / 10) / 1000000
  else 0

/-- The function `GScalculator::Update`. -/
def Update (g : GScalculator) (sc_ant gs_ant : Antenna) (w : LinkInput) : GScalculator :=
  if w.is_visible = true then { g with max_bitrate_ := CalcMaxBitrate g sc_ant gs_ant w }
  else { g with max_bitrate_ := 0 }

/-- A calculator without losses or requirements. -/
def plainCalculator : GScalculator := construct 0 0 0 0 0 0 0 0

/-- A spacecraft at `(7000000, 0, 0)` seen from a ground station at
`(6378000, 0, 0)`. -/
def passInput : LinkInput :=
  { is_visible := true, sc_pos_i := ⟨7000000, 0, 0⟩, gs_pos_i := ⟨6378000, 0, 0⟩ }

/-- A transmitting antenna at frequency `2000` whose radiated power makes the
carrier-to-noise density at the ground station of `passInput` come out at
`10` dBHz when the receiving gain is zero. -/
def txAntenna : Antenna :=
  { IsTransmitter := true
    IsReceiver := false
    GetFrequency := 2000
    CalcTxEIRP := fun _ =>
      10 - loss_space_dB 2000 passInput.sc_pos_i passInput.gs_pos_i
        + 10 * log10 boltzmann_constant_J_K
    CalcRxGT := fun _ => 0 }

/-- A receiving antenna with zero gain. -/
def rxAntenna : Antenna :=
  { IsTransmitter := false
    IsReceiver := true
    GetFrequency := 2000
    CalcTxEIRP := fun _ => 0
    CalcRxGT := fun _ => 0 }

end GScalculator

/-! ## Moon rotation (`src/environment/global/moon_rotation.cpp`)

`libra::Matrix<3, 3>` is a real matrix indexed by `Fin 3`, row first. -/

namespace libra

/-- Modelled from the spec: `OuterProduct` of the vector library, the cross
product of two vectors. -/
def OuterProduct (a b : Vector3) : Vector3 :=
  ⟨a.y * b.z - a.z * b.y, a.z * b.x - a.x * b.z, a.x * b.y - a.y * b.x⟩

/-- Modelled from the spec: `Vector<3>::operator[]` of the vector library. -/
def Vector3.get (v : Vector3) (i : Fin 3) : ℝ :=
  match i with
  | 0 => v.x
  | 1 => v.y
  | 2 => v.z

end libra

namespace MoonRotation

/-- The local `me_ex_eci` of `CalcDcmEciToMeanEarth`. -/
def me_ex_eci (moon_position_eci_m : Vector3) : Vector3 :=
  Vector3.smul (-1.0) moon_position_eci_m.CalcNormalizedVector

/-- The local `me_ez_eci` of `CalcDcmEciToMeanEarth`. -/
def me_ez_eci (moon_position_eci_m moon_velocity_eci_m_s : Vector3) : Vector3 :=
  let moon_orbit_norm := OuterProduct moon_position_eci_m moon_velocity_eci_m_s
  moon_orbit_norm.CalcNormalizedVector

/-- The local `me_ey_eci` of `CalcDcmEciToMeanEarth`. -/
def me_ey_eci (moon_position_eci_m moon_velocity_eci_m_s : Vector3) : Vector3 :=
  OuterProduct (me_ez_eci moon_position_eci_m moon_velocity_eci_m_s)
    (me_ex_eci moon_position_eci_m)

/-- The function `MoonRotation::CalcDcmEciToMeanEarth`: the rows `0`, `1`, `2`
of the result are filled from `me_ex_eci`, `me_ey_eci`, `me_ez_eci`. -/
def CalcDcmEciToMeanEarth (moon_position_eci_m moon_velocity_eci_m_s : Vector3) :
    Matrix (Fin 3) (Fin 3) ℝ :=
  Matrix.of fun (r i : Fin 3) =>
    match r with
    | 0 => (me_ex_eci moon_position_eci_m).get i
    | 1 => (me_ey_eci moon_position_eci_m moon_velocity_eci_m_s).get i
    | 2 => (me_ez_eci moon_position_eci_m moon_velocity_eci_m_s).get i

end MoonRotation

namespace StarSensor

/-- Two star-sensor objects agree on the members that the member initialiser
list of the constructor sets from its arguments (the state before
`Initialize`). -/
def SameConstruction (p1 p2 : StarSensor) : Prop :=
  p1.quaternion_b2c_ = p2.quaternion_b2c_ ∧ p1.buffer_position_ = p2.buffer_position_ ∧
    p1.step_time_s_ = p2.step_time_s_ ∧ p1.output_delay_ = p2.output_delay_ ∧
    p1.output_interval_ = p2.output_interval_ ∧ p1.update_count_ = p2.update_count_ ∧
    p1.sun_forbidden_angle_rad_ = p2.sun_forbidden_angle_rad_ ∧
    p1.earth_forbidden_angle_rad_ = p2.earth_forbidden_angle_rad_ ∧
    p1.moon_forbidden_angle_rad_ = p2.moon_forbidden_angle_rad_ ∧
    p1.capture_rate_limit_rad_s_ = p2.capture_rate_limit_rad_s_

/-- A sensor with identity mount, step `1 s`, delay `2^31 + 5`, interval `1`, as
the constructor leaves it: `output_delay_ * 2` wraps to `10`, capacity `10`. -/
def farDelaySensor : StarSensor :=
  constructed q_identity 1 2147483653 1 (1 / 2) (1 / 2) (1 / 2) 1 10

/-! ## The ring buffer: one call -/

theorem AllJudgement_eq (L : QuaternionOps) (s : StarSensor) (i : TickInput) :
    AllJudgement L s i = { s with error_flag_ := decide (0 < SunJudgement L s i.sun_b +
      EarthJudgement L s i.earth_b + MoonJudgement L s i.moon_b +
      CaptureRateJudgement s i.omega_b_rad_s) } := by
  unfold AllJudgement
  simp only []
  split <;> rename_i h <;> simp [h]

theorem update_of_Inv (L : QuaternionOps) (s : StarSensor) (i : TickInput) (h : Inv s) :
    update L s i = some (updated L s i) := by
  obtain ⟨h1, h2, h3, h4⟩ := h
  have hlen : s.buffer_position_.toNat < s.delay_buffer_.length := by omega
  have hne : s.max_delay_ ≠ 0 := by omega
  have hmod : Int.tmod (s.buffer_position_ + 1) s.max_delay_
      = (s.buffer_position_ + 1) % s.max_delay_ :=
    Int.tmod_eq_emod (by omega) (by omega)
  simp [update, updated, AllJudgement_eq, h3, hlen, hne, hmod]

theorem Measure_frozen (L : QuaternionOps) (s : StarSensor) (i : TickInput) (h : Inv s)
    (hc : s.update_count_ ≠ 0) :
    Measure L s i = some (s.measured_quaternion_i2c_,
      { updated L s i with update_count_ := nextCount s }) := by
  simp only [Measure, update_of_Inv L s i h]
  have h1 : (updated L s i).update_count_ = s.update_count_ := by
    simp [updated, AllJudgement_eq]
  have h2 : (updated L s i).output_interval_ = s.output_interval_ := by
    simp [updated, AllJudgement_eq]
  have h3 : (updated L s i).measured_quaternion_i2c_ = s.measured_quaternion_i2c_ := by
    simp [updated, AllJudgement_eq]
  simp only [h1, hc, if_false, h2, nextCount]
  split <;> simp [*]

theorem Measure_refresh (L : QuaternionOps) (s : StarSensor) (i : TickInput) (h : Inv s)
    (hc : s.update_count_ = 0) (q : Quaternion) (hh : 0 ≤ hist (updated L s i))
    (hq : (updated L s i).delay_buffer_[(hist (updated L s i)).toNat]? = some q) :
    Measure L s i = some (q,
      { updated L s i with measured_quaternion_i2c_ := q, update_count_ := nextCount s }) := by
  simp only [Measure, update_of_Inv L s i h]
  have h1 : (updated L s i).update_count_ = s.update_count_ := by
    simp [updated, AllJudgement_eq]
  have h2 : (updated L s i).output_interval_ = s.output_interval_ := by
    simp [updated, AllJudgement_eq]
  simp only [h1, hc, if_true, hh, hq, h2, nextCount]
  split <;> simp [*]

theorem Measure_some_cases (L : QuaternionOps) (s : StarSensor) (i : TickInput) (h : Inv s)
    (q : Quaternion) (s' : StarSensor) (hm : Measure L s i = some (q, s')) :
    s' = { updated L s i with measured_quaternion_i2c_ := q, update_count_ := nextCount s } ∧
      ((s.update_count_ ≠ 0 ∧ q = s.measured_quaternion_i2c_) ∨
        (s.update_count_ = 0 ∧ 0 ≤ hist (updated L s i) ∧
          (updated L s i).delay_buffer_[(hist (updated L s i)).toNat]? = some q)) := by
  by_cases hc : s.update_count_ = 0
  · by_cases hh : 0 ≤ hist (updated L s i)
    · cases hq : (updated L s i).delay_buffer_[(hist (updated L s i)).toNat]? with
      | none =>
        have h1 : (updated L s i).update_count_ = s.update_count_ := by
          simp [updated, AllJudgement_eq]
        simp [Measure, update_of_Inv L s i h, h1, hc, hh, hq] at hm
      | some q0 =>
        rw [Measure_refresh L s i h hc q0 hh hq] at hm
        simp only [Option.some.injEq, Prod.mk.injEq] at hm
        obtain ⟨rfl, rfl⟩ := hm
        exact ⟨rfl, Or.inr ⟨hc, hh, rfl⟩⟩
    · have h1 : (updated L s i).update_count_ = s.update_count_ := by
        simp [updated, AllJudgement_eq]
      simp [Measure, update_of_Inv L s i h, h1, hc, hh] at hm
  · rw [Measure_frozen L s i h hc] at hm
    simp only [Option.some.injEq, Prod.mk.injEq] at hm
    obtain ⟨rfl, rfl⟩ := hm
    refine ⟨?_, Or.inl ⟨hc, rfl⟩⟩
    simp [updated, AllJudgement_eq]

theorem updated_Inv (L : QuaternionOps) (s : StarSensor) (i : TickInput) (h : Inv s) :
    Inv (updated L s i) := by
  obtain ⟨h1, h2, h3, h4⟩ := h
  have hpos : 0 < s.max_delay_ := by omega
  refine ⟨?_, ?_, ?_, ?_⟩
  · simpa [updated, AllJudgement_eq] using h1
  · simpa [updated, AllJudgement_eq] using h2
  · simpa [updated, AllJudgement_eq] using Int.emod_nonneg _ (by omega)
  · simpa [updated, AllJudgement_eq] using Int.emod_lt_of_pos _ hpos

theorem Measure_Inv (L : QuaternionOps) (s : StarSensor) (i : TickInput) (h : Inv s)
    (q : Quaternion) (s' : StarSensor) (hm : Measure L s i = some (q, s')) : Inv s' := by
  obtain ⟨rfl, -⟩ := Measure_some_cases L s i h q s' hm
  exact updated_Inv L s i h

theorem stateAfter_succ_some (L : QuaternionOps) (s0 : StarSensor) (inp : Nat → TickInput)
    (n : Nat) (s' : StarSensor) (h : stateAfter L s0 inp (n + 1) = some s') :
    ∃ s q, stateAfter L s0 inp n = some s ∧ Measure L s (inp n) = some (q, s') := by
  simp only [stateAfter] at h
  cases hs : stateAfter L s0 inp n with
  | none => simp [hs] at h
  | some s =>
    simp only [hs] at h
    cases hq : Measure L s (inp n) with
    | none => simp [hq] at h
    | some r =>
      obtain ⟨q, s1⟩ := r
      simp only [hq, Option.map_some', Option.some.injEq] at h
      subst h
      exact ⟨s, q, rfl, hq⟩

theorem stateAfter_Inv (L : QuaternionOps) (s0 : StarSensor) (inp : Nat → TickInput)
    (h0 : Inv s0) (n : Nat) (s : StarSensor) (h : stateAfter L s0 inp n = some s) : Inv s := by
  induction n generalizing s with
  | zero =>
    simp only [stateAfter, Option.some.injEq] at h
    subst h
    exact h0
  | succ n ih =>
    obtain ⟨s1, q, h1, h2⟩ := stateAfter_succ_some L s0 inp n s h
    exact Measure_Inv L s1 (inp n) (ih s1 h1) q s h2

/-! ## The ring buffer: a run of calls -/

theorem Measure_SameConfig (L : QuaternionOps) (s : StarSensor) (i : TickInput) (h : Inv s)
    (q : Quaternion) (s' : StarSensor) (hm : Measure L s i = some (q, s')) :
    SameConfig s' s := by
  obtain ⟨rfl, -⟩ := Measure_some_cases L s i h q s' hm
  simp [SameConfig, updated, AllJudgement_eq]

theorem observed_quaternion_congr (L : QuaternionOps) (s s0 : StarSensor) (i : TickInput)
    (h : SameConfig s s0) : observed_quaternion L s i = observed_quaternion L s0 i := by
  obtain ⟨h1, h2, h3, h4, -⟩ := h
  simp [observed_quaternion, h1, h2, h3, h4]

theorem mod_ne_of_lt_of_lt {t n m : Nat} (h1 : t < n) (h2 : n < t + m) : t % m ≠ n % m := by
  intro h
  have hd : m ∣ n - t := (Nat.modEq_iff_dvd' (le_of_lt h1)).mp h
  have := Nat.le_of_dvd (by omega) hd
  omega

theorem succ_mod_cases (n k : Nat) (hk : 1 ≤ k) :
    (n % k + 1 = k ∧ (n + 1) % k = 0) ∨ (n % k + 1 < k ∧ (n + 1) % k = n % k + 1) := by
  have hlt : n % k < k := Nat.mod_lt _ (by omega)
  have hsucc : (n + 1) % k = (n % k + 1) % k := by rw [Nat.mod_add_mod]
  by_cases h : n % k + 1 = k
  · left
    refine ⟨h, ?_⟩
    rw [hsucc, h, Nat.mod_self]
  · right
    have h2 : n % k + 1 < k := by omega
    exact ⟨h2, by rw [hsucc, Nat.mod_eq_of_lt h2]⟩

theorem stateAfter_RunInv (L : QuaternionOps) (s0 : StarSensor) (inp : Nat → TickInput)
    (h0 : Inv s0) (hpos : s0.buffer_position_ = 0) (hcnt : s0.update_count_ = 0)
    (hI : 1 ≤ s0.output_interval_) (hI2 : s0.output_interval_ < 2 ^ 64)
    (n : Nat) (s : StarSensor) (h : stateAfter L s0 inp n = some s) :
    RunInv L s0 inp n s := by
  induction n generalizing s with
  | zero =>
    simp only [stateAfter, Option.some.injEq] at h
    subst h
    exact ⟨h0, by simp [SameConfig], by simp [hpos], by simp [hcnt], by intro t ht; omega⟩
  | succ n ih =>
    obtain ⟨s1, q, h1, h2⟩ := stateAfter_succ_some L s0 inp n s h
    have r := ih s1 h1
    have hcfg := Measure_SameConfig L s1 (inp n) r.inv q s h2
    obtain ⟨hs, -⟩ := Measure_some_cases L s1 (inp n) r.inv q s h2
    obtain ⟨c1, c2, c3, c4, c5, c6, c7⟩ := r.config
    obtain ⟨i1, i2, i3, i4⟩ := r.inv
    have hM : s0.max_delay_ = ((s0.max_delay_.toNat : Nat) : Int) := by
      rw [Int.toNat_of_nonneg]; omega
    have hm1 : 1 ≤ s0.max_delay_.toNat := by omega
    refine ⟨Measure_Inv L s1 (inp n) r.inv q s h2, ?_, ?_, ?_, ?_⟩
    · obtain ⟨d1, d2, d3, d4, d5, d6, d7⟩ := hcfg
      exact ⟨d1.trans c1, d2.trans c2, d3.trans c3, d4.trans c4, d5.trans c5, d6.trans c6,
        d7.trans c7⟩
    · subst hs
      simp only [updated, AllJudgement_eq]
      rw [r.cursor, c5, hM]
      norm_cast
      rw [Nat.mod_add_mod]
    · subst hs
      simp only [nextCount, c7, r.count]
      have hlt : n % s0.output_interval_ < s0.output_interval_ := Nat.mod_lt _ (by omega)
      have hsmall : (n % s0.output_interval_ + 1) % 2 ^ 64 = n % s0.output_interval_ + 1 :=
        Nat.mod_eq_of_lt (by omega)
      rw [hsmall]
      rcases succ_mod_cases n s0.output_interval_ hI with ⟨a, b⟩ | ⟨a, b⟩
      · simp [a, b]
      · have : n % s0.output_interval_ + 1 ≠ s0.output_interval_ := by omega
        simp [this, b]
    · intro t ht hle
      subst hs
      simp only [updated, AllJudgement_eq]
      have hcur : s1.buffer_position_.toNat = n % s0.max_delay_.toNat := by
        rw [r.cursor]; exact Int.toNat_ofNat _
      rw [hcur]
      have hlen : s1.delay_buffer_.length = s0.max_delay_.toNat := by omega
      by_cases htn : t = n
      · subst htn
        rw [List.getElem?_set_self (by rw [hlen]; exact Nat.mod_lt _ (by omega))]
        rw [observed_quaternion_congr L s1 s0 (inp t) r.config]
      · have hlt : t < n := by omega
        rw [List.getElem?_set_ne (fun e => mod_ne_of_lt_of_lt hlt (by omega) e.symm)]
        exact r.slots t hlt (by omega)

theorem toInt32_of_range (x : Int) (h1 : -(2 ^ 31) ≤ x) (h2 : x < 2 ^ 31) : toInt32 x = x := by
  unfold toInt32
  norm_num at h1 h2 ⊢
  omega

theorem hist_eq (s : StarSensor) :
    hist s = if hist_raw s < 0 then s.max_delay_ - 1 else hist_raw s := rfl

theorem hist_raw_updated (L : QuaternionOps) (s : StarSensor) (i : TickInput) (h : Inv s)
    (hM : s.max_delay_ < 2 ^ 31) (hd : s.output_delay_ < 2 ^ 31) :
    hist_raw (updated L s i)
      = (s.buffer_position_ + 1) % s.max_delay_ - (s.output_delay_ : Int) - 1 := by
  obtain ⟨h1, h2, h3, h4⟩ := h
  have hpos : 0 < s.max_delay_ := by omega
  have a := Int.emod_nonneg (s.buffer_position_ + 1) (ne_of_gt hpos)
  have b := Int.emod_lt_of_pos (s.buffer_position_ + 1) hpos
  simp only [hist_raw, updated, AllJudgement_eq]
  apply toInt32_of_range
  · norm_num at hM hd ⊢
    omega
  · norm_num at hM hd ⊢
    omega

theorem hist_updated_range (L : QuaternionOps) (s : StarSensor) (i : TickInput) (h : Inv s)
    (hM : s.max_delay_ < 2 ^ 31) (hd : s.output_delay_ < 2 ^ 31) :
    0 ≤ hist (updated L s i) ∧ hist (updated L s i) < s.max_delay_ := by
  have hr := hist_raw_updated L s i h hM hd
  obtain ⟨h1, h2, h3, h4⟩ := h
  have hpos : 0 < s.max_delay_ := by omega
  have b := Int.emod_lt_of_pos (s.buffer_position_ + 1) hpos
  have hmax : (updated L s i).max_delay_ = s.max_delay_ := by simp [updated, AllJudgement_eq]
  rw [hist_eq, hmax, hr]
  split <;> omega

theorem Measure_total (L : QuaternionOps) (s : StarSensor) (i : TickInput) (h : Inv s)
    (hM : s.max_delay_ < 2 ^ 31) (hd : s.output_delay_ < 2 ^ 31) :
    ∃ q s', Measure L s i = some (q, s') := by
  by_cases hc : s.update_count_ = 0
  · obtain ⟨a, b⟩ := hist_updated_range L s i h hM hd
    have hlen : (updated L s i).delay_buffer_.length = s.delay_buffer_.length := by
      simp [updated, AllJudgement_eq]
    have hlt : (hist (updated L s i)).toNat < (updated L s i).delay_buffer_.length := by
      have := h.2.1
      omega
    exact ⟨_, _, Measure_refresh L s i h hc _ a (List.getElem?_eq_getElem hlt)⟩
  · exact ⟨_, _, Measure_frozen L s i h hc⟩

theorem stateAfter_total (L : QuaternionOps) (s0 : StarSensor) (inp : Nat → TickInput)
    (h0 : Inv s0) (hM : s0.max_delay_ < 2 ^ 31) (hd : s0.output_delay_ < 2 ^ 31) (n : Nat) :
    ∃ s, stateAfter L s0 inp n = some s ∧ Inv s ∧ SameConfig s s0 := by
  induction n with
  | zero => exact ⟨s0, rfl, h0, by simp [SameConfig]⟩
  | succ n ih =>
    obtain ⟨s, hs, hinv, hcfg⟩ := ih
    obtain ⟨c1, c2, c3, c4, c5, c6, c7⟩ := hcfg
    obtain ⟨q, s', hm⟩ := Measure_total L s (inp n) hinv (by rw [c5]; exact hM)
      (by rw [c6]; exact hd)
    obtain ⟨d1, d2, d3, d4, d5, d6, d7⟩ := Measure_SameConfig L s (inp n) hinv q s' hm
    refine ⟨s', ?_, Measure_Inv L s (inp n) hinv q s' hm, d1.trans c1, d2.trans c2, d3.trans c3,
      d4.trans c4, d5.trans c5, d6.trans c6, d7.trans c7⟩
    simp [stateAfter, hs, hm]

theorem RunInv_updated_slots (L : QuaternionOps) (s0 : StarSensor) (inp : Nat → TickInput)
    (n : Nat) (s : StarSensor) (r : RunInv L s0 inp n s) (t : Nat) (ht : t < n + 1)
    (hle : n + 1 ≤ t + s0.max_delay_.toNat) :
    (updated L s (inp n)).delay_buffer_[t % s0.max_delay_.toNat]?
      = some (observed_quaternion L s0 (inp t)) := by
  obtain ⟨c1, c2, c3, c4, c5, c6, c7⟩ := r.config
  obtain ⟨i1, i2, i3, i4⟩ := r.inv
  simp only [updated, AllJudgement_eq]
  have hcur : s.buffer_position_.toNat = n % s0.max_delay_.toNat := by
    rw [r.cursor]; exact Int.toNat_ofNat _
  rw [hcur]
  have hlen : s.delay_buffer_.length = s0.max_delay_.toNat := by omega
  by_cases htn : t = n
  · subst htn
    rw [List.getElem?_set_self (by rw [hlen]; exact Nat.mod_lt _ (by omega))]
    rw [observed_quaternion_congr L s s0 (inp t) r.config]
  · have hlt : t < n := by omega
    rw [List.getElem?_set_ne (fun e => mod_ne_of_lt_of_lt hlt (by omega) e.symm)]
    exact r.slots t hlt (by omega)

theorem sub_mod_of_le_mod (n d m : Nat) (h : d ≤ n % m) : (n - d) % m = n % m - d := by
  rcases Nat.eq_zero_or_pos m with h0 | hm
  · subst h0
    simp
  · have hlt : n % m < m := Nat.mod_lt _ hm
    have hdiv := Nat.div_add_mod n m
    have e : n - d = m * (n / m) + (n % m - d) := by omega
    rw [e, Nat.mul_add_mod, Nat.mod_eq_of_lt (by omega)]

/-- The reading of a refresh that does not run below slot zero: when the cursor
left by `update` at tick `n` is at least `output_delay_ + 1`, the call of tick `n`
returns the sample synthesized at tick `n - output_delay_`. -/
theorem delayed_read (L : QuaternionOps) (s0 : StarSensor) (inp : Nat → TickInput)
    (h0 : Inv s0) (hpos : s0.buffer_position_ = 0) (hcnt : s0.update_count_ = 0)
    (hI : 1 ≤ s0.output_interval_) (hI2 : s0.output_interval_ < 2 ^ 64)
    (hM : s0.max_delay_ < 2 ^ 31) (n : Nat) (hn : n % s0.output_interval_ = 0)
    (hd : s0.output_delay_ + 1 ≤ (n + 1) % s0.max_delay_.toNat) :
    reportAt L s0 inp n = some (observed_quaternion L s0 (inp (n - s0.output_delay_))) := by
  have hMnat : s0.max_delay_ = ((s0.max_delay_.toNat : Nat) : Int) := by
    rw [Int.toNat_of_nonneg]; have := h0.1; omega
  have hm1 : 1 ≤ s0.max_delay_.toNat := by have := h0.1; omega
  have hmodlt : (n + 1) % s0.max_delay_.toNat < s0.max_delay_.toNat := Nat.mod_lt _ (by omega)
  have hd31 : s0.output_delay_ < 2 ^ 31 := by
    have : ((s0.max_delay_.toNat : Nat) : Int) < 2 ^ 31 := by rw [← hMnat]; exact hM
    norm_num at this ⊢
    omega
  obtain ⟨s, hs, hinv, hcfg⟩ := stateAfter_total L s0 inp h0 hM hd31 n
  have r := stateAfter_RunInv L s0 inp h0 hpos hcnt hI hI2 n s hs
  obtain ⟨c1, c2, c3, c4, c5, c6, c7⟩ := hcfg
  have hc : s.update_count_ = 0 := by rw [r.count, hn]
  have hraw := hist_raw_updated L s (inp n) hinv (by rw [c5]; exact hM) (by rw [c6]; exact hd31)
  have hcursor : (s.buffer_position_ + 1) % s.max_delay_
      = (((n + 1) % s0.max_delay_.toNat : Nat) : Int) := by
    rw [r.cursor, c5, hMnat]
    norm_cast
    rw [Nat.mod_add_mod]
  rw [hcursor, c6] at hraw
  have hsucc : (n + 1) % s0.max_delay_.toNat = n % s0.max_delay_.toNat + 1 := by
    rcases succ_mod_cases n s0.max_delay_.toNat hm1 with ⟨_, b⟩ | ⟨_, b⟩
    · omega
    · exact b
  have hidx : (hist (updated L s (inp n))).toNat = (n - s0.output_delay_) % s0.max_delay_.toNat := by
    rw [sub_mod_of_le_mod n s0.output_delay_ s0.max_delay_.toNat (by omega), hist_eq, hraw]
    split <;> omega
  have hnonneg : 0 ≤ hist (updated L s (inp n)) := by
    rw [hist_eq, hraw]
    split <;> omega
  have hq : (updated L s (inp n)).delay_buffer_[(hist (updated L s (inp n))).toNat]?
      = some (observed_quaternion L s0 (inp (n - s0.output_delay_))) := by
    rw [hidx]
    exact RunInv_updated_slots L s0 inp n s r (n - s0.output_delay_) (by omega) (by omega)
  simp [reportAt, hs, Measure_refresh L s (inp n) hinv hc _ hnonneg hq]

/-! ## The constructor -/

theorem construct_eq (qb : Quaternion) (T : ℝ) (d I : Nat) (a b c r : ℝ) (m0 : Int)
    (hT : T ≠ 0) (hm : doubleToInt ((((d * 2 % 2 ^ 32 : Nat) : ℝ)) / T) = some m0) :
    construct qb T d I a b c r
      = some (constructed qb T d I a b c r (if m0 ≤ 0 then 1 else m0)) := by
  simp only [construct, Initialize, hT, if_false, hm]
  split <;> simp [constructed, Vector3.fill, *]

theorem construct_some (qb : Quaternion) (T : ℝ) (d I : Nat) (a b c r : ℝ) (s0 : StarSensor)
    (h : construct qb T d I a b c r = some s0) :
    ∃ m0 : Int, T ≠ 0 ∧ doubleToInt ((((d * 2 % 2 ^ 32 : Nat) : ℝ)) / T) = some m0 ∧
      s0 = constructed qb T d I a b c r (if m0 ≤ 0 then 1 else m0) := by
  by_cases hT : T = 0
  · simp [construct, Initialize, hT] at h
  · cases hm : doubleToInt ((((d * 2 % 2 ^ 32 : Nat) : ℝ)) / T) with
    | none =>
      simp only [construct, Initialize, hT, if_false, hm] at h
      cases h
    | some m0 =>
      rw [construct_eq qb T d I a b c r m0 hT hm] at h
      exact ⟨m0, hT, rfl, (Option.some.inj h).symm⟩

theorem doubleToInt_some (x : ℝ) (m : Int) (h : doubleToInt x = some m) :
    m = (if 0 ≤ x then ⌊x⌋ else ⌈x⌉) ∧ -(2 ^ 31) ≤ m ∧ m < 2 ^ 31 := by
  unfold doubleToInt at h
  simp only [] at h
  by_cases hr : (-(2 ^ 31) ≤ (if 0 ≤ x then ⌊x⌋ else ⌈x⌉) ∧
      (if 0 ≤ x then ⌊x⌋ else ⌈x⌉) < 2 ^ 31)
  · rw [if_pos hr] at h
    have e := Option.some.inj h
    rw [← e]
    exact ⟨rfl, hr.1, hr.2⟩
  · rw [if_neg hr] at h
    cases h

theorem constructed_Inv (qb : Quaternion) (T : ℝ) (d I : Nat) (a b c r : ℝ) (m : Int)
    (hm : 1 ≤ m) : Inv (constructed qb T d I a b c r m) := by
  refine ⟨hm, ?_, ?_, ?_⟩
  · simp only [constructed, List.length_replicate]
    omega
  · simp [constructed]
  · simp only [constructed]
    omega

theorem construct_facts (qb : Quaternion) (T : ℝ) (d I : Nat) (a b c r : ℝ) (s0 : StarSensor)
    (h : construct qb T d I a b c r = some s0) :
    Inv s0 ∧ s0.buffer_position_ = 0 ∧ s0.update_count_ = 0 ∧ s0.max_delay_ < 2 ^ 31 ∧
      s0.output_delay_ = d ∧ s0.output_interval_ = I := by
  obtain ⟨m0, -, hm, rfl⟩ := construct_some qb T d I a b c r s0 h
  obtain ⟨-, -, hlt⟩ := doubleToInt_some _ _ hm
  refine ⟨constructed_Inv _ _ _ _ _ _ _ _ _ (by split <;> omega), rfl, rfl, ?_, rfl, rfl⟩
  simp only [constructed]
  split
  · norm_num
  · exact hlt

/-! ## Concrete runs -/

theorem observed_quietTick (s : StarSensor) (q : Quaternion)
    (h : s.quaternion_b2c_ = q_identity) :
    observed_quaternion hamilton s (quietTick q) = q := by
  simp [observed_quaternion, hamilton, quietTick, h, q_identity]

theorem q_half_turn_ne_identity : q_half_turn ≠ q_identity := by
  intro h
  have := congrArg Quaternion.q_x h
  simp [q_half_turn, q_identity] at this

theorem doubleToInt_natCast (k : Nat) (hk : (k : Int) < 2 ^ 31) :
    doubleToInt (k : ℝ) = some (k : Int) := by
  have h0 : (0 : ℝ) ≤ (k : ℝ) := Nat.cast_nonneg k
  simp only [doubleToInt, h0, if_true, Int.floor_natCast]
  rw [if_pos]
  refine ⟨?_, hk⟩
  have : (0 : Int) ≤ (k : Int) := Int.natCast_nonneg k
  omega

theorem construct_eq_pos (qb : Quaternion) (T : ℝ) (d I : Nat) (a b c r : ℝ) (m0 : Int)
    (hT : T ≠ 0) (hm : doubleToInt ((((d * 2 % 2 ^ 32 : Nat) : ℝ)) / T) = some m0)
    (hpos : 1 ≤ m0) :
    construct qb T d I a b c r = some (constructed qb T d I a b c r m0) := by
  rw [construct_eq qb T d I a b c r m0 hT hm, if_neg (by omega)]

theorem construct_sampleSensor :
    construct q_identity (1 / 10) 1 5 (1 / 2) (1 / 2) (1 / 2) 1 = some sampleSensor := by
  apply construct_eq_pos _ _ _ _ _ _ _ _ 20 (by norm_num) _ (by norm_num)
  have e : (((1 * 2 % 2 ^ 32 : Nat) : ℝ)) / (1 / 10) = ((20 : Nat) : ℝ) := by norm_num
  rw [e]
  exact doubleToInt_natCast 20 (by norm_num)

theorem construct_wrapSensor :
    construct q_identity 1 10 1 (1 / 2) (1 / 2) (1 / 2) 1 = some wrapSensor := by
  apply construct_eq_pos _ _ _ _ _ _ _ _ 20 (by norm_num) _ (by norm_num)
  have e : (((10 * 2 % 2 ^ 32 : Nat) : ℝ)) / 1 = ((20 : Nat) : ℝ) := by norm_num
  rw [e]
  exact doubleToInt_natCast 20 (by norm_num)

theorem reportAt_some (L : QuaternionOps) (s0 : StarSensor) (inp : Nat → TickInput) (k : Nat)
    (q : Quaternion) (h : reportAt L s0 inp k = some q) :
    ∃ sk s, stateAfter L s0 inp k = some sk ∧ Measure L sk (inp k) = some (q, s) ∧
      stateAfter L s0 inp (k + 1) = some s := by
  unfold reportAt at h
  cases hs : stateAfter L s0 inp k with
  | none => simp [hs] at h
  | some sk =>
    simp only [hs] at h
    cases hm : Measure L sk (inp k) with
    | none => simp [hm] at h
    | some r =>
      obtain ⟨q1, s1⟩ := r
      simp only [hm, Option.map_some', Option.some.injEq] at h
      subst h
      exact ⟨sk, s1, rfl, hm, by simp [stateAfter, hs, hm]⟩

/-- The reading of a refresh whose raw history index is negative: the call of
tick `n` returns the content of the last slot, the sample of the last tick that
wrote slot `max_delay_ - 1`. -/
theorem wrapped_read (L : QuaternionOps) (s0 : StarSensor) (inp : Nat → TickInput)
    (h0 : Inv s0) (hpos : s0.buffer_position_ = 0) (hcnt : s0.update_count_ = 0)
    (hI : 1 ≤ s0.output_interval_) (hI2 : s0.output_interval_ < 2 ^ 64)
    (hM : s0.max_delay_ < 2 ^ 31) (hd31 : s0.output_delay_ < 2 ^ 31)
    (n : Nat) (hn : n % s0.output_interval_ = 0)
    (hw : (n + 1) % s0.max_delay_.toNat < s0.output_delay_ + 1)
    (hfull : s0.max_delay_.toNat ≤ n + 1) :
    reportAt L s0 inp n
      = some (observed_quaternion L s0 (inp (n - (n + 1) % s0.max_delay_.toNat))) := by
  have hMnat : s0.max_delay_ = ((s0.max_delay_.toNat : Nat) : Int) := by
    rw [Int.toNat_of_nonneg]; have := h0.1; omega
  have hm1 : 1 ≤ s0.max_delay_.toNat := by have := h0.1; omega
  have hmodlt : (n + 1) % s0.max_delay_.toNat < s0.max_delay_.toNat := Nat.mod_lt _ (by omega)
  obtain ⟨s, hs, hinv, hcfg⟩ := stateAfter_total L s0 inp h0 hM hd31 n
  have r := stateAfter_RunInv L s0 inp h0 hpos hcnt hI hI2 n s hs
  obtain ⟨c1, c2, c3, c4, c5, c6, c7⟩ := hcfg
  have hc : s.update_count_ = 0 := by rw [r.count, hn]
  have hraw := hist_raw_updated L s (inp n) hinv (by rw [c5]; exact hM) (by rw [c6]; exact hd31)
  have hcursor : (s.buffer_position_ + 1) % s.max_delay_
      = (((n + 1) % s0.max_delay_.toNat : Nat) : Int) := by
    rw [r.cursor, c5, hMnat]
    norm_cast
    rw [Nat.mod_add_mod]
  rw [hcursor, c6] at hraw
  have hmax : (updated L s (inp n)).max_delay_ = s0.max_delay_ := by
    simp [updated, AllJudgement_eq, c5]
  have hhist : hist (updated L s (inp n)) = s0.max_delay_ - 1 := by
    rw [hist_eq, hraw, hmax, if_pos (by omega)]
  have hdiv := Nat.div_add_mod (n + 1) s0.max_delay_.toNat
  have hqpos : 1 ≤ (n + 1) / s0.max_delay_.toNat := (Nat.one_le_div_iff (by omega)).mpr hfull
  have hidx : (hist (updated L s (inp n))).toNat
      = (n - (n + 1) % s0.max_delay_.toNat) % s0.max_delay_.toNat := by
    obtain ⟨j, hj⟩ : ∃ j, (n + 1) / s0.max_delay_.toNat = j + 1 := ⟨_, (Nat.sub_add_cancel hqpos).symm⟩
    rw [hj, Nat.mul_succ] at hdiv
    have e : n - (n + 1) % s0.max_delay_.toNat
        = s0.max_delay_.toNat * j + (s0.max_delay_.toNat - 1) := by omega
    rw [e, Nat.mul_add_mod, Nat.mod_eq_of_lt (by omega), hhist]
    omega
  have hq : (updated L s (inp n)).delay_buffer_[(hist (updated L s (inp n))).toNat]?
      = some (observed_quaternion L s0 (inp (n - (n + 1) % s0.max_delay_.toNat))) := by
    rw [hidx]
    exact RunInv_updated_slots L s0 inp n s r _ (by omega) (by omega)
  simp [reportAt, hs, Measure_refresh L s (inp n) hinv hc _ (by rw [hhist]; omega) hq]

/-- The first call on a sensor whose ring holds `q0` in every slot, with delay
at least one tick and capacity at least two: the raw history index is negative,
slot `max_delay_ - 1` is read, and the call returns `q0`. -/
theorem reportAt_zero (L : QuaternionOps) (s0 : StarSensor) (inp : Nat → TickInput)
    (q0 : Quaternion) (h0 : Inv s0) (hpos : s0.buffer_position_ = 0)
    (hcnt : s0.update_count_ = 0) (hM : s0.max_delay_ < 2 ^ 31) (hM2 : 2 ≤ s0.max_delay_)
    (hd1 : 1 ≤ s0.output_delay_) (hd31 : s0.output_delay_ < 2 ^ 31)
    (hbuf : s0.delay_buffer_ = List.replicate s0.max_delay_.toNat q0) :
    reportAt L s0 inp 0 = some q0 := by
  have hraw := hist_raw_updated L s0 (inp 0) h0 hM hd31
  have hmod : (s0.buffer_position_ + 1) % s0.max_delay_ = 1 := by
    rw [hpos]
    exact Int.emod_eq_of_lt (by norm_num) (by omega)
  rw [hmod] at hraw
  have hmax : (updated L s0 (inp 0)).max_delay_ = s0.max_delay_ := by
    simp [updated, AllJudgement_eq]
  have hhist : hist (updated L s0 (inp 0)) = s0.max_delay_ - 1 := by
    rw [hist_eq, hraw, hmax, if_pos (by omega)]
  have hq : (updated L s0 (inp 0)).delay_buffer_[(hist (updated L s0 (inp 0))).toNat]?
      = some q0 := by
    rw [hhist]
    simp only [updated, AllJudgement_eq, hpos, hbuf]
    rw [List.getElem?_set_ne (by simp; omega), List.getElem?_replicate, if_pos (by omega)]
  simp [reportAt, stateAfter, Measure_refresh L s0 (inp 0) h0 hcnt q0 (by rw [hhist]; omega) hq]

/-! ## Claims on the delay buffer -/

/-- C1 (as amended): the delay is `output_delay_` ticks, used as it is
configured and not divided by the step period.  For a constructed sensor with
output interval `I ≥ 1`, at every refresh tick `k * I` at which the cursor left
by `update` is at least `output_delay_ + 1` (the history index does not run
below slot zero), the quaternion returned by `Measure` is the sample that
`update` synthesized and wrote at tick `k * I - output_delay_`. -/
theorem delay_correctness (L : QuaternionOps) (qb : Quaternion) (T : ℝ) (d I : Nat)
    (a b c r : ℝ) (inp : Nat → TickInput) (s0 : StarSensor)
    (hs : construct qb T d I a b c r = some s0) (hI : 1 ≤ I) (hI2 : I < 2 ^ 32) (k : Nat)
    (hd : d + 1 ≤ (k * I + 1) % s0.max_delay_.toNat) :
    reportAt L s0 inp (k * I) = some (observed_quaternion L s0 (inp (k * I - d))) := by
  obtain ⟨h0, hpos, hcnt, hM, hdel, hint⟩ := construct_facts qb T d I a b c r s0 hs
  have hn : (k * I) % s0.output_interval_ = 0 := by rw [hint]; exact Nat.mul_mod_left k I
  have := delayed_read L s0 inp h0 hpos hcnt (by omega) (by rw [hint]; omega) hM (k * I) hn
    (by rw [hdel]; exact hd)
  rw [hdel] at this
  exact this

/-- C1, witness: step `0.1 s`, delay `1`, interval `5`, refresh tick `10`. -/
theorem delay_correctness_witness :
    construct q_identity (1 / 10) 1 5 (1 / 2) (1 / 2) (1 / 2) 1 = some sampleSensor ∧
      1 + 1 ≤ (2 * 5 + 1) % sampleSensor.max_delay_.toNat ∧
      reportAt hamilton sampleSensor (turnAt 9) (2 * 5)
        = some (observed_quaternion hamilton sampleSensor (turnAt 9 (2 * 5 - 1))) :=
  ⟨construct_sampleSensor, by simp [sampleSensor, constructed],
    delay_correctness hamilton q_identity (1 / 10) 1 5 (1 / 2) (1 / 2) (1 / 2) 1 (turnAt 9)
      sampleSensor construct_sampleSensor (by norm_num) (by norm_num) 2
      (by simp [sampleSensor, constructed])⟩

/-- C1, counterexample: with step `0.1 s`, delay `1` and interval `5` the claim
takes `d = round (1 / 0.1) = 10` ticks, so at tick `2 * 5 = 10` it promises the
sample of tick `0` (the identity); the call returns the sample of tick `9` (the
half turn). -/
theorem delay_correctness_counterexample :
    construct q_identity (1 / 10) 1 5 (1 / 2) (1 / 2) (1 / 2) 1 = some sampleSensor ∧
      round ((1 : ℝ) / (1 / 10)) = 10 ∧
      reportAt hamilton sampleSensor (turnAt 9) (2 * 5) = some q_half_turn ∧
      reportAt hamilton sampleSensor (turnAt 9) (2 * 5)
        ≠ some (observed_quaternion hamilton sampleSensor
            (turnAt 9 (2 * 5 - (round ((1 : ℝ) / (1 / 10))).toNat))) := by
  have hr : round ((1 : ℝ) / (1 / 10)) = 10 := by norm_num
  obtain ⟨h0, hpos, hcnt, hM, hdel, hint⟩ :=
    construct_facts _ _ _ _ _ _ _ _ _ construct_sampleSensor
  have hread := delayed_read hamilton sampleSensor (turnAt 9) h0 hpos hcnt
    (by rw [hint]; norm_num) (by rw [hint]; norm_num) hM (2 * 5)
    (by rw [hint]) (by rw [hdel]; simp [sampleSensor, constructed])
  have hq : sampleSensor.quaternion_b2c_ = q_identity := rfl
  rw [hdel] at hread
  have e9 : observed_quaternion hamilton sampleSensor (turnAt 9 (2 * 5 - 1)) = q_half_turn := by
    simp [turnAt, observed_quietTick _ _ hq]
  have e0 : observed_quaternion hamilton sampleSensor
      (turnAt 9 (2 * 5 - (round ((1 : ℝ) / (1 / 10))).toNat)) = q_identity := by
    rw [hr]
    simp [turnAt, observed_quietTick _ _ hq]
  rw [e9] at hread
  refine ⟨construct_sampleSensor, hr, hread, ?_⟩
  rw [hread, e0]
  intro h
  exact q_half_turn_ne_identity (Option.some.inj h)

/-- C2 (the code at the failing input): capacity `20`, delay `10` ticks,
interval `1`, the half turn sampled at tick `19`.  At tick `24` the cursor left
by `update` is `5`; the claimed slot `(5 - 10 - 1) mod 20 = 14` holds the sample
of tick `14` (the identity), but `hist` is `19` and `Measure` returns the sample
of tick `19` (the half turn). -/
theorem Measure_wrap_reads_last_slot :
    construct q_identity 1 10 1 (1 / 2) (1 / 2) (1 / 2) 1 = some wrapSensor ∧
    ∃ s, stateAfter hamilton wrapSensor (turnAt 19) 24 = some s ∧
      (updated hamilton s (turnAt 19 24)).buffer_position_ = 5 ∧
      wrappedIndex 5 10 20 = 14 ∧
      (updated hamilton s (turnAt 19 24)).delay_buffer_[14]? = some q_identity ∧
      hist (updated hamilton s (turnAt 19 24)) = 19 ∧
      (updated hamilton s (turnAt 19 24)).delay_buffer_[19]? = some q_half_turn ∧
      (Measure hamilton s (turnAt 19 24)).map Prod.fst = some q_half_turn := by
  refine ⟨construct_wrapSensor, ?_⟩
  obtain ⟨h0, hpos, hcnt, hM, hdel, hint⟩ :=
    construct_facts _ _ _ _ _ _ _ _ _ construct_wrapSensor
  have hd31 : wrapSensor.output_delay_ < 2 ^ 31 := by rw [hdel]; norm_num
  have hm : wrapSensor.max_delay_ = 20 := rfl
  have hmn : wrapSensor.max_delay_.toNat = 20 := rfl
  have hq : wrapSensor.quaternion_b2c_ = q_identity := rfl
  obtain ⟨s, hs, hinv, hcfg⟩ := stateAfter_total hamilton wrapSensor (turnAt 19) h0 hM hd31 24
  have r := stateAfter_RunInv hamilton wrapSensor (turnAt 19) h0 hpos hcnt
    (by rw [hint]) (by rw [hint]; norm_num) 24 s hs
  obtain ⟨c1, c2, c3, c4, c5, c6, c7⟩ := hcfg
  have hcur : (updated hamilton s (turnAt 19 24)).buffer_position_ = 5 := by
    simp only [updated, AllJudgement_eq]
    rw [r.cursor, c5, hmn, hm]
    norm_num
  have hraw := hist_raw_updated hamilton s (turnAt 19 24) hinv (by rw [c5]; exact hM)
    (by rw [c6]; exact hd31)
  have hcur2 : (s.buffer_position_ + 1) % s.max_delay_ = 5 := by
    rw [r.cursor, c5, hmn, hm]
    norm_num
  rw [hcur2, c6, hdel] at hraw
  have hhist : hist (updated hamilton s (turnAt 19 24)) = 19 := by
    have hmax : (updated hamilton s (turnAt 19 24)).max_delay_ = 20 := by
      simp [updated, AllJudgement_eq, c5, hm]
    rw [hist_eq, hraw, hmax]
    norm_num
  have h14 := RunInv_updated_slots hamilton wrapSensor (turnAt 19) 24 s r 14 (by norm_num)
    (by rw [hmn]; norm_num)
  have h19 := RunInv_updated_slots hamilton wrapSensor (turnAt 19) 24 s r 19 (by norm_num)
    (by rw [hmn]; norm_num)
  rw [hmn] at h14 h19
  have e14 : observed_quaternion hamilton wrapSensor (turnAt 19 14) = q_identity := by
    simp [turnAt, observed_quietTick _ _ hq]
  have e19 : observed_quaternion hamilton wrapSensor (turnAt 19 19) = q_half_turn := by
    simp [turnAt, observed_quietTick _ _ hq]
  rw [e14] at h14
  rw [e19] at h19
  have h14b : (updated hamilton s (turnAt 19 24)).delay_buffer_[14]? = some q_identity := h14
  have h19b : (updated hamilton s (turnAt 19 24)).delay_buffer_[19]? = some q_half_turn := h19
  have hc : s.update_count_ = 0 := by rw [r.count, hint]
  have hread : (updated hamilton s (turnAt 19 24)).delay_buffer_[
      (hist (updated hamilton s (turnAt 19 24))).toNat]? = some q_half_turn := by
    rw [hhist]; exact h19b
  refine ⟨s, hs, hcur, by simp [wrappedIndex], h14b, hhist, h19b, ?_⟩
  rw [Measure_refresh hamilton s (turnAt 19 24) hinv hc q_half_turn (by rw [hhist]; norm_num)
    hread]
  rfl

/-- C3: refresh schedule.  For a constructed sensor with output interval
`I ≥ 1`, a call number `n` with `n mod I ≠ 0` returns the quaternion `q` that
the call before it returned, and leaves `measured_quaternion_i2c_` equal to
`q`, whatever the inputs of the tick are. -/
theorem refresh_schedule (L : QuaternionOps) (qb : Quaternion) (T : ℝ) (d I : Nat)
    (a b c r : ℝ) (inp : Nat → TickInput) (s0 : StarSensor)
    (hs : construct qb T d I a b c r = some s0) (hI : 1 ≤ I) (hI2 : I < 2 ^ 32) (n : Nat)
    (hn : n % I ≠ 0) (q : Quaternion) (hprev : reportAt L s0 inp (n - 1) = some q) :
    reportAt L s0 inp n = some q ∧
      ∃ s s', stateAfter L s0 inp n = some s ∧ s.measured_quaternion_i2c_ = q ∧
        Measure L s (inp n) = some (q, s') ∧ s'.measured_quaternion_i2c_ = q := by
  obtain ⟨h0, hpos, hcnt, hM, hdel, hint⟩ := construct_facts qb T d I a b c r s0 hs
  obtain ⟨k, rfl⟩ : ∃ k, n = k + 1 := by
    cases n with
    | zero => simp at hn
    | succ k => exact ⟨k, rfl⟩
  simp only [Nat.add_sub_cancel] at hprev
  obtain ⟨sk, s, hsk, hm, hs1⟩ := reportAt_some L s0 inp k q hprev
  have hinvk := stateAfter_Inv L s0 inp h0 k sk hsk
  have hinv := stateAfter_Inv L s0 inp h0 (k + 1) s hs1
  have r := stateAfter_RunInv L s0 inp h0 hpos hcnt (by omega) (by rw [hint]; omega) (k + 1) s hs1
  have hmq : s.measured_quaternion_i2c_ = q := by
    obtain ⟨e, -⟩ := Measure_some_cases L sk (inp k) hinvk q s hm
    rw [e]
  have hc : s.update_count_ ≠ 0 := by rw [r.count, hint]; exact hn
  have hfz := Measure_frozen L s (inp (k + 1)) hinv hc
  rw [hmq] at hfz
  refine ⟨by simp [reportAt, hs1, hfz], s, _, hs1, hmq, hfz, ?_⟩
  simp [updated, AllJudgement_eq, hmq]

/-- C3, witness: the sensor with interval `5`; call `0` returns the identity
and so does call `1`. -/
theorem refresh_schedule_witness :
    construct q_identity (1 / 10) 1 5 (1 / 2) (1 / 2) (1 / 2) 1 = some sampleSensor ∧
      1 % 5 ≠ 0 ∧
      reportAt hamilton sampleSensor (turnAt 9) (1 - 1) = some q_identity ∧
      reportAt hamilton sampleSensor (turnAt 9) 1 = some q_identity := by
  obtain ⟨h0, hpos, hcnt, hM, hdel, hint⟩ :=
    construct_facts _ _ _ _ _ _ _ _ _ construct_sampleSensor
  have hprev : reportAt hamilton sampleSensor (turnAt 9) (1 - 1) = some q_identity :=
    reportAt_zero hamilton sampleSensor (turnAt 9) q_identity h0 hpos hcnt hM
      (by simp [sampleSensor, constructed]) (by rw [hdel]) (by rw [hdel]; norm_num) rfl
  exact ⟨construct_sampleSensor, by norm_num, hprev,
    (refresh_schedule hamilton q_identity (1 / 10) 1 5 (1 / 2) (1 / 2) (1 / 2) 1 (turnAt 9)
      sampleSensor construct_sampleSensor (by norm_num) (by norm_num) 1 (by norm_num)
      q_identity hprev).1⟩

/-- C4: in a state that satisfies the ring invariant, `update` succeeds, writes
the freshly synthesized quaternion into the slot at the cursor's value before
the call, leaves every other slot unchanged, and sets the cursor to
`(old cursor + 1) mod max_delay_`; every `Measure` call leaves the ring and the
cursor as its `update` left them, whatever `update_count_` is. -/
theorem update_writes_at_cursor (L : QuaternionOps) (s : StarSensor) (i : TickInput)
    (h : Inv s) :
    ∃ s1, update L s i = some s1 ∧
      s1.delay_buffer_[s.buffer_position_.toNat]? = some (observed_quaternion L s i) ∧
      (∀ j, j ≠ s.buffer_position_.toNat → s1.delay_buffer_[j]? = s.delay_buffer_[j]?) ∧
      s1.delay_buffer_.length = s.delay_buffer_.length ∧
      s1.buffer_position_ = (s.buffer_position_ + 1) % s.max_delay_ ∧
      ∀ q s2, Measure L s i = some (q, s2) →
        s2.delay_buffer_ = s1.delay_buffer_ ∧ s2.buffer_position_ = s1.buffer_position_ := by
  refine ⟨updated L s i, update_of_Inv L s i h, ?_, ?_, ?_, ?_, ?_⟩
  · have hlen : s.buffer_position_.toNat < s.delay_buffer_.length := by
      obtain ⟨h1, h2, h3, h4⟩ := h
      omega
    simp only [updated, AllJudgement_eq]
    exact List.getElem?_set_self hlen
  · intro j hj
    simp only [updated, AllJudgement_eq]
    exact List.getElem?_set_ne (fun e => hj e.symm)
  · simp [updated, AllJudgement_eq]
  · simp [updated, AllJudgement_eq]
  · intro q s2 hm
    obtain ⟨e, -⟩ := Measure_some_cases L s i h q s2 hm
    rw [e]
    exact ⟨rfl, rfl⟩

/-- C4, witness: the constructed sensor with capacity `20`. -/
theorem update_writes_at_cursor_witness :
    Inv sampleSensor ∧
    ∃ s1, update hamilton sampleSensor (turnAt 9 0) = some s1 ∧
      s1.delay_buffer_[sampleSensor.buffer_position_.toNat]?
        = some (observed_quaternion hamilton sampleSensor (turnAt 9 0)) ∧
      (∀ j, j ≠ sampleSensor.buffer_position_.toNat →
        s1.delay_buffer_[j]? = sampleSensor.delay_buffer_[j]?) ∧
      s1.delay_buffer_.length = sampleSensor.delay_buffer_.length ∧
      s1.buffer_position_ = (sampleSensor.buffer_position_ + 1) % sampleSensor.max_delay_ ∧
      ∀ q s2, Measure hamilton sampleSensor (turnAt 9 0) = some (q, s2) →
        s2.delay_buffer_ = s1.delay_buffer_ ∧ s2.buffer_position_ = s1.buffer_position_ :=
  ⟨constructed_Inv _ _ _ _ _ _ _ _ 20 (by norm_num),
    update_writes_at_cursor hamilton sampleSensor (turnAt 9 0)
      (constructed_Inv _ _ _ _ _ _ _ _ 20 (by norm_num))⟩

/-- C6: the state invariant.  In the state after construction and after any
number of `Measure` calls, `max_delay_ ≥ 1`, the delay buffer has exactly
`max_delay_` slots, and `0 ≤ buffer_position_ < max_delay_`. -/
theorem ring_invariant (L : QuaternionOps) (qb : Quaternion) (T : ℝ) (d I : Nat)
    (a b c r : ℝ) (inp : Nat → TickInput) (s0 : StarSensor)
    (hs : construct qb T d I a b c r = some s0) (n : Nat) (s : StarSensor)
    (h : stateAfter L s0 inp n = some s) :
    1 ≤ s.max_delay_ ∧ (s.delay_buffer_.length : Int) = s.max_delay_ ∧
      0 ≤ s.buffer_position_ ∧ s.buffer_position_ < s.max_delay_ :=
  stateAfter_Inv L s0 inp (construct_facts qb T d I a b c r s0 hs).1 n s h

/-- C6, witness: the constructed sensor with capacity `20` after `30` calls. -/
theorem ring_invariant_witness :
    construct q_identity (1 / 10) 1 5 (1 / 2) (1 / 2) (1 / 2) 1 = some sampleSensor ∧
    ∃ s, stateAfter hamilton sampleSensor (turnAt 9) 30 = some s ∧
      1 ≤ s.max_delay_ ∧ (s.delay_buffer_.length : Int) = s.max_delay_ ∧
      0 ≤ s.buffer_position_ ∧ s.buffer_position_ < s.max_delay_ := by
  obtain ⟨h0, hpos, hcnt, hM, hdel, hint⟩ :=
    construct_facts _ _ _ _ _ _ _ _ _ construct_sampleSensor
  obtain ⟨s, hs, -, -⟩ := stateAfter_total hamilton sampleSensor (turnAt 9) h0 hM
    (by rw [hdel]; norm_num) 30
  exact ⟨construct_sampleSensor, s, hs,
    ring_invariant hamilton q_identity (1 / 10) 1 5 (1 / 2) (1 / 2) (1 / 2) 1 (turnAt 9)
      sampleSensor construct_sampleSensor 30 s hs⟩

theorem doubleToInt_nonneg (x : ℝ) (h0 : 0 ≤ x) (hfit : ⌊x⌋ < 2 ^ 31) :
    doubleToInt x = some ⌊x⌋ := by
  have hfl : (0 : Int) ≤ ⌊x⌋ := Int.floor_nonneg.mpr h0
  simp only [doubleToInt, h0, if_true]
  rw [if_pos]
  exact ⟨by omega, hfit⟩

theorem construct_capacity (qb : Quaternion) (T : ℝ) (d I : Nat) (a b c r : ℝ)
    (hT : 0 < T) (hd : 2 * d < 2 ^ 32) (hfit : ⌊(2 * (d : ℝ)) / T⌋ < 2 ^ 31) :
    construct qb T d I a b c r
      = some (constructed qb T d I a b c r (max 1 ⌊(2 * (d : ℝ)) / T⌋)) := by
  have hmod : d * 2 % 2 ^ 32 = d * 2 := Nat.mod_eq_of_lt (by omega)
  have hx : (((d * 2 % 2 ^ 32 : Nat) : ℝ)) / T = (2 * (d : ℝ)) / T := by
    rw [hmod]; push_cast; ring
  have h0 : 0 ≤ (2 * (d : ℝ)) / T := by positivity
  have hdi := doubleToInt_nonneg _ h0 hfit
  rw [← hx] at hdi
  rw [construct_eq qb T d I a b c r _ (ne_of_gt hT) hdi, hx]
  congr 2
  rcases le_or_lt ⌊(2 * (d : ℝ)) / T⌋ 0 with h | h
  · rw [if_pos h, max_eq_left (by omega)]
  · rw [if_neg (by omega), max_eq_right (by omega)]

/-- C5 (as amended): after the constructor has run `Initialize`, for a step
period `> 0` and an output delay `d` with `2 * d < 2^32` (the product
`output_delay_ * 2` does not wrap in `unsigned int`) and
`⌊2 * d / step_time_s⌋ < 2^31` (the quotient fits an `int`), the capacity
`max_delay_` and the length of `delay_buffer_` equal
`max(1, ⌊2 * output_delay / step_time_s⌋)`. -/
theorem capacity_formula (qb : Quaternion) (T : ℝ) (d I : Nat) (a b c r : ℝ)
    (hT : 0 < T) (hd : 2 * d < 2 ^ 32) (hfit : ⌊(2 * (d : ℝ)) / T⌋ < 2 ^ 31) :
    ∃ s0, construct qb T d I a b c r = some s0 ∧
      s0.max_delay_ = max 1 ⌊(2 * (d : ℝ)) / T⌋ ∧
      (s0.delay_buffer_.length : Int) = max 1 ⌊(2 * (d : ℝ)) / T⌋ := by
  refine ⟨_, construct_capacity qb T d I a b c r hT hd hfit, rfl, ?_⟩
  simp only [constructed, List.length_replicate]
  have : (1 : Int) ≤ max 1 ⌊(2 * (d : ℝ)) / T⌋ := le_max_left _ _
  omega

/-- C5, witness: step `0.1 s` and delay `1` give capacity `20`. -/
theorem capacity_formula_witness :
    (0 : ℝ) < 1 / 10 ∧ 2 * 1 < 2 ^ 32 ∧ ⌊(2 * ((1 : Nat) : ℝ)) / (1 / 10)⌋ < 2 ^ 31 ∧
      max 1 ⌊(2 * ((1 : Nat) : ℝ)) / (1 / 10)⌋ = 20 ∧
      ∃ s0, construct q_identity (1 / 10) 1 5 (1 / 2) (1 / 2) (1 / 2) 1 = some s0 ∧
        s0.max_delay_ = max 1 ⌊(2 * ((1 : Nat) : ℝ)) / (1 / 10)⌋ ∧
        (s0.delay_buffer_.length : Int) = max 1 ⌊(2 * ((1 : Nat) : ℝ)) / (1 / 10)⌋ :=
  ⟨by norm_num, by norm_num, by norm_num, by norm_num,
    capacity_formula q_identity (1 / 10) 1 5 (1 / 2) (1 / 2) (1 / 2) 1 (by norm_num)
      (by norm_num) (by norm_num)⟩

/-- C5, counterexample: with step `1 s` and output delay `2^31` the product
`output_delay_ * 2` wraps to `0` in `unsigned int`, and the constructor leaves
capacity `1`, not `max(1, ⌊2 * 2^31 / 1⌋) = 2^32`. -/
theorem capacity_formula_counterexample :
    ∃ s0, construct q_identity 1 2147483648 5 (1 / 2) (1 / 2) (1 / 2) 1 = some s0 ∧
      s0.max_delay_ = 1 ∧ s0.delay_buffer_.length = 1 ∧
      max 1 ⌊(2 * ((2147483648 : Nat) : ℝ)) / 1⌋ = 4294967296 ∧
      s0.max_delay_ ≠ max 1 ⌊(2 * ((2147483648 : Nat) : ℝ)) / 1⌋ := by
  have e : (((2147483648 * 2 % 2 ^ 32 : Nat) : ℝ)) / 1 = ((0 : Nat) : ℝ) := by norm_num
  have hdi : doubleToInt ((((2147483648 * 2 % 2 ^ 32 : Nat) : ℝ)) / 1) = some 0 := by
    rw [e]
    exact doubleToInt_natCast 0 (by norm_num)
  have hc := construct_eq q_identity 1 2147483648 5 (1 / 2) (1 / 2) (1 / 2) 1 0 (by norm_num) hdi
  rw [if_pos (le_refl 0)] at hc
  have hmax : max 1 ⌊(2 * ((2147483648 : Nat) : ℝ)) / 1⌋ = 4294967296 := by norm_num
  refine ⟨_, hc, rfl, by simp [constructed], hmax, ?_⟩
  rw [hmax]
  simp [constructed]

/-! ## Validity judgement -/

theorem SunJudgement_cases (L : QuaternionOps) (s : StarSensor) (v : Vector3) :
    SunJudgement L s v = 0 ∨ SunJudgement L s v = 1 := by
  unfold SunJudgement
  simp only []
  split
  · exact Or.inr rfl
  · exact Or.inl rfl

theorem EarthJudgement_cases (L : QuaternionOps) (s : StarSensor) (v : Vector3) :
    EarthJudgement L s v = 0 ∨ EarthJudgement L s v = 1 := by
  unfold EarthJudgement
  simp only []
  split
  · exact Or.inr rfl
  · exact Or.inl rfl

theorem MoonJudgement_cases (L : QuaternionOps) (s : StarSensor) (v : Vector3) :
    MoonJudgement L s v = 0 ∨ MoonJudgement L s v = 1 := by
  unfold MoonJudgement
  simp only []
  split
  · exact Or.inr rfl
  · exact Or.inl rfl

theorem CaptureRateJudgement_cases (s : StarSensor) (v : Vector3) :
    CaptureRateJudgement s v = 0 ∨ CaptureRateJudgement s v = 1 := by
  unfold CaptureRateJudgement
  simp only []
  split
  · exact Or.inr rfl
  · exact Or.inl rfl

theorem AllJudgement_error_flag (L : QuaternionOps) (s : StarSensor) (i : TickInput) :
    (AllJudgement L s i).error_flag_ = decide (0 < SunJudgement L s i.sun_b +
      EarthJudgement L s i.earth_b + MoonJudgement L s i.moon_b +
      CaptureRateJudgement s i.omega_b_rad_s) := by
  rw [AllJudgement_eq]

/-- C7: after `AllJudgement`, `error_flag_` is true exactly when the sum of the
four 0/1 signals is positive, which is exactly when at least one of
`SunJudgement`, `EarthJudgement`, `MoonJudgement`, `CaptureRateJudgement`
returns `1` on the inputs of the tick; the flag that results is the same for
either previous value of `error_flag_`. -/
theorem AllJudgement_flag_iff (L : QuaternionOps) (s : StarSensor) (i : TickInput) :
    ((AllJudgement L s i).error_flag_ = true ↔
        0 < SunJudgement L s i.sun_b + EarthJudgement L s i.earth_b +
          MoonJudgement L s i.moon_b + CaptureRateJudgement s i.omega_b_rad_s) ∧
      ((AllJudgement L s i).error_flag_ = true ↔
        (SunJudgement L s i.sun_b = 1 ∨ EarthJudgement L s i.earth_b = 1 ∨
          MoonJudgement L s i.moon_b = 1 ∨ CaptureRateJudgement s i.omega_b_rad_s = 1)) ∧
      ∀ previous : Bool,
        (AllJudgement L { s with error_flag_ := previous } i).error_flag_
          = (AllJudgement L s i).error_flag_ := by
  have hs := SunJudgement_cases L s i.sun_b
  have he := EarthJudgement_cases L s i.earth_b
  have hm := MoonJudgement_cases L s i.moon_b
  have hc := CaptureRateJudgement_cases s i.omega_b_rad_s
  refine ⟨?_, ?_, ?_⟩
  · rw [AllJudgement_error_flag, decide_eq_true_iff]
  · rw [AllJudgement_error_flag, decide_eq_true_iff]
    constructor
    · intro h
      omega
    · intro h
      omega
  · intro previous
    rw [AllJudgement_error_flag, AllJudgement_error_flag]
    rfl

theorem InnerProduct_self_nonneg (v : Vector3) : 0 ≤ InnerProduct v v := by
  unfold InnerProduct
  nlinarith [mul_self_nonneg v.x, mul_self_nonneg v.y, mul_self_nonneg v.z]

theorem CalcNorm_nonneg (v : Vector3) : 0 ≤ v.CalcNorm := Real.sqrt_nonneg _

theorem CalcNorm_smul (c : ℝ) (hc : 0 ≤ c) (v : Vector3) :
    (Vector3.smul c v).CalcNorm = c * v.CalcNorm := by
  have e : InnerProduct (Vector3.smul c v) (Vector3.smul c v) = c * c * InnerProduct v v := by
    simp only [InnerProduct, Vector3.smul]
    ring
  unfold Vector3.CalcNorm
  rw [e, Real.sqrt_mul (mul_self_nonneg c), Real.sqrt_mul_self hc]

theorem CalcNormalizedVector_smul (c : ℝ) (hc : 0 < c) (v : Vector3) :
    (Vector3.smul c v).CalcNormalizedVector = v.CalcNormalizedVector := by
  have hn := CalcNorm_smul c (le_of_lt hc) v
  have hc0 : c ≠ 0 := ne_of_gt hc
  unfold Vector3.CalcNormalizedVector
  rw [hn]
  simp only [Vector3.smul]
  rw [mul_div_mul_left _ _ hc0, mul_div_mul_left _ _ hc0, mul_div_mul_left _ _ hc0]

theorem CalAngleVector_rad_smul (c : ℝ) (hc : 0 < c) (v w : Vector3) :
    CalAngleVector_rad (Vector3.smul c v) w = CalAngleVector_rad v w := by
  unfold CalAngleVector_rad
  simp only [CalcNormalizedVector_smul c hc v]

theorem atan2_of_pos (y x : ℝ) (hx : 0 < x) : atan2 y x = Real.arctan (y / x) := by
  unfold atan2
  rw [if_pos hx]

theorem arctan_pos_of_pos (x : ℝ) (hx : 0 < x) : 0 < Real.arctan x := by
  have := Real.arctan_strictMono hx
  rwa [Real.arctan_zero] at this

theorem arctan_lt_self_of_pos (x : ℝ) (hx : 0 < x) : Real.arctan x < x := by
  have h1 := arctan_pos_of_pos x hx
  have h2 := Real.arctan_lt_pi_div_two x
  have := Real.lt_tan h1 h2
  rwa [Real.tan_arctan] at this

theorem earth_equatorial_radius_m_pos : 0 < earth_equatorial_radius_m := by
  unfold earth_equatorial_radius_m
  norm_num

theorem atan2_earth_pos (x : ℝ) (hx : 0 ≤ x) : 0 < atan2 earth_equatorial_radius_m x := by
  have hR := earth_equatorial_radius_m_pos
  rcases lt_or_eq_of_le hx with h | h
  · rw [atan2_of_pos _ _ h]
    exact arctan_pos_of_pos _ (div_pos hR h)
  · subst h
    unfold atan2
    rw [if_neg (lt_irrefl 0), if_neg (lt_irrefl 0), if_pos hR]
    exact div_pos Real.pi_pos (by norm_num)

theorem atan2_earth_le (x : ℝ) (hx : 0 ≤ x) :
    atan2 earth_equatorial_radius_m x ≤ Real.pi / 2 := by
  have hR := earth_equatorial_radius_m_pos
  rcases lt_or_eq_of_le hx with h | h
  · rw [atan2_of_pos _ _ h]
    exact le_of_lt (Real.arctan_lt_pi_div_two _)
  · subst h
    unfold atan2
    rw [if_neg (lt_irrefl 0), if_neg (lt_irrefl 0), if_pos hR]

/-- C8: when the boresight-to-sun angle is at least the sun forbidden angle, the
boresight-to-moon angle at least the moon forbidden angle, the
boresight-to-earth-edge angle (centre angle minus `atan2(radius, range)`) at
least the earth forbidden angle, and the norm of the angular velocity at most
`capture_rate_limit_rad_s_`, `AllJudgement` leaves `error_flag_` false, and so
does the `update` that runs it. -/
theorem AllJudgement_valid (L : QuaternionOps) (s : StarSensor) (i : TickInput)
    (hsun : s.sun_forbidden_angle_rad_ ≤ CalAngleVector_rad i.sun_b (sight_b L s))
    (hmoon : s.moon_forbidden_angle_rad_ ≤ CalAngleVector_rad i.moon_b (sight_b L s))
    (hearth : s.earth_forbidden_angle_rad_ ≤ CalAngleVector_rad i.earth_b (sight_b L s)
      - atan2 earth_equatorial_radius_m i.earth_b.CalcNorm)
    (hrate : i.omega_b_rad_s.CalcNorm ≤ s.capture_rate_limit_rad_s_) :
    (AllJudgement L s i).error_flag_ = false ∧
      ∀ s1, update L s i = some s1 → s1.error_flag_ = false := by
  have h1 : SunJudgement L s i.sun_b = 0 := by
    unfold SunJudgement
    simp only []
    rw [if_neg (not_lt.mpr hsun)]
  have h2 : EarthJudgement L s i.earth_b = 0 := by
    unfold EarthJudgement
    simp only []
    rw [if_neg (not_lt.mpr hearth)]
  have h3 : MoonJudgement L s i.moon_b = 0 := by
    unfold MoonJudgement
    simp only []
    rw [if_neg (not_lt.mpr hmoon)]
  have h4 : CaptureRateJudgement s i.omega_b_rad_s = 0 := by
    unfold CaptureRateJudgement
    simp only []
    rw [if_neg (not_lt.mpr hrate)]
  have hflag : (AllJudgement L s i).error_flag_ = false := by
    rw [AllJudgement_error_flag, h1, h2, h3, h4]
    rfl
  refine ⟨hflag, ?_⟩
  intro s1 hu
  unfold update at hu
  simp only [] at hu
  split at hu
  · split at hu
    · rw [← Option.some.inj hu]
      exact hflag
    · cases hu
  · cases hu

theorem sight_b_constructed (T : ℝ) (d I : Nat) (a b c r : ℝ) (m : Int) :
    sight_b hamilton (constructed q_identity T d I a b c r m) = ⟨1, 0, 0⟩ := by
  simp [sight_b, hamilton, constructed, q_identity]

theorem CalcNorm_axis1 (k : ℝ) (hk : 0 ≤ k) : (Vector3.mk k 0 0).CalcNorm = k := by
  simp [Vector3.CalcNorm, InnerProduct, Real.sqrt_mul_self hk]

theorem CalcNorm_axis1_neg (k : ℝ) (hk : 0 ≤ k) : (Vector3.mk (-k) 0 0).CalcNorm = k := by
  simp [Vector3.CalcNorm, InnerProduct, Real.sqrt_mul_self hk]

theorem CalcNorm_axis2 (k : ℝ) (hk : 0 ≤ k) : (Vector3.mk 0 k 0).CalcNorm = k := by
  simp [Vector3.CalcNorm, InnerProduct, Real.sqrt_mul_self hk]

theorem CalAngleVector_rad_behind (k : ℝ) (hk : 0 < k) :
    CalAngleVector_rad ⟨-k, 0, 0⟩ ⟨1, 0, 0⟩ = Real.pi := by
  have h1 := CalcNorm_axis1_neg k (le_of_lt hk)
  have h2 := CalcNorm_axis1 1 (by norm_num)
  have hk0 : k ≠ 0 := ne_of_gt hk
  simp only [CalAngleVector_rad, Vector3.CalcNormalizedVector, h1, h2, InnerProduct]
  rw [neg_div, div_self hk0]
  norm_num

theorem CalAngleVector_rad_ahead (k : ℝ) (hk : 0 < k) :
    CalAngleVector_rad ⟨k, 0, 0⟩ ⟨1, 0, 0⟩ = 0 := by
  have h1 := CalcNorm_axis1 k (le_of_lt hk)
  have h2 := CalcNorm_axis1 1 (by norm_num)
  have hk0 : k ≠ 0 := ne_of_gt hk
  simp only [CalAngleVector_rad, Vector3.CalcNormalizedVector, h1, h2, InnerProduct]
  rw [div_self hk0]
  norm_num

theorem CalAngleVector_rad_aside (k : ℝ) (hk : 0 < k) :
    CalAngleVector_rad ⟨0, k, 0⟩ ⟨1, 0, 0⟩ = Real.pi / 2 := by
  have h1 := CalcNorm_axis2 k (le_of_lt hk)
  have h2 := CalcNorm_axis1 1 (by norm_num)
  simp only [CalAngleVector_rad, Vector3.CalcNormalizedVector, h1, h2, InnerProduct]
  norm_num

/-- C8, witness: the sample sensor (forbidden angles `0.5 rad`, rate limit
`1 rad/s`) with sun, earth and moon behind the boresight and the spacecraft at
rest. -/
theorem AllJudgement_valid_witness :
    (AllJudgement hamilton sampleSensor (quietTick q_identity)).error_flag_ = false ∧
      ∀ s1, update hamilton sampleSensor (quietTick q_identity) = some s1 →
        s1.error_flag_ = false := by
  have hsb : sight_b hamilton sampleSensor = ⟨1, 0, 0⟩ := sight_b_constructed _ _ _ _ _ _ _ _
  have hpi := Real.pi_gt_three
  apply AllJudgement_valid
  · rw [hsb]
    show (1 / 2 : ℝ) ≤ CalAngleVector_rad ⟨-149597870700, 0, 0⟩ ⟨1, 0, 0⟩
    rw [CalAngleVector_rad_behind _ (by norm_num)]
    linarith
  · rw [hsb]
    show (1 / 2 : ℝ) ≤ CalAngleVector_rad ⟨-384400000, 0, 0⟩ ⟨1, 0, 0⟩
    rw [CalAngleVector_rad_behind _ (by norm_num)]
    linarith
  · rw [hsb]
    show (1 / 2 : ℝ) ≤ CalAngleVector_rad ⟨-7000000, 0, 0⟩ ⟨1, 0, 0⟩
      - atan2 earth_equatorial_radius_m (Vector3.mk (-7000000) 0 0).CalcNorm
    rw [CalAngleVector_rad_behind _ (by norm_num)]
    have := atan2_earth_le _ (CalcNorm_nonneg (Vector3.mk (-7000000) 0 0))
    linarith
  · show (Vector3.mk 0 0 0).CalcNorm ≤ (1 : ℝ)
    rw [CalcNorm_axis1 0 (le_refl 0)]
    norm_num

/-- C9: `EarthJudgement` returns `1` exactly when the angle between the
boresight and the earth direction minus `atan2(earth_equatorial_radius_m,
|earth_b|)` is strictly less than `earth_forbidden_angle_rad_`, and `0`
otherwise; the subtracted half-size is positive and at most `π/2`;
`SunJudgement` and `MoonJudgement` compare the centre angle itself. -/
theorem EarthJudgement_iff (L : QuaternionOps) (s : StarSensor) (v : Vector3) :
    (EarthJudgement L s v = 1 ↔
        CalAngleVector_rad v (sight_b L s) - atan2 earth_equatorial_radius_m v.CalcNorm
          < s.earth_forbidden_angle_rad_) ∧
      (EarthJudgement L s v = 0 ↔
        ¬ (CalAngleVector_rad v (sight_b L s) - atan2 earth_equatorial_radius_m v.CalcNorm
          < s.earth_forbidden_angle_rad_)) ∧
      (0 < atan2 earth_equatorial_radius_m v.CalcNorm ∧
        atan2 earth_equatorial_radius_m v.CalcNorm ≤ Real.pi / 2) ∧
      (SunJudgement L s v = 1 ↔
        CalAngleVector_rad v (sight_b L s) < s.sun_forbidden_angle_rad_) ∧
      (MoonJudgement L s v = 1 ↔
        CalAngleVector_rad v (sight_b L s) < s.moon_forbidden_angle_rad_) := by
  refine ⟨?_, ?_, ⟨atan2_earth_pos _ (CalcNorm_nonneg v), atan2_earth_le _ (CalcNorm_nonneg v)⟩,
    ?_, ?_⟩
  · unfold EarthJudgement
    simp only []
    split <;> simp [*]
  · unfold EarthJudgement
    simp only []
    split <;> simp [*]
  · unfold SunJudgement
    simp only []
    split <;> simp [*]
  · unfold MoonJudgement
    simp only []
    split <;> simp [*]

theorem EarthJudgement_far (L : QuaternionOps) (s : StarSensor) (e : Vector3)
    (hgap : s.earth_forbidden_angle_rad_ < CalAngleVector_rad e (sight_b L s))
    (c : ℝ) (hc : 0 < c)
    (hfar : earth_equatorial_radius_m
        / (CalAngleVector_rad e (sight_b L s) - s.earth_forbidden_angle_rad_)
      ≤ (Vector3.smul c e).CalcNorm) :
    EarthJudgement L s (Vector3.smul c e) = 0 := by
  have hR := earth_equatorial_radius_m_pos
  have hδ : 0 < CalAngleVector_rad e (sight_b L s) - s.earth_forbidden_angle_rad_ := by linarith
  have hx : 0 < (Vector3.smul c e).CalcNorm := lt_of_lt_of_le (div_pos hR hδ) hfar
  have hle : earth_equatorial_radius_m / (Vector3.smul c e).CalcNorm
      ≤ CalAngleVector_rad e (sight_b L s) - s.earth_forbidden_angle_rad_ := by
    rw [div_le_iff₀ hx]
    rw [div_le_iff₀ hδ] at hfar
    linarith
  have hsize := arctan_lt_self_of_pos _ (div_pos hR hx)
  unfold EarthJudgement
  simp only []
  rw [CalAngleVector_rad_smul c hc, atan2_of_pos _ _ hx, if_neg]
  linarith

/-- C10 (as amended): for every earth vector at which
`EarthJudgement` reports invalid (`1`) and whose boresight-to-earth-centre angle
is strictly greater than the earth forbidden angle, there is a range `R` such
that for every vector in the same direction (a positive multiple, which has the
same centre angle) with range at least `R` the result is `0`. -/
theorem EarthJudgement_eventually_valid (L : QuaternionOps) (s : StarSensor) (e : Vector3)
    (_hinvalid : EarthJudgement L s e = 1)
    (hgap : s.earth_forbidden_angle_rad_ < CalAngleVector_rad e (sight_b L s)) :
    ∃ R : ℝ, ∀ c : ℝ, 0 < c → R ≤ (Vector3.smul c e).CalcNorm →
      (Vector3.smul c e).CalcNorm = c * e.CalcNorm ∧
      CalAngleVector_rad (Vector3.smul c e) (sight_b L s) = CalAngleVector_rad e (sight_b L s) ∧
      EarthJudgement L s (Vector3.smul c e) = 0 :=
  ⟨earth_equatorial_radius_m
      / (CalAngleVector_rad e (sight_b L s) - s.earth_forbidden_angle_rad_),
    fun c hc hfar => ⟨CalcNorm_smul c (le_of_lt hc) e, CalAngleVector_rad_smul c hc e _,
      EarthJudgement_far L s e hgap c hc hfar⟩⟩

theorem EarthJudgement_wideSensor_aside :
    EarthJudgement hamilton wideSensor ⟨0, 7000000, 0⟩ = 1 := by
  have hsb : sight_b hamilton wideSensor = ⟨1, 0, 0⟩ := sight_b_constructed _ _ _ _ _ _ _ _
  have hn : (Vector3.mk 0 7000000 0).CalcNorm = 7000000 := CalcNorm_axis2 _ (by norm_num)
  have hx : (0 : ℝ) < earth_equatorial_radius_m / 7000000 :=
    div_pos earth_equatorial_radius_m_pos (by norm_num)
  have hinv := Real.arctan_inv_of_pos hx
  have hlt := arctan_lt_self_of_pos _ (inv_pos.mpr hx)
  have hval : (earth_equatorial_radius_m / 7000000)⁻¹ < 6 / 5 := by
    unfold earth_equatorial_radius_m
    norm_num
  unfold EarthJudgement
  simp only []
  rw [hsb, hn, CalAngleVector_rad_aside _ (by norm_num), atan2_of_pos _ _ (by norm_num), if_pos]
  show Real.pi / 2 - Real.arctan (earth_equatorial_radius_m / 7000000) < 6 / 5
  linarith

/-- C10, witness: the earth at `7000 km` at right angles to the boresight of a
sensor with earth forbidden angle `1.2 rad`: invalid there, valid from some
range on. -/
theorem EarthJudgement_eventually_valid_witness :
    0 < (Vector3.mk 0 7000000 0).CalcNorm ∧
      EarthJudgement hamilton wideSensor ⟨0, 7000000, 0⟩ = 1 ∧
      wideSensor.earth_forbidden_angle_rad_
        < CalAngleVector_rad ⟨0, 7000000, 0⟩ (sight_b hamilton wideSensor) ∧
      ∃ R : ℝ, ∀ c : ℝ, 0 < c → R ≤ (Vector3.smul c ⟨0, 7000000, 0⟩).CalcNorm →
        (Vector3.smul c ⟨0, 7000000, 0⟩).CalcNorm = c * (Vector3.mk 0 7000000 0).CalcNorm ∧
        CalAngleVector_rad (Vector3.smul c ⟨0, 7000000, 0⟩) (sight_b hamilton wideSensor)
          = CalAngleVector_rad ⟨0, 7000000, 0⟩ (sight_b hamilton wideSensor) ∧
        EarthJudgement hamilton wideSensor (Vector3.smul c ⟨0, 7000000, 0⟩) = 0 := by
  have hn : (0 : ℝ) < (Vector3.mk 0 7000000 0).CalcNorm := by
    rw [CalcNorm_axis2 _ (by norm_num)]
    norm_num
  have hgap : wideSensor.earth_forbidden_angle_rad_
      < CalAngleVector_rad ⟨0, 7000000, 0⟩ (sight_b hamilton wideSensor) := by
    have hsb : sight_b hamilton wideSensor = ⟨1, 0, 0⟩ := sight_b_constructed _ _ _ _ _ _ _ _
    rw [hsb, CalAngleVector_rad_aside _ (by norm_num)]
    show (6 / 5 : ℝ) < Real.pi / 2
    have := Real.pi_gt_three
    linarith
  exact ⟨hn, EarthJudgement_wideSensor_aside, hgap,
    EarthJudgement_eventually_valid hamilton wideSensor ⟨0, 7000000, 0⟩
      EarthJudgement_wideSensor_aside hgap⟩

/-- C10, counterexample: with the earth straight ahead of the boresight (centre
angle `0`) and earth forbidden angle `0.5 rad`, `EarthJudgement` reports `1` at
`7000 km` and at every larger range in the same direction, so no range makes it
report `0`. -/
theorem EarthJudgement_eventually_valid_counterexample :
    EarthJudgement hamilton sampleSensor ⟨7000000, 0, 0⟩ = 1 ∧
      (∀ c : ℝ, 0 < c →
        CalAngleVector_rad (Vector3.smul c ⟨7000000, 0, 0⟩) (sight_b hamilton sampleSensor) = 0 ∧
        EarthJudgement hamilton sampleSensor (Vector3.smul c ⟨7000000, 0, 0⟩) = 1) ∧
      ¬ ∃ R : ℝ, ∀ c : ℝ, 0 < c → R ≤ (Vector3.smul c ⟨7000000, 0, 0⟩).CalcNorm →
        EarthJudgement hamilton sampleSensor (Vector3.smul c ⟨7000000, 0, 0⟩) = 0 := by
  have hsb : sight_b hamilton sampleSensor = ⟨1, 0, 0⟩ := sight_b_constructed _ _ _ _ _ _ _ _
  have hangle : ∀ c : ℝ, 0 < c →
      CalAngleVector_rad (Vector3.smul c ⟨7000000, 0, 0⟩) (sight_b hamilton sampleSensor) = 0 := by
    intro c hc
    rw [CalAngleVector_rad_smul c hc, hsb, CalAngleVector_rad_ahead _ (by norm_num)]
  have hall : ∀ c : ℝ, 0 < c →
      EarthJudgement hamilton sampleSensor (Vector3.smul c ⟨7000000, 0, 0⟩) = 1 := by
    intro c hc
    have hsz := atan2_earth_pos _ (CalcNorm_nonneg (Vector3.smul c ⟨7000000, 0, 0⟩))
    have ha := hangle c hc
    unfold EarthJudgement
    simp only []
    rw [ha, if_pos]
    show 0 - atan2 earth_equatorial_radius_m (Vector3.smul c ⟨7000000, 0, 0⟩).CalcNorm
      < (1 / 2 : ℝ)
    linarith
  have hone : EarthJudgement hamilton sampleSensor ⟨7000000, 0, 0⟩ = 1 := by
    have := hall 1 (by norm_num)
    simpa [Vector3.smul] using this
  refine ⟨hone, fun c hc => ⟨hangle c hc, hall c hc⟩, ?_⟩
  rintro ⟨R, hR⟩
  have hc : (0 : ℝ) < max R 1 := lt_of_lt_of_le one_pos (le_max_right _ _)
  have hnorm : (Vector3.smul (max R 1) ⟨7000000, 0, 0⟩).CalcNorm = max R 1 * 7000000 := by
    rw [CalcNorm_smul _ (le_of_lt hc), CalcNorm_axis1 _ (by norm_num)]
  have hge : R ≤ (Vector3.smul (max R 1) ⟨7000000, 0, 0⟩).CalcNorm := by
    rw [hnorm]
    have h1 : R ≤ max R 1 := le_max_left _ _
    nlinarith
  have h0 := hR (max R 1) hc hge
  rw [hall (max R 1) hc] at h0
  exact absurd h0 (by norm_num)


/-! ## Validity flag and output cadence -/

theorem Measure_error_flag (L : QuaternionOps) (s : StarSensor) (i : TickInput) (h : Inv s)
    (q : Quaternion) (s' : StarSensor) (hm : Measure L s i = some (q, s')) :
    s'.error_flag_ = (AllJudgement L s i).error_flag_ := by
  obtain ⟨e, -⟩ := Measure_some_cases L s i h q s' hm
  rw [e]
  rfl

theorem Measure_judgement_config (L : QuaternionOps) (s : StarSensor) (i : TickInput)
    (h : Inv s) (q : Quaternion) (s' : StarSensor) (hm : Measure L s i = some (q, s')) :
    sight_b L s' = sight_b L s ∧
      s'.sun_forbidden_angle_rad_ = s.sun_forbidden_angle_rad_ ∧
      s'.earth_forbidden_angle_rad_ = s.earth_forbidden_angle_rad_ ∧
      s'.moon_forbidden_angle_rad_ = s.moon_forbidden_angle_rad_ ∧
      s'.capture_rate_limit_rad_s_ = s.capture_rate_limit_rad_s_ := by
  obtain ⟨e, -⟩ := Measure_some_cases L s i h q s' hm
  rw [e]
  simp [sight_b, updated, AllJudgement_eq]

theorem error_flag_false_of_zero (L : QuaternionOps) (s : StarSensor) (i : TickInput)
    (h1 : SunJudgement L s i.sun_b = 0) (h2 : EarthJudgement L s i.earth_b = 0)
    (h3 : MoonJudgement L s i.moon_b = 0) (h4 : CaptureRateJudgement s i.omega_b_rad_s = 0) :
    (AllJudgement L s i).error_flag_ = false := by
  rw [AllJudgement_error_flag, h1, h2, h3, h4]
  rfl

theorem error_flag_true_of_sun (L : QuaternionOps) (s : StarSensor) (i : TickInput)
    (h1 : SunJudgement L s i.sun_b = 1) : (AllJudgement L s i).error_flag_ = true := by
  have he := EarthJudgement_cases L s i.earth_b
  have hm := MoonJudgement_cases L s i.moon_b
  have hc := CaptureRateJudgement_cases s i.omega_b_rad_s
  rw [AllJudgement_error_flag, decide_eq_true_iff, h1]
  omega

theorem AllJudgement_quietTick_sampleSensor (q : Quaternion) :
    (AllJudgement hamilton sampleSensor (quietTick q)).error_flag_ = false := by
  have hsb : sight_b hamilton sampleSensor = ⟨1, 0, 0⟩ := sight_b_constructed _ _ _ _ _ _ _ _
  have hpi := Real.pi_gt_three
  apply error_flag_false_of_zero
  · unfold SunJudgement
    simp only []
    rw [hsb, if_neg]
    show ¬ CalAngleVector_rad ⟨-149597870700, 0, 0⟩ ⟨1, 0, 0⟩ < (1 / 2 : ℝ)
    rw [CalAngleVector_rad_behind _ (by norm_num)]
    linarith
  · unfold EarthJudgement
    simp only []
    rw [hsb, if_neg]
    show ¬ CalAngleVector_rad ⟨-7000000, 0, 0⟩ ⟨1, 0, 0⟩
      - atan2 earth_equatorial_radius_m (Vector3.mk (-7000000) 0 0).CalcNorm < (1 / 2 : ℝ)
    rw [CalAngleVector_rad_behind _ (by norm_num)]
    have := atan2_earth_le _ (CalcNorm_nonneg (Vector3.mk (-7000000) 0 0))
    linarith
  · unfold MoonJudgement
    simp only []
    rw [hsb, if_neg]
    show ¬ CalAngleVector_rad ⟨-384400000, 0, 0⟩ ⟨1, 0, 0⟩ < (1 / 2 : ℝ)
    rw [CalAngleVector_rad_behind _ (by norm_num)]
    linarith
  · unfold CaptureRateJudgement
    simp only []
    rw [if_neg]
    show ¬ (Vector3.mk 0 0 0).CalcNorm > (1 : ℝ)
    rw [CalcNorm_axis1 0 (le_refl 0)]
    norm_num

/-- C11 (as amended): the validity flag is refreshed on every `Measure` call,
whatever `update_count_` is at entry: `AllJudgement` runs inside `update`, so
after every call `error_flag_` is the judgement of that call's inputs, true
exactly when one of the four judgements returns `1`.  Only
`measured_quaternion_i2c_` is refreshed at the output cadence. -/
theorem error_flag_every_call (L : QuaternionOps) (s : StarSensor) (i : TickInput) (h : Inv s)
    (q : Quaternion) (s' : StarSensor) (hm : Measure L s i = some (q, s')) :
    s'.error_flag_ = (AllJudgement L s i).error_flag_ ∧
      (s'.error_flag_ = true ↔
        (SunJudgement L s i.sun_b = 1 ∨ EarthJudgement L s i.earth_b = 1 ∨
          MoonJudgement L s i.moon_b = 1 ∨ CaptureRateJudgement s i.omega_b_rad_s = 1)) ∧
      (s.update_count_ ≠ 0 → s'.measured_quaternion_i2c_ = s.measured_quaternion_i2c_) := by
  have hs := SunJudgement_cases L s i.sun_b
  have he := EarthJudgement_cases L s i.earth_b
  have hmo := MoonJudgement_cases L s i.moon_b
  have hc := CaptureRateJudgement_cases s i.omega_b_rad_s
  have hflag := Measure_error_flag L s i h q s' hm
  refine ⟨hflag, ?_, ?_⟩
  · rw [hflag, AllJudgement_error_flag, decide_eq_true_iff]
    constructor
    · intro h0
      omega
    · intro h0
      omega
  · intro hcount
    obtain ⟨e, hcase⟩ := Measure_some_cases L s i h q s' hm
    rcases hcase with ⟨-, hq⟩ | ⟨h0, -⟩
    · rw [e, hq]
    · exact absurd h0 hcount

/-- C11, witness: the first call on the sample sensor. -/
theorem error_flag_every_call_witness :
    Inv sampleSensor ∧
      ∃ q s', Measure hamilton sampleSensor (quietTick q_identity) = some (q, s') ∧
        s'.error_flag_ = (AllJudgement hamilton sampleSensor (quietTick q_identity)).error_flag_ := by
  have h0 : Inv sampleSensor := constructed_Inv _ _ _ _ _ _ _ _ 20 (by norm_num)
  obtain ⟨q, s', hm⟩ := Measure_total hamilton sampleSensor (quietTick q_identity) h0
    (by simp [sampleSensor, constructed]) (by simp [sampleSensor, constructed])
  exact ⟨h0, q, s', hm,
    (error_flag_every_call hamilton sampleSensor (quietTick q_identity) h0 q s' hm).1⟩

/-- C11, counterexample: the sample sensor (interval `5`) with the sun behind
the sensor at tick `0` and straight ahead at tick `1`.  The call of tick `1`
is not an interval boundary (`update_count_ = 1` at entry) and finds
`error_flag_` false; it leaves `error_flag_` true. -/
theorem error_flag_every_call_counterexample :
    ∃ s q s', stateAfter hamilton sampleSensor (sunAheadAt 1) 1 = some s ∧
      s.update_count_ = 1 ∧ s.error_flag_ = false ∧
      Measure hamilton s (sunAheadAt 1 1) = some (q, s') ∧ s'.error_flag_ = true := by
  obtain ⟨h0, hpos, hcnt, hM, hdel, hint⟩ :=
    construct_facts _ _ _ _ _ _ _ _ _ construct_sampleSensor
  have hd31 : sampleSensor.output_delay_ < 2 ^ 31 := by rw [hdel]; norm_num
  obtain ⟨s, hs, hinv, hcfg⟩ := stateAfter_total hamilton sampleSensor (sunAheadAt 1) h0 hM hd31 1
  obtain ⟨sp, q0, hsp, hm0⟩ := stateAfter_succ_some hamilton sampleSensor (sunAheadAt 1) 0 s hs
  have hsp0 : sp = sampleSensor := by
    simp only [stateAfter, Option.some.injEq] at hsp
    exact hsp.symm
  subst hsp0
  have r := stateAfter_RunInv hamilton sampleSensor (sunAheadAt 1) h0 hpos hcnt
    (by rw [hint]; norm_num) (by rw [hint]; norm_num) 1 s hs
  have hcount : s.update_count_ = 1 := by rw [r.count, hint]
  have hflag0 : s.error_flag_ = false := by
    rw [Measure_error_flag hamilton sampleSensor (sunAheadAt 1 0) h0 q0 s hm0]
    exact AllJudgement_quietTick_sampleSensor q_identity
  obtain ⟨c1, c2, c3, c4, c5, c6, c7⟩ := hcfg
  obtain ⟨q, s', hm⟩ := Measure_total hamilton s (sunAheadAt 1 1) hinv (by rw [c5]; exact hM)
    (by rw [c6]; exact hd31)
  obtain ⟨k1, k2, -⟩ := Measure_judgement_config hamilton sampleSensor (sunAheadAt 1 0) h0 q0 s hm0
  have hsb : sight_b hamilton s = ⟨1, 0, 0⟩ := by
    rw [k1]; exact sight_b_constructed _ _ _ _ _ _ _ _
  have hsun : SunJudgement hamilton s (sunAheadAt 1 1).sun_b = 1 := by
    unfold SunJudgement
    simp only []
    rw [hsb, k2, if_pos]
    show CalAngleVector_rad ⟨149597870700, 0, 0⟩ ⟨1, 0, 0⟩ < (1 / 2 : ℝ)
    rw [CalAngleVector_rad_ahead _ (by norm_num)]
    norm_num
  refine ⟨s, q, s', hs, hcount, hflag0, hm, ?_⟩
  rw [Measure_error_flag hamilton s (sunAheadAt 1 1) hinv q s' hm]
  exact error_flag_true_of_sun hamilton s _ hsun

end StarSensor

namespace GNSSReceiver

/-! ## GNSS receiver: the cone check -/

theorem SetGnssInfo_eq (L : GnssOps) (s : GNSSReceiver) (ant_pos : Vector3) (q_i2b : Quaternion)
    (sat : GnssSatellite) :
    SetGnssInfo L s (ant2gnss_i ant_pos sat.PositionEci) q_i2b sat.ID
      = { s with vec_gnssinfo_ := s.vec_gnssinfo_ ++ [gnss_info L s.q_b2c_ q_i2b ant_pos sat] } :=
  rfl

theorem CheckAntennaCone_body_eq (L : GnssOps) (ant_pos dir : Vector3) (q_i2b : Quaternion)
    (s : GNSSReceiver) (sat : GnssSatellite) :
    CheckAntennaCone_body L ant_pos dir q_i2b s sat
      = if counted s.gnss_id_ s.half_width_ ant_pos dir sat = true then
          { s with
            gnss_sats_visible_num_ := s.gnss_sats_visible_num_ + 1
            vec_gnssinfo_ := s.vec_gnssinfo_ ++ [gnss_info L s.q_b2c_ q_i2b ant_pos sat] }
        else s := by
  unfold CheckAntennaCone_body counted
  by_cases hc : compatible s.gnss_id_ sat.ID = false
  · simp [hc]
  · have hc' : compatible s.gnss_id_ sat.ID = true := by simpa using hc
    simp only [hc', Bool.true_and, Bool.and_eq_true, decide_eq_true_eq]
    by_cases h : inner2 dir ant_pos sat.PositionEci > Real.cos (s.half_width_ * DEG2RAD) ∧
        is_visible_ant2gnss ant_pos sat.PositionEci ≠ 0
    · simp only [h, and_self, if_true]
      rw [SetGnssInfo_eq]
      simp
    · simp [h]

/-- The state after the loop of `CheckAntennaCone` over a catalog. -/
theorem foldl_body_eq (L : GnssOps) (ant_pos dir : Vector3) (q_i2b : Quaternion)
    (catalog : List GnssSatellite) (s : GNSSReceiver) :
    catalog.foldl (CheckAntennaCone_body L ant_pos dir q_i2b) s
      = { s with
          gnss_sats_visible_num_ := s.gnss_sats_visible_num_
            + (catalog.countP (counted s.gnss_id_ s.half_width_ ant_pos dir) : Nat)
          vec_gnssinfo_ := s.vec_gnssinfo_
            ++ (catalog.filter (counted s.gnss_id_ s.half_width_ ant_pos dir)).map
                (gnss_info L s.q_b2c_ q_i2b ant_pos) } := by
  induction catalog generalizing s with
  | nil => simp
  | cons sat rest ih =>
    rw [List.foldl_cons, ih, CheckAntennaCone_body_eq]
    by_cases h : counted s.gnss_id_ s.half_width_ ant_pos dir sat = true
    · simp [h, List.countP_cons, List.filter_cons]
      omega
    · simp [h, List.countP_cons, List.filter_cons]


theorem CheckAntennaCone_eq (L : GnssOps) (s : GNSSReceiver) (catalog : List GnssSatellite)
    (pos : Vector3) (q_i2b : Quaternion) :
    CheckAntennaCone L s catalog pos q_i2b
      = { s with
          gnss_sats_visible_num_ := (catalog.countP (counted s.gnss_id_ s.half_width_
            (ant_pos_i L s pos q_i2b) (antenna_direction_i L s q_i2b)) : Nat)
          vec_gnssinfo_ := (catalog.filter (counted s.gnss_id_ s.half_width_
            (ant_pos_i L s pos q_i2b) (antenna_direction_i L s q_i2b))).map
              (gnss_info L s.q_b2c_ q_i2b (ant_pos_i L s pos q_i2b))
          is_gnss_sats_visible_ :=
            if 0 < catalog.countP (counted s.gnss_id_ s.half_width_
              (ant_pos_i L s pos q_i2b) (antenna_direction_i L s q_i2b)) then 1 else 0 } := by
  unfold CheckAntennaCone
  simp only [foldl_body_eq]
  have e1 : antenna_direction_i L { s with vec_gnssinfo_ := [] } q_i2b
      = antenna_direction_i L s q_i2b := rfl
  have e2 : ant_pos_i L { s with vec_gnssinfo_ := [] } pos q_i2b = ant_pos_i L s pos q_i2b := rfl
  simp only [e1, e2, zero_add, List.nil_append]
  by_cases h : 0 < catalog.countP (counted s.gnss_id_ s.half_width_
      (ant_pos_i L s pos q_i2b) (antenna_direction_i L s q_i2b))
  · have h' : ((catalog.countP (counted s.gnss_id_ s.half_width_
        (ant_pos_i L s pos q_i2b) (antenna_direction_i L s q_i2b)) : Nat) : Int) > 0 := by
      exact_mod_cast h
    simp only [h, h', if_true]
  · have h' : ¬ ((catalog.countP (counted s.gnss_id_ s.half_width_
        (ant_pos_i L s pos q_i2b) (antenna_direction_i L s q_i2b)) : Nat) : Int) > 0 := by
      intro hh
      exact h (by exact_mod_cast hh)
    simp only [h, h', if_false]

theorem counted_iff (gnss_id : String) (half_width : ℝ) (ant_pos dir : Vector3)
    (sat : GnssSatellite) :
    counted gnss_id half_width ant_pos dir sat = true ↔
      (sat.ID.data.headD (Char.ofNat 0) ∈ gnss_id.data ∧
        inner_product dir (ant2gnss_i_n ant_pos sat.PositionEci)
          > Real.cos (half_width * DEG2RAD) ∧
        is_visible_ant2gnss ant_pos sat.PositionEci ≠ 0) := by
  simp [counted, compatible, inner2, and_assoc]

/-- C12: after `CheckAntennaCone`, `gnss_sats_visible_num_` is the number of
catalog entries such that (1) the first character of the identifier occurs in
`gnss_id_`, (2) the unit direction from the antenna to the satellite has inner
product with the inertial boresight strictly greater than
`cos(half_width_ * DEG2RAD)`, and (3) the earth-occlusion test passes.  An
entry that fails the identifier filter is never counted, and an entry is
counted only if both the cone test and the occlusion test pass. -/
theorem visible_count (L : GnssOps) (s : GNSSReceiver) (catalog : List GnssSatellite)
    (pos : Vector3) (q_i2b : Quaternion) :
    (CheckAntennaCone L s catalog pos q_i2b).gnss_sats_visible_num_
        = (catalog.countP (counted s.gnss_id_ s.half_width_ (ant_pos_i L s pos q_i2b)
            (antenna_direction_i L s q_i2b)) : Nat) ∧
      ∀ sat : GnssSatellite,
        (counted s.gnss_id_ s.half_width_ (ant_pos_i L s pos q_i2b)
            (antenna_direction_i L s q_i2b) sat = true ↔
          (sat.ID.data.headD (Char.ofNat 0) ∈ s.gnss_id_.data ∧
            inner_product (antenna_direction_i L s q_i2b)
                (ant2gnss_i_n (ant_pos_i L s pos q_i2b) sat.PositionEci)
              > Real.cos (s.half_width_ * DEG2RAD) ∧
            is_visible_ant2gnss (ant_pos_i L s pos q_i2b) sat.PositionEci ≠ 0)) ∧
        (compatible s.gnss_id_ sat.ID = false →
          CheckAntennaCone_body L (ant_pos_i L s pos q_i2b) (antenna_direction_i L s q_i2b)
            q_i2b s sat = s) := by
  refine ⟨by rw [CheckAntennaCone_eq], fun sat => ⟨counted_iff _ _ _ _ _, ?_⟩⟩
  intro hc
  rw [CheckAntennaCone_body_eq]
  simp [counted, hc]

/-- C17: after every call of `CheckAntennaCone`, `is_gnss_sats_visible_` is `1`
if `gnss_sats_visible_num_ > 0` and `0` otherwise, `vec_gnssinfo_` has exactly
`gnss_sats_visible_num_` entries, one per counted catalog entry in catalog order
with that entry's identifier, and `gnss_sats_visible_num_` is at most the
catalog size. -/
theorem visibility_result (L : GnssOps) (s : GNSSReceiver) (catalog : List GnssSatellite)
    (pos : Vector3) (q_i2b : Quaternion) :
    ((CheckAntennaCone L s catalog pos q_i2b).is_gnss_sats_visible_ = 1 ↔
        0 < (CheckAntennaCone L s catalog pos q_i2b).gnss_sats_visible_num_) ∧
      ((CheckAntennaCone L s catalog pos q_i2b).is_gnss_sats_visible_ = 0 ↔
        ¬ 0 < (CheckAntennaCone L s catalog pos q_i2b).gnss_sats_visible_num_) ∧
      ((CheckAntennaCone L s catalog pos q_i2b).vec_gnssinfo_.length : Int)
        = (CheckAntennaCone L s catalog pos q_i2b).gnss_sats_visible_num_ ∧
      (CheckAntennaCone L s catalog pos q_i2b).vec_gnssinfo_.map GnssInfo.ID
        = ((catalog.filter (counted s.gnss_id_ s.half_width_ (ant_pos_i L s pos q_i2b)
            (antenna_direction_i L s q_i2b))).map GnssSatellite.ID) ∧
      (CheckAntennaCone L s catalog pos q_i2b).gnss_sats_visible_num_ ≤ (catalog.length : Int) := by
  rw [CheckAntennaCone_eq]
  simp only []
  refine ⟨?_, ?_, ?_, ?_, ?_⟩
  · split <;> rename_i h
    · simp only [true_iff]
      exact_mod_cast h
    · constructor
      · intro h1
        exact absurd h1 (by norm_num)
      · intro h1
        exact absurd (by exact_mod_cast h1) h
  · split <;> rename_i h
    · constructor
      · intro h1
        exact absurd h1 (by norm_num)
      · intro h1
        exact absurd (by exact_mod_cast h) h1
    · simp only [true_iff]
      intro h1
      exact h (by exact_mod_cast h1)
  · rw [List.length_map, List.countP_eq_length_filter]
  · rw [List.map_map]
    rfl
  · exact_mod_cast List.countP_le_length _


/-! ## GNSS receiver: concrete geometry -/

theorem norm_mk (x y z : ℝ) : (Vector3.mk x y z).norm = Real.sqrt (x * x + y * y + z * z) := rfl

theorem norm_axis3 (k : ℝ) (hk : 0 ≤ k) : (Vector3.mk 0 0 k).norm = k := by
  rw [norm_mk]
  simp [Real.sqrt_mul_self hk]

theorem norm_axis1 (k : ℝ) (hk : 0 ≤ k) : (Vector3.mk k 0 0).norm = k := by
  rw [norm_mk]
  simp [Real.sqrt_mul_self hk]

theorem abs_z_le_norm (v : Vector3) : |v.z| ≤ v.norm := by
  apply Real.abs_le_sqrt
  unfold inner_product
  nlinarith [mul_self_nonneg v.x, mul_self_nonneg v.y]

theorem abs_y_le_norm (v : Vector3) : |v.y| ≤ v.norm := by
  apply Real.abs_le_sqrt
  unfold inner_product
  nlinarith [mul_self_nonneg v.x, mul_self_nonneg v.z]

theorem frame_conv_inv_identity (v : Vector3) :
    gnssOps.frame_conv_inv StarSensor.q_identity v = v := by
  simp [gnssOps, StarSensor.hamilton, StarSensor.q_identity]

theorem frame_conv_identity (v : Vector3) :
    gnssOps.frame_conv StarSensor.q_identity v = v := by
  simp [gnssOps, StarSensor.hamilton, StarSensor.q_identity]

theorem antenna_direction_i_identity (s : GNSSReceiver) (h : s.q_b2c_ = StarSensor.q_identity) :
    antenna_direction_i gnssOps s StarSensor.q_identity = ⟨0, 0, 1⟩ := by
  simp [antenna_direction_i, h, frame_conv_inv_identity, Vector3.fill]

theorem ant_pos_i_identity (s : GNSSReceiver) (pos : Vector3)
    (h : s.antenna_position_b_ = ⟨0, 0, 0⟩) :
    ant_pos_i gnssOps s pos StarSensor.q_identity = pos := by
  simp [ant_pos_i, h, frame_conv_inv_identity, Vector3.add]

theorem cos_sixty : Real.cos (60 * DEG2RAD) = 1 / 2 := by
  unfold DEG2RAD
  rw [show (60 * (Real.pi / 180) : ℝ) = Real.pi / 3 by ring]
  exact Real.cos_pi_div_three

theorem cos_ninety : Real.cos (90 * DEG2RAD) = 0 := by
  unfold DEG2RAD
  rw [show (90 * (Real.pi / 180) : ℝ) = Real.pi / 2 by ring]
  exact Real.cos_pi_div_two

theorem ant2gnss_i_n_behind :
    ant2gnss_i_n ⟨0, 0, -7000000⟩ ⟨0, 0, 26000000⟩ = ⟨0, 0, 1⟩ := by
  have hv : ant2gnss_i ⟨0, 0, -7000000⟩ ⟨0, 0, 26000000⟩ = ⟨0, 0, 33000000⟩ := by
    simp only [ant2gnss_i, Vector3.sub]
    norm_num
  simp only [ant2gnss_i_n, hv, norm_axis3 33000000 (by norm_num), Vector3.smul]
  norm_num

theorem occlusion_tmp_behind :
    occlusion_tmp ⟨0, 0, -7000000⟩ ⟨0, 0, 26000000⟩ = ⟨0, 0, 230999993000000⟩ := by
  have hv : ant2gnss_i ⟨0, 0, -7000000⟩ ⟨0, 0, 26000000⟩ = ⟨0, 0, 33000000⟩ := by
    simp only [ant2gnss_i, Vector3.sub]
    norm_num
  simp only [occlusion_tmp, ant2gnss_i_n_behind, hv, inner_product, Vector3.neg, Vector3.smul,
    Vector3.add]
  norm_num

theorem is_visible_ant2gnss_behind :
    is_visible_ant2gnss ⟨0, 0, -7000000⟩ ⟨0, 0, 26000000⟩ = 1 := by
  unfold is_visible_ant2gnss
  simp only []
  rw [if_neg (by simp only [inner_product]; norm_num), occlusion_tmp_behind,
    norm_axis3 _ (by norm_num), if_neg (by norm_num)]


theorem counted_behind :
    counted coneReceiver.gnss_id_ coneReceiver.half_width_ ⟨0, 0, -7000000⟩ ⟨0, 0, 1⟩
      ⟨"G01", ⟨0, 0, 26000000⟩⟩ = true := by
  rw [counted_iff]
  refine ⟨by decide, ?_, ?_⟩
  · show inner_product ⟨0, 0, 1⟩ (ant2gnss_i_n ⟨0, 0, -7000000⟩ ⟨0, 0, 26000000⟩)
      > Real.cos (60 * DEG2RAD)
    rw [ant2gnss_i_n_behind, cos_sixty]
    simp only [inner_product]
    norm_num
  · show is_visible_ant2gnss ⟨0, 0, -7000000⟩ ⟨0, 0, 26000000⟩ ≠ 0
    rw [is_visible_ant2gnss_behind]
    norm_num

/-- C13 (the code at the failing input): the cone receiver looks along `+z`
from `(0, 0, -7000 km)`, and the GPS satellite is at `(0, 0, 26000 km)`, behind
the earth on the line through its centre.  Line 124 scales the unnormalised
`ant2gnss_i`, so `tmp = (0, 0, 230999993000000)`, its norm is not below `Re`,
the occlusion test passes and the satellite is counted visible. -/
theorem CheckAntennaCone_behind_earth :
    (6378137 : ℝ) < (Vector3.mk 0 0 (-7000000)).norm ∧
      (Vector3.mk 0 0 26000000) = Vector3.smul (-(26 / 7)) (Vector3.mk 0 0 (-7000000)) ∧
      occlusion_tmp ⟨0, 0, -7000000⟩ ⟨0, 0, 26000000⟩ = ⟨0, 0, 230999993000000⟩ ∧
      is_visible_ant2gnss ⟨0, 0, -7000000⟩ ⟨0, 0, 26000000⟩ = 1 ∧
      (CheckAntennaCone gnssOps coneReceiver behindEarthTick.catalog
        behindEarthTick.pos_true_eci behindEarthTick.q_i2b).gnss_sats_visible_num_ = 1 ∧
      (CheckAntennaCone gnssOps coneReceiver behindEarthTick.catalog
        behindEarthTick.pos_true_eci behindEarthTick.q_i2b).is_gnss_sats_visible_ = 1 ∧
      (MainRoutine gnssOps coneReceiver behindEarthTick).is_gnss_sats_visible_ = 1 := by
  have hdir : antenna_direction_i gnssOps coneReceiver StarSensor.q_identity = ⟨0, 0, 1⟩ :=
    antenna_direction_i_identity coneReceiver rfl
  have hant : ant_pos_i gnssOps coneReceiver ⟨0, 0, -7000000⟩ StarSensor.q_identity
      = ⟨0, 0, -7000000⟩ := ant_pos_i_identity coneReceiver _ rfl
  have hnorm : (Vector3.mk 0 0 (-7000000)).norm = 7000000 := by
    rw [norm_mk]
    rw [show (0 * 0 + 0 * 0 + -7000000 * -7000000 : ℝ) = 7000000 * 7000000 by norm_num]
    exact Real.sqrt_mul_self (by norm_num)
  have hcount : List.countP (counted coneReceiver.gnss_id_ coneReceiver.half_width_
      (ant_pos_i gnssOps coneReceiver ⟨0, 0, -7000000⟩ StarSensor.q_identity)
      (antenna_direction_i gnssOps coneReceiver StarSensor.q_identity))
      [(⟨"G01", ⟨0, 0, 26000000⟩⟩ : GnssSatellite)] = 1 := by
    rw [hdir, hant]
    simp [List.countP_cons, counted_behind]
  have hcone : CheckAntennaCone gnssOps coneReceiver behindEarthTick.catalog
      behindEarthTick.pos_true_eci behindEarthTick.q_i2b
      = CheckAntennaCone gnssOps coneReceiver [⟨"G01", ⟨0, 0, 26000000⟩⟩] ⟨0, 0, -7000000⟩
          StarSensor.q_identity := rfl
  have hnum : (CheckAntennaCone gnssOps coneReceiver behindEarthTick.catalog
      behindEarthTick.pos_true_eci behindEarthTick.q_i2b).gnss_sats_visible_num_ = 1 := by
    rw [hcone, CheckAntennaCone_eq]
    simp only [hcount]
    rfl
  have hflag : (CheckAntennaCone gnssOps coneReceiver behindEarthTick.catalog
      behindEarthTick.pos_true_eci behindEarthTick.q_i2b).is_gnss_sats_visible_ = 1 := by
    rw [hcone, CheckAntennaCone_eq]
    simp only [hcount]
    rfl
  refine ⟨by rw [hnorm]; norm_num, ?_, occlusion_tmp_behind, is_visible_ant2gnss_behind,
    hnum, hflag, ?_⟩
  · simp only [Vector3.smul]
    norm_num
  · have hcheck : CheckAntenna gnssOps coneReceiver behindEarthTick.catalog
        behindEarthTick.pos_true_eci behindEarthTick.q_i2b
        = CheckAntennaCone gnssOps coneReceiver behindEarthTick.catalog
          behindEarthTick.pos_true_eci behindEarthTick.q_i2b := rfl
    unfold MainRoutine
    simp only [hcheck, hflag, if_true]
    exact hflag


theorem ant2gnss_i_grazing :
    ant2gnss_i ⟨7000000, 0, 0⟩ ⟨-17000000, 7000000, 0⟩ = ⟨-24000000, 7000000, 0⟩ := by
  simp only [ant2gnss_i, Vector3.sub]
  norm_num

theorem ant2gnss_i_n_grazing :
    ant2gnss_i_n ⟨7000000, 0, 0⟩ ⟨-17000000, 7000000, 0⟩ = ⟨-(24 / 25), 7 / 25, 0⟩ := by
  have hn : (Vector3.mk (-24000000) 7000000 0).norm = 25000000 := by
    rw [norm_mk]
    rw [show (-24000000 * -24000000 + 7000000 * 7000000 + 0 * 0 : ℝ)
      = 25000000 * 25000000 by norm_num]
    exact Real.sqrt_mul_self (by norm_num)
  simp only [ant2gnss_i_n, ant2gnss_i_grazing, hn, Vector3.smul]
  norm_num

/-- C14 (the code at the failing input): antenna at `(7000, 0, 0) km`, GPS
satellite at `(-17000, 7000, 0) km`, so `inner1 < 0`.  The orthogonal projection
of the origin onto the line of sight is `(548.8, 1881.6, 0) km`, perpendicular
to `ant2gnss_i` and `1960 km` from the earth's centre, below `Re`.  The `tmp` of
line 124 is `(-161279993000000, 47040000000000, 0)`: it is not perpendicular to
`ant2gnss_i`, its norm is not below `Re`, and the satellite is not rejected. -/
theorem occlusion_tmp_not_projection :
    inner_product ⟨7000000, 0, 0⟩ ⟨-17000000, 7000000, 0⟩ ≤ 0 ∧
      closest_approach ⟨7000000, 0, 0⟩ ⟨-17000000, 7000000, 0⟩ = ⟨548800, 1881600, 0⟩ ∧
      inner_product (closest_approach ⟨7000000, 0, 0⟩ ⟨-17000000, 7000000, 0⟩)
        (ant2gnss_i ⟨7000000, 0, 0⟩ ⟨-17000000, 7000000, 0⟩) = 0 ∧
      (closest_approach ⟨7000000, 0, 0⟩ ⟨-17000000, 7000000, 0⟩).norm = 1960000 ∧
      occlusion_tmp ⟨7000000, 0, 0⟩ ⟨-17000000, 7000000, 0⟩
        = ⟨-161279993000000, 47040000000000, 0⟩ ∧
      inner_product (occlusion_tmp ⟨7000000, 0, 0⟩ ⟨-17000000, 7000000, 0⟩)
        (ant2gnss_i ⟨7000000, 0, 0⟩ ⟨-17000000, 7000000, 0⟩) ≠ 0 ∧
      ¬ (occlusion_tmp ⟨7000000, 0, 0⟩ ⟨-17000000, 7000000, 0⟩).norm < 6378137 ∧
      is_visible_ant2gnss ⟨7000000, 0, 0⟩ ⟨-17000000, 7000000, 0⟩ = 1 := by
  have hca : closest_approach ⟨7000000, 0, 0⟩ ⟨-17000000, 7000000, 0⟩
      = ⟨548800, 1881600, 0⟩ := by
    simp only [closest_approach, ant2gnss_i_n_grazing, inner_product, Vector3.neg, Vector3.smul,
      Vector3.add]
    norm_num
  have htmp : occlusion_tmp ⟨7000000, 0, 0⟩ ⟨-17000000, 7000000, 0⟩
      = ⟨-161279993000000, 47040000000000, 0⟩ := by
    simp only [occlusion_tmp, ant2gnss_i_n_grazing, ant2gnss_i_grazing, inner_product,
      Vector3.neg, Vector3.smul, Vector3.add]
    norm_num
  have hbig : ¬ (Vector3.mk (-161279993000000) 47040000000000 0).norm < 6378137 := by
    have h := abs_y_le_norm (Vector3.mk (-161279993000000) 47040000000000 0)
    have habs : |(47040000000000 : ℝ)| = 47040000000000 := abs_of_pos (by norm_num)
    simp only [habs] at h
    intro hlt
    linarith
  have hinner : inner_product ⟨7000000, 0, 0⟩ ⟨-17000000, 7000000, 0⟩ ≤ 0 := by
    simp only [inner_product]
    norm_num
  refine ⟨hinner, hca, ?_, ?_, htmp, ?_, ?_, ?_⟩
  · rw [hca, ant2gnss_i_grazing]
    simp only [inner_product]
    norm_num
  · rw [hca, norm_mk]
    rw [show (548800 * 548800 + 1881600 * 1881600 + 0 * 0 : ℝ) = 1960000 * 1960000 by norm_num]
    exact Real.sqrt_mul_self (by norm_num)
  · rw [htmp, ant2gnss_i_grazing]
    simp only [inner_product]
    norm_num
  · rw [htmp]
    exact hbig
  · unfold is_visible_ant2gnss
    simp only []
    have hRe : (6378137.0 : ℝ) = 6378137 := by norm_num
    rw [if_neg (not_lt.mpr hinner), htmp, if_neg]
    rw [hRe]
    exact hbig


/-! ## GNSS receiver: occlusion and cone tests -/

theorem is_visible_ant2gnss_of_pos (ant_pos g : Vector3) (h : inner_product ant_pos g > 0) :
    is_visible_ant2gnss ant_pos g = 1 := by
  unfold is_visible_ant2gnss
  simp only []
  rw [if_pos h]

theorem CheckAntennaCone_body_num (L : GnssOps) (ant_pos dir : Vector3) (q_i2b : Quaternion)
    (s : GNSSReceiver) (sat : GnssSatellite) :
    (CheckAntennaCone_body L ant_pos dir q_i2b s sat).gnss_sats_visible_num_
      = s.gnss_sats_visible_num_
        + (if counted s.gnss_id_ s.half_width_ ant_pos dir sat = true then 1 else 0) := by
  rw [CheckAntennaCone_body_eq]
  split <;> simp

/-- C15: a compatible target with `inner_product(ant_pos_i, gnss_sat_pos_i) > 0`
passes the occlusion test whatever its position is otherwise, so the loop body
counts it exactly when it passes the cone test. -/
theorem outward_never_occluded (L : GnssOps) (ant_pos dir : Vector3) (q_i2b : Quaternion)
    (s : GNSSReceiver) (sat : GnssSatellite) (hc : compatible s.gnss_id_ sat.ID = true)
    (h1 : inner_product ant_pos sat.PositionEci > 0) :
    is_visible_ant2gnss ant_pos sat.PositionEci = 1 ∧
      (counted s.gnss_id_ s.half_width_ ant_pos dir sat = true ↔
        inner2 dir ant_pos sat.PositionEci > Real.cos (s.half_width_ * DEG2RAD)) ∧
      (CheckAntennaCone_body L ant_pos dir q_i2b s sat).gnss_sats_visible_num_
        = s.gnss_sats_visible_num_
          + (if inner2 dir ant_pos sat.PositionEci > Real.cos (s.half_width_ * DEG2RAD)
              then 1 else 0) := by
  have hv := is_visible_ant2gnss_of_pos ant_pos sat.PositionEci h1
  have hiff : counted s.gnss_id_ s.half_width_ ant_pos dir sat = true ↔
      inner2 dir ant_pos sat.PositionEci > Real.cos (s.half_width_ * DEG2RAD) := by
    simp [counted, hc, hv]
  refine ⟨hv, hiff, ?_⟩
  rw [CheckAntennaCone_body_num]
  by_cases h : inner2 dir ant_pos sat.PositionEci > Real.cos (s.half_width_ * DEG2RAD)
  · rw [if_pos (hiff.mpr h), if_pos h]
  · rw [if_neg (fun hh => h (hiff.mp hh)), if_neg h]

/-- C15, witness: the GPS satellite straight above the antenna. -/
theorem outward_never_occluded_witness :
    compatible coneReceiver.gnss_id_ "G01" = true ∧
      inner_product ⟨0, 0, 7000000⟩ (Vector3.mk 0 0 26000000) > 0 ∧
      is_visible_ant2gnss ⟨0, 0, 7000000⟩ ⟨0, 0, 26000000⟩ = 1 := by
  have hc : compatible coneReceiver.gnss_id_ (GnssSatellite.mk "G01" ⟨0, 0, 26000000⟩).ID
      = true := by decide
  have h1 : inner_product ⟨0, 0, 7000000⟩
      (GnssSatellite.mk "G01" ⟨0, 0, 26000000⟩).PositionEci > 0 := by
    simp only [inner_product]
    norm_num
  exact ⟨hc, h1,
    (outward_never_occluded gnssOps ⟨0, 0, 7000000⟩ ⟨0, 0, 1⟩ StarSensor.q_identity
      coneReceiver ⟨"G01", ⟨0, 0, 26000000⟩⟩ hc h1).1⟩

/-- C16: a target with `inner2` exactly `cos(half_width_ * DEG2RAD)` is not
counted (the loop body leaves the state as it is), and every counted target has
`inner2` strictly greater; the same strict test is applied to every catalog
entry.  For unit vectors and a half-cone angle in `[0, π]` the test is that the
angular separation `acos(inner2)` is strictly less than the half-cone angle. -/
theorem cone_boundary (L : GnssOps) (ant_pos dir : Vector3) (q_i2b : Quaternion)
    (s : GNSSReceiver) (sat : GnssSatellite) :
    (inner2 dir ant_pos sat.PositionEci = Real.cos (s.half_width_ * DEG2RAD) →
        counted s.gnss_id_ s.half_width_ ant_pos dir sat = false ∧
        CheckAntennaCone_body L ant_pos dir q_i2b s sat = s) ∧
      (counted s.gnss_id_ s.half_width_ ant_pos dir sat = true →
        inner2 dir ant_pos sat.PositionEci > Real.cos (s.half_width_ * DEG2RAD)) ∧
      (-1 ≤ inner2 dir ant_pos sat.PositionEci → inner2 dir ant_pos sat.PositionEci ≤ 1 →
        0 ≤ s.half_width_ * DEG2RAD → s.half_width_ * DEG2RAD ≤ Real.pi →
        (inner2 dir ant_pos sat.PositionEci > Real.cos (s.half_width_ * DEG2RAD) ↔
          Real.arccos (inner2 dir ant_pos sat.PositionEci) < s.half_width_ * DEG2RAD)) := by
  refine ⟨?_, ?_, ?_⟩
  · intro heq
    have hf : counted s.gnss_id_ s.half_width_ ant_pos dir sat = false := by
      simp [counted, heq]
    refine ⟨hf, ?_⟩
    rw [CheckAntennaCone_body_eq, hf]
    simp
  · intro hcnt
    have := (counted_iff _ _ _ _ _).mp hcnt
    exact this.2.1
  · intro hlo hhi h0 hpi
    have hcos_mem : Real.cos (s.half_width_ * DEG2RAD) ∈ Set.Icc (-1 : ℝ) 1 :=
      ⟨Real.neg_one_le_cos _, Real.cos_le_one _⟩
    constructor
    · intro hgt
      have := Real.strictAntiOn_arccos hcos_mem ⟨hlo, hhi⟩ hgt
      rwa [Real.arccos_cos h0 hpi] at this
    · intro hlt
      have := Real.strictAntiOn_cos ⟨Real.arccos_nonneg _, Real.arccos_le_pi _⟩ ⟨h0, hpi⟩ hlt
      rwa [Real.cos_arccos hlo hhi] at this

theorem ant2gnss_i_n_side :
    ant2gnss_i_n ⟨0, 0, 7000000⟩ ⟨26000000, 0, 7000000⟩ = ⟨1, 0, 0⟩ := by
  have hv : ant2gnss_i ⟨0, 0, 7000000⟩ ⟨26000000, 0, 7000000⟩ = ⟨26000000, 0, 0⟩ := by
    simp only [ant2gnss_i, Vector3.sub]
    norm_num
  simp only [ant2gnss_i_n, hv, norm_axis1 26000000 (by norm_num), Vector3.smul]
  norm_num

/-- C16, witness: half width `90` degrees and a satellite at right angles to the
boresight, `inner2 = 0 = cos(90°)`: not counted. -/
theorem cone_boundary_witness :
    inner2 ⟨0, 0, 1⟩ ⟨0, 0, 7000000⟩ (Vector3.mk 26000000 0 7000000)
        = Real.cos (hemiReceiver.half_width_ * DEG2RAD) ∧
      CheckAntennaCone_body gnssOps ⟨0, 0, 7000000⟩ ⟨0, 0, 1⟩ StarSensor.q_identity hemiReceiver
        ⟨"G01", ⟨26000000, 0, 7000000⟩⟩ = hemiReceiver := by
  have heq : inner2 ⟨0, 0, 1⟩ ⟨0, 0, 7000000⟩
      (GnssSatellite.mk "G01" ⟨26000000, 0, 7000000⟩).PositionEci
      = Real.cos (hemiReceiver.half_width_ * DEG2RAD) := by
    show inner2 ⟨0, 0, 1⟩ ⟨0, 0, 7000000⟩ ⟨26000000, 0, 7000000⟩ = Real.cos (90 * DEG2RAD)
    rw [cos_ninety]
    simp only [inner2, ant2gnss_i_n_side, inner_product]
    norm_num
  exact ⟨heq,
    ((cone_boundary gnssOps ⟨0, 0, 7000000⟩ ⟨0, 0, 1⟩ StarSensor.q_identity hemiReceiver
      ⟨"G01", ⟨26000000, 0, 7000000⟩⟩).1 heq).2⟩


/-! ## GNSS receiver: one tick -/

theorem MainRoutine_eq (L : GnssOps) (s : GNSSReceiver) (t : GnssTick) :
    MainRoutine L s t
      = { CheckAntenna L s t.catalog t.pos_true_eci t.q_i2b with
          position_eci_ :=
            if (CheckAntenna L s t.catalog t.pos_true_eci t.q_i2b).is_gnss_sats_visible_ = 1
            then ⟨t.pos_true_eci.x + t.noise_x, t.pos_true_eci.y + t.noise_y,
              t.pos_true_eci.z + t.noise_z⟩
            else ⟨0, 0, 0⟩ } := by
  unfold MainRoutine AddNoise
  simp only []
  split <;> rfl

/-- C18: after `MainRoutine` the visibility flag is the one that `CheckAntenna`
left; if it is not `1` the reported position is exactly `(0, 0, 0)`, whatever
the position was before and whatever the noise draws are; if it is `1`, each
axis of the reported position is the true position on that axis plus the draw
of that axis's noise generator. -/
theorem MainRoutine_position (L : GnssOps) (s : GNSSReceiver) (t : GnssTick) :
    (MainRoutine L s t).is_gnss_sats_visible_
        = (CheckAntenna L s t.catalog t.pos_true_eci t.q_i2b).is_gnss_sats_visible_ ∧
      ((MainRoutine L s t).is_gnss_sats_visible_ ≠ 1 →
        (MainRoutine L s t).position_eci_ = ⟨0, 0, 0⟩) ∧
      ((MainRoutine L s t).is_gnss_sats_visible_ = 1 →
        (MainRoutine L s t).position_eci_.x = t.pos_true_eci.x + t.noise_x ∧
        (MainRoutine L s t).position_eci_.y = t.pos_true_eci.y + t.noise_y ∧
        (MainRoutine L s t).position_eci_.z = t.pos_true_eci.z + t.noise_z) := by
  rw [MainRoutine_eq]
  simp only []
  refine ⟨trivial, ?_, ?_⟩
  · intro h
    rw [if_neg h]
  · intro h
    rw [if_pos h]
    exact ⟨rfl, rfl, rfl⟩

theorem CheckAntennaSimple_eq (L : GnssOps) (s : GNSSReceiver) (pos : Vector3)
    (q_i2b : Quaternion) :
    CheckAntennaSimple L s pos q_i2b
      = { s with is_gnss_sats_visible_ :=
            if inner_product pos (antenna_direction_i L s q_i2b) ≤ 0 then 0 else 1 } := by
  unfold CheckAntennaSimple
  simp only []
  split <;> rfl

theorem antenna_direction_i_congr (L : GnssOps) (s1 s2 : GNSSReceiver) (q : Quaternion)
    (h : s1.q_b2c_ = s2.q_b2c_) : antenna_direction_i L s1 q = antenna_direction_i L s2 q := by
  simp only [antenna_direction_i, h]

theorem ant_pos_i_congr (L : GnssOps) (s1 s2 : GNSSReceiver) (pos : Vector3) (q : Quaternion)
    (h : s1.antenna_position_b_ = s2.antenna_position_b_) :
    ant_pos_i L s1 pos q = ant_pos_i L s2 pos q := by
  simp only [ant_pos_i, h]

theorem CheckAntenna_config (L : GnssOps) (s : GNSSReceiver) (catalog : List GnssSatellite)
    (pos : Vector3) (q : Quaternion) : SameConfig (CheckAntenna L s catalog pos q) s := by
  unfold CheckAntenna
  cases hm : s.antenna_model_ with
  | SIMPLE =>
    simp only [CheckAntennaSimple_eq]
    exact ⟨rfl, rfl, rfl, rfl, rfl⟩
  | CONE =>
    simp only [CheckAntennaCone_eq]
    exact ⟨rfl, rfl, rfl, rfl, rfl⟩

theorem MainRoutine_config (L : GnssOps) (s : GNSSReceiver) (t : GnssTick) :
    SameConfig (MainRoutine L s t) s := by
  rw [MainRoutine_eq]
  exact CheckAntenna_config L s t.catalog t.pos_true_eci t.q_i2b

theorem SameConfig_trans {a b c : GNSSReceiver} (h1 : SameConfig a b) (h2 : SameConfig b c) :
    SameConfig a c := by
  obtain ⟨a1, a2, a3, a4, a5⟩ := h1
  obtain ⟨b1, b2, b3, b4, b5⟩ := h2
  exact ⟨a1.trans b1, a2.trans b2, a3.trans b3, a4.trans b4, a5.trans b5⟩

theorem SameConfig_symm {a b : GNSSReceiver} (h : SameConfig a b) : SameConfig b a := by
  obtain ⟨a1, a2, a3, a4, a5⟩ := h
  exact ⟨a1.symm, a2.symm, a3.symm, a4.symm, a5.symm⟩

theorem run_config (L : GnssOps) (ticks : List GnssTick) (s : GNSSReceiver) :
    SameConfig (run L s ticks) s := by
  induction ticks generalizing s with
  | nil => exact ⟨rfl, rfl, rfl, rfl, rfl⟩
  | cons t rest ih =>
    unfold run
    rw [List.foldl_cons]
    exact SameConfig_trans (ih (MainRoutine L s t)) (MainRoutine_config L s t)

/-- What a tick computes afresh: for two receivers with the same configuration
the check leaves the same flag; with the cone model it also leaves the same
count and records, with the simple model it leaves count and records as they
were. -/
theorem CheckAntenna_congr (L : GnssOps) (s1 s2 : GNSSReceiver) (catalog : List GnssSatellite)
    (pos : Vector3) (q : Quaternion) (h : SameConfig s1 s2) :
    (CheckAntenna L s1 catalog pos q).is_gnss_sats_visible_
        = (CheckAntenna L s2 catalog pos q).is_gnss_sats_visible_ ∧
      (s1.antenna_model_ = AntennaModel.CONE →
        (CheckAntenna L s1 catalog pos q).gnss_sats_visible_num_
          = (CheckAntenna L s2 catalog pos q).gnss_sats_visible_num_ ∧
        (CheckAntenna L s1 catalog pos q).vec_gnssinfo_
          = (CheckAntenna L s2 catalog pos q).vec_gnssinfo_) ∧
      (s1.antenna_model_ = AntennaModel.SIMPLE →
        (CheckAntenna L s1 catalog pos q).gnss_sats_visible_num_ = s1.gnss_sats_visible_num_ ∧
        (CheckAntenna L s1 catalog pos q).vec_gnssinfo_ = s1.vec_gnssinfo_) := by
  obtain ⟨h1, h2, h3, h4, h5⟩ := h
  have hd := antenna_direction_i_congr L s1 s2 q h4
  have ha := ant_pos_i_congr L s1 s2 pos q h3
  unfold CheckAntenna
  rw [← h2]
  cases hm : s1.antenna_model_ with
  | SIMPLE => simp [CheckAntennaSimple_eq, hd]
  | CONE => simp [CheckAntennaCone_eq, hd, ha, h1, h4, h5]


theorem MainRoutine_congr (L : GnssOps) (s1 s2 : GNSSReceiver) (t : GnssTick)
    (h : SameConfig s1 s2) :
    (MainRoutine L s1 t).position_eci_ = (MainRoutine L s2 t).position_eci_ ∧
      (MainRoutine L s1 t).is_gnss_sats_visible_ = (MainRoutine L s2 t).is_gnss_sats_visible_ ∧
      (s1.antenna_model_ = AntennaModel.CONE →
        (MainRoutine L s1 t).gnss_sats_visible_num_ = (MainRoutine L s2 t).gnss_sats_visible_num_ ∧
        (MainRoutine L s1 t).vec_gnssinfo_ = (MainRoutine L s2 t).vec_gnssinfo_) ∧
      (s1.antenna_model_ = AntennaModel.SIMPLE →
        (MainRoutine L s1 t).gnss_sats_visible_num_ = s1.gnss_sats_visible_num_ ∧
        (MainRoutine L s1 t).vec_gnssinfo_ = s1.vec_gnssinfo_) := by
  obtain ⟨hf, hc, hs⟩ := CheckAntenna_congr L s1 s2 t.catalog t.pos_true_eci t.q_i2b h
  rw [MainRoutine_eq, MainRoutine_eq]
  simp only []
  refine ⟨by rw [hf], hf, hc, hs⟩

/-- C19 (as amended): a tick recomputes the position and the visibility flag
from the current truth state, catalog and noise draws, for both antenna models:
they are the same for any two receiver states with the same configuration.
With the CONE model the visible count and the record list are recomputed as
well; with the SIMPLE model a tick does not write them, and they keep the
values they had before the tick. -/
theorem tick_recomputation (L : GnssOps) (s1 s2 : GNSSReceiver) (t : GnssTick)
    (h : SameConfig s1 s2) :
    (MainRoutine L s1 t).position_eci_ = (MainRoutine L s2 t).position_eci_ ∧
      (MainRoutine L s1 t).is_gnss_sats_visible_ = (MainRoutine L s2 t).is_gnss_sats_visible_ ∧
      (s1.antenna_model_ = AntennaModel.CONE →
        (MainRoutine L s1 t).gnss_sats_visible_num_ = (MainRoutine L s2 t).gnss_sats_visible_num_ ∧
        (MainRoutine L s1 t).vec_gnssinfo_ = (MainRoutine L s2 t).vec_gnssinfo_) ∧
      (s1.antenna_model_ = AntennaModel.SIMPLE →
        (MainRoutine L s1 t).gnss_sats_visible_num_ = s1.gnss_sats_visible_num_ ∧
        (MainRoutine L s1 t).vec_gnssinfo_ = s1.vec_gnssinfo_) :=
  MainRoutine_congr L s1 s2 t h

/-- C19, witness: two receivers with the simple model that differ in the count
left in `gnss_sats_visible_num_`. -/
theorem tick_recomputation_witness :
    SameConfig simpleReceiver staleReceiver ∧
      (MainRoutine gnssOps simpleReceiver zenithTick).position_eci_
        = (MainRoutine gnssOps staleReceiver zenithTick).position_eci_ ∧
      (MainRoutine gnssOps simpleReceiver zenithTick).is_gnss_sats_visible_
        = (MainRoutine gnssOps staleReceiver zenithTick).is_gnss_sats_visible_ :=
  ⟨⟨rfl, rfl, rfl, rfl, rfl⟩,
    (tick_recomputation gnssOps simpleReceiver staleReceiver zenithTick
      ⟨rfl, rfl, rfl, rfl, rfl⟩).1,
    (tick_recomputation gnssOps simpleReceiver staleReceiver zenithTick
      ⟨rfl, rfl, rfl, rfl, rfl⟩).2.1⟩

/-- C19, counterexample: two receivers with the SIMPLE model and the same
configuration, one holding `0` and one holding `3` in
`gnss_sats_visible_num_`.  After the same tick the exposed counts are still `0`
and `3`: the count is not determined by the tick. -/
theorem tick_recomputation_counterexample :
    SameConfig simpleReceiver staleReceiver ∧
      simpleReceiver.antenna_model_ = AntennaModel.SIMPLE ∧
      (MainRoutine gnssOps simpleReceiver zenithTick).gnss_sats_visible_num_ = 0 ∧
      (MainRoutine gnssOps staleReceiver zenithTick).gnss_sats_visible_num_ = 3 ∧
      (MainRoutine gnssOps simpleReceiver zenithTick).gnss_sats_visible_num_
        ≠ (MainRoutine gnssOps staleReceiver zenithTick).gnss_sats_visible_num_ := by
  have h1 := (MainRoutine_congr gnssOps simpleReceiver staleReceiver zenithTick
    ⟨rfl, rfl, rfl, rfl, rfl⟩).2.2.2 rfl
  have h2 := (MainRoutine_congr gnssOps staleReceiver simpleReceiver zenithTick
    ⟨rfl, rfl, rfl, rfl, rfl⟩).2.2.2 rfl
  have e1 : (MainRoutine gnssOps simpleReceiver zenithTick).gnss_sats_visible_num_ = 0 := h1.1
  have e2 : (MainRoutine gnssOps staleReceiver zenithTick).gnss_sats_visible_num_ = 3 := h2.1
  refine ⟨⟨rfl, rfl, rfl, rfl, rfl⟩, rfl, e1, e2, ?_⟩
  rw [e1, e2]
  norm_num

end GNSSReceiver

namespace StarSensor

/-! ## Determinism -/

theorem Initialize_congr (p1 p2 : StarSensor) (h : SameConstruction p1 p2) :
    Initialize p1 = Initialize p2 := by
  obtain ⟨h1, h2, h3, h4, h5, h6, h7, h8, h9, h10⟩ := h
  unfold Initialize
  simp only [h1, h2, h3, h4, h5, h6, h7, h8, h9, h10]
  by_cases hT : p2.step_time_s_ = 0
  · simp only [hT, if_true]
  · simp only [hT, if_false]
    cases doubleToInt (((p2.output_delay_ * 2 % 2 ^ 32 : Nat) : ℝ) / p2.step_time_s_) with
    | none => rfl
    | some m => by_cases hm : m ≤ 0 <;> simp [hm]

end StarSensor

namespace GNSSReceiver

/-! ## GNSS receiver: a concrete check -/

theorem ant2gnss_i_n_zenith :
    ant2gnss_i_n ⟨0, 0, 7000000⟩ ⟨0, 0, 26000000⟩ = ⟨0, 0, 1⟩ := by
  have hv : ant2gnss_i ⟨0, 0, 7000000⟩ ⟨0, 0, 26000000⟩ = ⟨0, 0, 19000000⟩ := by
    simp only [ant2gnss_i, Vector3.sub]
    norm_num
  simp only [ant2gnss_i_n, hv, norm_axis3 19000000 (by norm_num), Vector3.smul]
  norm_num

theorem countP_overhead :
    List.countP (counted coneReceiver.gnss_id_ coneReceiver.half_width_
      (ant_pos_i gnssOps coneReceiver overheadTick.pos_true_eci overheadTick.q_i2b)
      (antenna_direction_i gnssOps coneReceiver overheadTick.q_i2b)) overheadTick.catalog = 1 := by
  have hdir : antenna_direction_i gnssOps coneReceiver overheadTick.q_i2b = ⟨0, 0, 1⟩ :=
    antenna_direction_i_identity coneReceiver rfl
  have hant : ant_pos_i gnssOps coneReceiver overheadTick.pos_true_eci overheadTick.q_i2b
      = ⟨0, 0, 7000000⟩ := ant_pos_i_identity coneReceiver _ rfl
  have hG : counted coneReceiver.gnss_id_ coneReceiver.half_width_ ⟨0, 0, 7000000⟩ ⟨0, 0, 1⟩
      ⟨"G01", ⟨0, 0, 26000000⟩⟩ = true := by
    rw [counted_iff]
    refine ⟨by decide, ?_, ?_⟩
    · show inner_product ⟨0, 0, 1⟩ (ant2gnss_i_n ⟨0, 0, 7000000⟩ ⟨0, 0, 26000000⟩)
        > Real.cos (60 * DEG2RAD)
      rw [ant2gnss_i_n_zenith, cos_sixty]
      simp only [inner_product]
      norm_num
    · show is_visible_ant2gnss ⟨0, 0, 7000000⟩ ⟨0, 0, 26000000⟩ ≠ 0
      rw [is_visible_ant2gnss_of_pos _ _ (by simp only [inner_product]; norm_num)]
      norm_num
  have hR : counted coneReceiver.gnss_id_ coneReceiver.half_width_ ⟨0, 0, 7000000⟩ ⟨0, 0, 1⟩
      ⟨"R01", ⟨0, 0, 26000000⟩⟩ = false := by
    have hc : compatible coneReceiver.gnss_id_ "R01" = false := by decide
    simp [counted, hc]
  rw [hdir, hant]
  show List.countP _ ([⟨"G01", ⟨0, 0, 26000000⟩⟩, ⟨"R01", ⟨0, 0, 26000000⟩⟩] :
    List GnssSatellite) = 1
  simp [List.countP_cons, hG, hR]

/-- C12, at a concrete input: a GPS and a GLONASS satellite straight above a
GPS-only receiver; only the GPS satellite is counted. -/
theorem visible_count_witness :
    (CheckAntennaCone gnssOps coneReceiver overheadTick.catalog overheadTick.pos_true_eci
      overheadTick.q_i2b).gnss_sats_visible_num_ = 1 := by
  rw [(visible_count gnssOps coneReceiver overheadTick.catalog overheadTick.pos_true_eci
    overheadTick.q_i2b).1, countP_overhead]
  rfl

/-- C17, at a concrete input: a GPS and a GLONASS satellite straight above a
GPS-only receiver; the flag is `1` and there is one record. -/
theorem visibility_result_witness :
    (CheckAntennaCone gnssOps coneReceiver overheadTick.catalog overheadTick.pos_true_eci
        overheadTick.q_i2b).is_gnss_sats_visible_ = 1 ∧
      (CheckAntennaCone gnssOps coneReceiver overheadTick.catalog overheadTick.pos_true_eci
        overheadTick.q_i2b).vec_gnssinfo_.length = 1 := by
  have hnum : (CheckAntennaCone gnssOps coneReceiver overheadTick.catalog
      overheadTick.pos_true_eci overheadTick.q_i2b).gnss_sats_visible_num_ = 1 := by
    rw [CheckAntennaCone_eq, countP_overhead]
    rfl
  have h := visibility_result gnssOps coneReceiver overheadTick.catalog
    overheadTick.pos_true_eci overheadTick.q_i2b
  refine ⟨h.1.mpr (by rw [hnum]; norm_num), ?_⟩
  have hlen := h.2.2.1
  rw [hnum] at hlen
  exact_mod_cast hlen

theorem MainRoutine_side_flag :
    (MainRoutine gnssOps hemiReceiver sideTick).is_gnss_sats_visible_ = 0 := by
  have hdir : antenna_direction_i gnssOps hemiReceiver sideTick.q_i2b = ⟨0, 0, 1⟩ :=
    antenna_direction_i_identity hemiReceiver rfl
  have hant : ant_pos_i gnssOps hemiReceiver sideTick.pos_true_eci sideTick.q_i2b
      = ⟨0, 0, 7000000⟩ := ant_pos_i_identity hemiReceiver _ rfl
  have hS : counted hemiReceiver.gnss_id_ hemiReceiver.half_width_ ⟨0, 0, 7000000⟩ ⟨0, 0, 1⟩
      ⟨"G01", ⟨26000000, 0, 7000000⟩⟩ = false := by
    have h2 : inner2 ⟨0, 0, 1⟩ ⟨0, 0, 7000000⟩ ⟨26000000, 0, 7000000⟩ = 0 := by
      simp only [inner2, ant2gnss_i_n_side, inner_product]
      norm_num
    have hw : hemiReceiver.half_width_ = 90 := rfl
    simp [counted, h2, hw, cos_ninety]
  have hcount : List.countP (counted hemiReceiver.gnss_id_ hemiReceiver.half_width_
      (ant_pos_i gnssOps hemiReceiver sideTick.pos_true_eci sideTick.q_i2b)
      (antenna_direction_i gnssOps hemiReceiver sideTick.q_i2b)) sideTick.catalog = 0 := by
    rw [hdir, hant]
    show List.countP _ ([⟨"G01", ⟨26000000, 0, 7000000⟩⟩] : List GnssSatellite) = 0
    simp [List.countP_cons, hS]
  have hcheck : CheckAntenna gnssOps hemiReceiver sideTick.catalog sideTick.pos_true_eci
      sideTick.q_i2b = CheckAntennaCone gnssOps hemiReceiver sideTick.catalog
        sideTick.pos_true_eci sideTick.q_i2b := rfl
  rw [MainRoutine_eq, hcheck, CheckAntennaCone_eq, hcount]
  rfl

/-- C18, at a concrete input: the satellite is at right angles to the boresight
of the receiver with half width `90` degrees; nothing is visible and the
position is zero. -/
theorem MainRoutine_position_witness :
    (MainRoutine gnssOps hemiReceiver sideTick).is_gnss_sats_visible_ = 0 ∧
      (MainRoutine gnssOps hemiReceiver sideTick).position_eci_ = ⟨0, 0, 0⟩ :=
  ⟨MainRoutine_side_flag,
    (MainRoutine_position gnssOps hemiReceiver sideTick).2.1
      (by rw [MainRoutine_side_flag]; norm_num)⟩

end GNSSReceiver

/-- C20: determinism.  Two star sensors whose constructors received the same
arguments (they agree on the members of the member initialiser list, whatever
the other members held before `Initialize`) are in the same state after
`Initialize`, and fed the same truth states and noise draws they return the
same quaternion and hold the same `error_flag_` at every tick.  Two GNSS
receivers with the same configuration, whatever their other members hold, fed
the same truth states, catalogs and noise draws, report the same position and
the same visibility flag after every tick. -/
theorem sensor_determinism (L : QuaternionOps) (G : GnssOps) (p1 p2 : StarSensor)
    (hp : StarSensor.SameConstruction p1 p2) (inp : Nat → TickInput)
    (g1 g2 : GNSSReceiver) (hg : GNSSReceiver.SameConfig g1 g2)
    (ticks : List GnssTick) (t : GnssTick) :
    StarSensor.Initialize p1 = StarSensor.Initialize p2 ∧
      (∀ s1 s2, StarSensor.Initialize p1 = some s1 → StarSensor.Initialize p2 = some s2 →
        ∀ n, StarSensor.reportAt L s1 inp n = StarSensor.reportAt L s2 inp n ∧
          (StarSensor.stateAfter L s1 inp n).map (fun s => s.error_flag_)
            = (StarSensor.stateAfter L s2 inp n).map (fun s => s.error_flag_)) ∧
      (GNSSReceiver.run G g1 (ticks ++ [t])).position_eci_
        = (GNSSReceiver.run G g2 (ticks ++ [t])).position_eci_ ∧
      (GNSSReceiver.run G g1 (ticks ++ [t])).is_gnss_sats_visible_
        = (GNSSReceiver.run G g2 (ticks ++ [t])).is_gnss_sats_visible_ := by
  have hinit := StarSensor.Initialize_congr p1 p2 hp
  have hcfg : GNSSReceiver.SameConfig (GNSSReceiver.run G g1 ticks)
      (GNSSReceiver.run G g2 ticks) :=
    GNSSReceiver.SameConfig_trans (GNSSReceiver.run_config G ticks g1)
      (GNSSReceiver.SameConfig_trans hg
        (GNSSReceiver.SameConfig_symm (GNSSReceiver.run_config G ticks g2)))
  have hrun : ∀ g, GNSSReceiver.run G g (ticks ++ [t])
      = GNSSReceiver.MainRoutine G (GNSSReceiver.run G g ticks) t := by
    intro g
    simp [GNSSReceiver.run, List.foldl_append]
  obtain ⟨hpos, hflag, -⟩ := GNSSReceiver.MainRoutine_congr G _ _ t hcfg
  refine ⟨hinit, ?_, ?_, ?_⟩
  · intro s1 s2 h1 h2 n
    have e : s1 = s2 := by
      rw [hinit, h2] at h1
      exact (Option.some.inj h1).symm
    subst e
    exact ⟨rfl, rfl⟩
  · rw [hrun g1, hrun g2]
    exact hpos
  · rw [hrun g1, hrun g2]
    exact hflag

/-- C20, witness: a star sensor before and after `Initialize`, and two GNSS
receivers that differ in the count left in `gnss_sats_visible_num_`. -/
theorem sensor_determinism_witness :
    StarSensor.SameConstruction StarSensor.sampleSensor
        { StarSensor.sampleSensor with delay_buffer_ := [], error_flag_ := false } ∧
      GNSSReceiver.SameConfig GNSSReceiver.simpleReceiver GNSSReceiver.staleReceiver ∧
      (GNSSReceiver.run GNSSReceiver.gnssOps GNSSReceiver.simpleReceiver
          ([GNSSReceiver.behindEarthTick] ++ [GNSSReceiver.zenithTick])).position_eci_
        = (GNSSReceiver.run GNSSReceiver.gnssOps GNSSReceiver.staleReceiver
          ([GNSSReceiver.behindEarthTick] ++ [GNSSReceiver.zenithTick])).position_eci_ :=
  ⟨⟨rfl, rfl, rfl, rfl, rfl, rfl, rfl, rfl, rfl, rfl⟩, ⟨rfl, rfl, rfl, rfl, rfl⟩,
    (sensor_determinism StarSensor.hamilton GNSSReceiver.gnssOps StarSensor.sampleSensor
      { StarSensor.sampleSensor with delay_buffer_ := [], error_flag_ := false }
      ⟨rfl, rfl, rfl, rfl, rfl, rfl, rfl, rfl, rfl, rfl⟩ (StarSensor.turnAt 9)
      GNSSReceiver.simpleReceiver GNSSReceiver.staleReceiver ⟨rfl, rfl, rfl, rfl, rfl⟩
      [GNSSReceiver.behindEarthTick] GNSSReceiver.zenithTick).2.2.1⟩

namespace StarSensor

/-! ## Index safety, start-up value and the synthesized sample -/

theorem hist_range_of_exact (L : QuaternionOps) (s : StarSensor) (i : TickInput)
    (h1 : 1 ≤ s.max_delay_)
    (hexact : hist_raw (updated L s i)
      = (updated L s i).buffer_position_ - (s.output_delay_ : Int) - 1) :
    0 ≤ hist (updated L s i) ∧ hist (updated L s i) < s.max_delay_ := by
  have hpos : 0 < s.max_delay_ := by omega
  have b := Int.emod_lt_of_pos (s.buffer_position_ + 1) hpos
  have hmax : (updated L s i).max_delay_ = s.max_delay_ := by simp [updated, AllJudgement_eq]
  have hcur : (updated L s i).buffer_position_ = (s.buffer_position_ + 1) % s.max_delay_ := by
    simp [updated, AllJudgement_eq]
  rw [hist_eq, hmax, hexact, hcur]
  split <;> omega

/-- C23: index safety.  For every state with `max_delay_ ≥ 1` and
`0 ≤ buffer_position_ < max_delay_`, and every output delay for which the
difference `buffer_position_ - output_delay_ - 1` is computed exactly (no 32-bit
wrap-around), the index that `update` writes and the index `hist` that `Measure`
reads lie in `[0, max_delay_)`; with `max_delay_` slots in the buffer, `update`
and `Measure` return without an access out of range. -/
theorem index_safety (L : QuaternionOps) (s : StarSensor) (i : TickInput)
    (h1 : 1 ≤ s.max_delay_) (h3 : 0 ≤ s.buffer_position_)
    (h4 : s.buffer_position_ < s.max_delay_)
    (hexact : hist_raw (updated L s i)
      = (updated L s i).buffer_position_ - (s.output_delay_ : Int) - 1) :
    (0 ≤ s.buffer_position_ ∧ s.buffer_position_ < s.max_delay_) ∧
      (0 ≤ hist (updated L s i) ∧ hist (updated L s i) < s.max_delay_) ∧
      ((s.delay_buffer_.length : Int) = s.max_delay_ →
        update L s i = some (updated L s i) ∧ ∃ q s', Measure L s i = some (q, s')) := by
  have hr := hist_range_of_exact L s i h1 hexact
  refine ⟨⟨h3, h4⟩, hr, ?_⟩
  intro hlen
  have hinv : Inv s := ⟨h1, hlen, h3, h4⟩
  refine ⟨update_of_Inv L s i hinv, ?_⟩
  by_cases hc : s.update_count_ = 0
  · have hl : (updated L s i).delay_buffer_.length = s.delay_buffer_.length := by
      simp [updated, AllJudgement_eq]
    have hlt : (hist (updated L s i)).toNat < (updated L s i).delay_buffer_.length := by
      have := hr.1
      have := hr.2
      omega
    exact ⟨_, _, Measure_refresh L s i hinv hc _ hr.1 (List.getElem?_eq_getElem hlt)⟩
  · exact ⟨_, _, Measure_frozen L s i hinv hc⟩

/-- C23, witness: the first call on the sample sensor (capacity `20`,
delay `1`). -/
theorem index_safety_witness :
    (0 ≤ hist (updated hamilton sampleSensor (quietTick q_identity)) ∧
        hist (updated hamilton sampleSensor (quietTick q_identity)) < sampleSensor.max_delay_) ∧
      ∃ q s', Measure hamilton sampleSensor (quietTick q_identity) = some (q, s') := by
  have h0 : Inv sampleSensor := constructed_Inv _ _ _ _ _ _ _ _ 20 (by norm_num)
  have hexact := hist_raw_updated hamilton sampleSensor (quietTick q_identity) h0
    (by simp [sampleSensor, constructed]) (by simp [sampleSensor, constructed])
  have hcur : (updated hamilton sampleSensor (quietTick q_identity)).buffer_position_
      = (sampleSensor.buffer_position_ + 1) % sampleSensor.max_delay_ := by
    simp [updated, AllJudgement_eq]
  rw [← hcur] at hexact
  have h := index_safety hamilton sampleSensor (quietTick q_identity) h0.1 h0.2.2.1 h0.2.2.2
    hexact
  exact ⟨h.2.1, (h.2.2 h0.2.1).2⟩

theorem Measure_out_of_range (L : QuaternionOps) (s : StarSensor) (i : TickInput) (h : Inv s)
    (hc : s.update_count_ = 0) (hh : 0 ≤ hist (updated L s i))
    (hq : (updated L s i).delay_buffer_[(hist (updated L s i)).toNat]? = none) :
    Measure L s i = none := by
  have h1 : (updated L s i).update_count_ = s.update_count_ := by
    simp [updated, AllJudgement_eq]
  simp [Measure, update_of_Inv L s i h, h1, hc, hh, hq]

theorem constructed_slots (qb : Quaternion) (T : ℝ) (d I : Nat) (a b c r : ℝ) (m : Int)
    (j : Nat) (hj : j < (constructed qb T d I a b c r m).delay_buffer_.length) :
    (constructed qb T d I a b c r m).delay_buffer_[j]? = some ⟨0, 0, 0, 1⟩ := by
  simp only [constructed, List.length_replicate] at hj ⊢
  rw [List.getElem?_replicate, if_pos hj]

/-- C24 (as amended): construction sets the reported quaternion and every slot
of the delay buffer to the identity quaternion `(0, 0, 0, 1)` and `error_flag_`
to true, and the first `Measure` call after construction returns the identity
quaternion whenever `1 ≤ output_delay < 2^31` (the difference
`buffer_position_ - output_delay_ - 1` does not wrap around) and the capacity is
at least `2`, whatever the true attitude and the noise are. -/
theorem startup_value (L : QuaternionOps) (qb : Quaternion) (T : ℝ) (d I : Nat)
    (a b c r : ℝ) (inp : Nat → TickInput) (s0 : StarSensor)
    (hs : construct qb T d I a b c r = some s0) (hd1 : 1 ≤ d) (hd31 : d < 2 ^ 31)
    (hM2 : 2 ≤ s0.max_delay_) :
    s0.measured_quaternion_i2c_ = ⟨0, 0, 0, 1⟩ ∧
      (∀ j, j < s0.delay_buffer_.length → s0.delay_buffer_[j]? = some ⟨0, 0, 0, 1⟩) ∧
      s0.error_flag_ = true ∧
      reportAt L s0 inp 0 = some ⟨0, 0, 0, 1⟩ := by
  obtain ⟨h0, hpos, hcnt, hM, hdel, hint⟩ := construct_facts qb T d I a b c r s0 hs
  obtain ⟨m0, -, -, rfl⟩ := construct_some qb T d I a b c r s0 hs
  refine ⟨rfl, fun j hj => constructed_slots _ _ _ _ _ _ _ _ _ j hj, rfl, ?_⟩
  exact reportAt_zero L _ inp ⟨0, 0, 0, 1⟩ h0 hpos hcnt hM hM2 (by rw [hdel]; exact hd1)
    (by rw [hdel]; exact hd31) rfl

/-- C24, witness: the sample sensor (delay `1`, capacity `20`). -/
theorem startup_value_witness :
    construct q_identity (1 / 10) 1 5 (1 / 2) (1 / 2) (1 / 2) 1 = some sampleSensor ∧
      (2 : Int) ≤ sampleSensor.max_delay_ ∧
      reportAt hamilton sampleSensor (turnAt 0) 0 = some ⟨0, 0, 0, 1⟩ :=
  ⟨construct_sampleSensor, by simp [sampleSensor, constructed],
    (startup_value hamilton q_identity (1 / 10) 1 5 (1 / 2) (1 / 2) (1 / 2) 1 (turnAt 0)
      sampleSensor construct_sampleSensor (by norm_num) (by norm_num)
      (by simp [sampleSensor, constructed])).2.2.2⟩

theorem construct_farDelaySensor :
    construct q_identity 1 2147483653 1 (1 / 2) (1 / 2) (1 / 2) 1 = some farDelaySensor := by
  apply construct_eq_pos _ _ _ _ _ _ _ _ 10 (by norm_num) _ (by norm_num)
  have e : (((2147483653 * 2 % 2 ^ 32 : Nat) : ℝ)) / 1 = ((10 : Nat) : ℝ) := by norm_num
  rw [e]
  exact doubleToInt_natCast 10 (by norm_num)

/-- C24, counterexample: step `1 s`, output delay `2^31 + 5`, capacity `10`.
On the first call the cursor is `1` and `1 - (2^31 + 5) - 1` wraps to
`hist = 2147483643`, outside the ten slots: the call has no defined result. -/
theorem startup_value_counterexample :
    construct q_identity 1 2147483653 1 (1 / 2) (1 / 2) (1 / 2) 1 = some farDelaySensor ∧
      1 ≤ farDelaySensor.output_delay_ ∧ (2 : Int) ≤ farDelaySensor.max_delay_ ∧
      farDelaySensor.delay_buffer_.length = 10 ∧
      hist (updated hamilton farDelaySensor (turnAt 0 0)) = 2147483643 ∧
      reportAt hamilton farDelaySensor (turnAt 0) 0 = none ∧
      reportAt hamilton farDelaySensor (turnAt 0) 0 ≠ some ⟨0, 0, 0, 1⟩ := by
  have h0 : Inv farDelaySensor := constructed_Inv _ _ _ _ _ _ _ _ 10 (by norm_num)
  have hhist : hist (updated hamilton farDelaySensor (turnAt 0 0)) = 2147483643 := by
    simp only [hist, updated, AllJudgement_eq, farDelaySensor, constructed, toInt32]
    norm_num
  have hlen : (updated hamilton farDelaySensor (turnAt 0 0)).delay_buffer_.length = 10 := by
    simp [updated, AllJudgement_eq, farDelaySensor, constructed]
  have hnone : (updated hamilton farDelaySensor (turnAt 0 0)).delay_buffer_[
      (hist (updated hamilton farDelaySensor (turnAt 0 0))).toNat]? = none := by
    rw [List.getElem?_eq_none_iff, hhist, hlen]
    norm_num
  have hm := Measure_out_of_range hamilton farDelaySensor (turnAt 0 0) h0 rfl
    (by rw [hhist]; norm_num) hnone
  have hrep : reportAt hamilton farDelaySensor (turnAt 0) 0 = none := by
    simp [reportAt, stateAfter, hm]
  refine ⟨construct_farDelaySensor, by simp [farDelaySensor, constructed],
    by simp [farDelaySensor, constructed], by simp [farDelaySensor, constructed], hhist, hrep, ?_⟩
  rw [hrep]
  exact fun h => Option.noConfusion h

theorem constructed_of_run (L : QuaternionOps) (qb : Quaternion) (T : ℝ) (d I : Nat)
    (a b c r : ℝ) (inp : Nat → TickInput) (s0 : StarSensor)
    (hs : construct qb T d I a b c r = some s0) (n : Nat) (s : StarSensor)
    (hst : stateAfter L s0 inp n = some s) :
    Inv s ∧ s.quaternion_b2c_ = qb ∧ s.sight_direction_c_ = ⟨1, 0, 0⟩ ∧
      s.first_orthogonal_direction_c = ⟨0, 1, 0⟩ ∧
      s.second_orthogonal_direction_c = ⟨0, 0, 1⟩ := by
  obtain ⟨h0, -⟩ := construct_facts qb T d I a b c r s0 hs
  obtain ⟨m0, -, -, rfl⟩ := construct_some qb T d I a b c r s0 hs
  have hinv := stateAfter_Inv L _ inp h0 n s hst
  have hcfg : SameConfig s (constructed qb T d I a b c r (if m0 ≤ 0 then 1 else m0)) := by
    clear hinv
    induction n generalizing s with
    | zero =>
      simp only [stateAfter, Option.some.injEq] at hst
      subst hst
      simp [SameConfig]
    | succ n ih =>
      obtain ⟨s1, q, h1, h2⟩ := stateAfter_succ_some L _ inp n s hst
      have hi := stateAfter_Inv L _ inp h0 n s1 h1
      obtain ⟨d1, d2, d3, d4, d5, d6, d7⟩ := Measure_SameConfig L s1 (inp n) hi q s h2
      obtain ⟨c1, c2, c3, c4, c5, c6, c7⟩ := ih s1 h1
      exact ⟨d1.trans c1, d2.trans c2, d3.trans c3, d4.trans c4, d5.trans c5, d6.trans c6,
        d7.trans c7⟩
  obtain ⟨c1, c2, c3, c4, -⟩ := hcfg
  exact ⟨hinv, c1, c2, c3, c4⟩

/-- C21: on a constructed sensor, after any number of calls, `update` writes at
the cursor the quaternion `((q_i2b * q_b2c) * q_sight) * q_ortho`, where
`q_sight` is the axis-angle quaternion about the boresight `(1, 0, 0)` with the
along-sight noise angle and `q_ortho` the axis-angle quaternion with the
cross-boresight noise angle about `cos(rot) * (0, 1, 0) + sin(rot) * (0, 0, 1)
= (0, cos(rot), sin(rot))`, `rot = tau * u`; this axis has unit length and is
orthogonal to the boresight for every `u`. -/
theorem update_sample_composition (L : QuaternionOps) (qb : Quaternion) (T : ℝ) (d I : Nat)
    (a b c r : ℝ) (inp : Nat → TickInput) (s0 : StarSensor)
    (hs : construct qb T d I a b c r = some s0) (n : Nat) (s : StarSensor)
    (hst : stateAfter L s0 inp n = some s) (i : TickInput) :
    (∃ s1, update L s i = some s1 ∧
        s1.delay_buffer_[s.buffer_position_.toNat]?
          = some (L.mul
              (L.mul (L.mul i.quaternion_i2b qb)
                (L.fromAxisAngle ⟨1, 0, 0⟩ i.sight_direction_noise))
              (L.fromAxisAngle
                ⟨0, Real.cos (tau * i.rotation_noise), Real.sin (tau * i.rotation_noise)⟩
                i.orthogonal_direction_noise))) ∧
      Vector3.add (Vector3.smul (Real.cos (tau * i.rotation_noise)) ⟨0, 1, 0⟩)
          (Vector3.smul (Real.sin (tau * i.rotation_noise)) ⟨0, 0, 1⟩)
        = ⟨0, Real.cos (tau * i.rotation_noise), Real.sin (tau * i.rotation_noise)⟩ ∧
      (Vector3.mk 0 (Real.cos (tau * i.rotation_noise))
        (Real.sin (tau * i.rotation_noise))).CalcNorm = 1 ∧
      InnerProduct ⟨0, Real.cos (tau * i.rotation_noise), Real.sin (tau * i.rotation_noise)⟩
        ⟨1, 0, 0⟩ = 0 := by
  obtain ⟨hinv, c1, c2, c3, c4⟩ := constructed_of_run L qb T d I a b c r inp s0 hs n s hst
  have haxis : Vector3.add (Vector3.smul (Real.cos (tau * i.rotation_noise)) ⟨0, 1, 0⟩)
      (Vector3.smul (Real.sin (tau * i.rotation_noise)) ⟨0, 0, 1⟩)
      = ⟨0, Real.cos (tau * i.rotation_noise), Real.sin (tau * i.rotation_noise)⟩ := by
    simp [Vector3.add, Vector3.smul]
  refine ⟨⟨updated L s i, update_of_Inv L s i hinv, ?_⟩, haxis, ?_, ?_⟩
  · have hlen : s.buffer_position_.toNat < s.delay_buffer_.length := by
      obtain ⟨h1, h2, h3, h4⟩ := hinv
      omega
    have hobs : observed_quaternion L s i
        = L.mul (L.mul (L.mul i.quaternion_i2b qb)
            (L.fromAxisAngle ⟨1, 0, 0⟩ i.sight_direction_noise))
          (L.fromAxisAngle
            ⟨0, Real.cos (tau * i.rotation_noise), Real.sin (tau * i.rotation_noise)⟩
            i.orthogonal_direction_noise) := by
      simp only [observed_quaternion, c1, c2, c3, c4, haxis]
    simp only [updated, AllJudgement_eq]
    rw [List.getElem?_set_self hlen, hobs]
  · simp only [Vector3.CalcNorm, InnerProduct]
    rw [show (0 : ℝ) * 0 + Real.cos (tau * i.rotation_noise) * Real.cos (tau * i.rotation_noise)
        + Real.sin (tau * i.rotation_noise) * Real.sin (tau * i.rotation_noise) = 1 by
      have := Real.sin_sq_add_cos_sq (tau * i.rotation_noise)
      nlinarith]
    exact Real.sqrt_one
  · simp [InnerProduct]

/-- C21, witness: the first call on the sample sensor. -/
theorem update_sample_composition_witness :
    construct q_identity (1 / 10) 1 5 (1 / 2) (1 / 2) (1 / 2) 1 = some sampleSensor ∧
      stateAfter hamilton sampleSensor (turnAt 9) 0 = some sampleSensor ∧
      (Vector3.mk 0 (Real.cos (tau * (quietTick q_identity).rotation_noise))
        (Real.sin (tau * (quietTick q_identity).rotation_noise))).CalcNorm = 1 :=
  ⟨construct_sampleSensor, rfl,
    (update_sample_composition hamilton q_identity (1 / 10) 1 5 (1 / 2) (1 / 2) (1 / 2) 1
      (turnAt 9) sampleSensor construct_sampleSensor 0 sampleSensor rfl
      (quietTick q_identity)).2.2.1⟩

end StarSensor

namespace GNSSReceiver

/-! ## GNSS receiver: the simple antenna model -/

/-- C25: after `CheckAntennaSimple`, `is_gnss_sats_visible_` is `1` exactly when
the inner product of the true inertial position with the antenna boresight in
the inertial frame is strictly positive, and `0` otherwise; in particular it is
`0` when the two are exactly perpendicular. -/
theorem simple_antenna (L : GnssOps) (s : GNSSReceiver) (pos : Vector3) (q_i2b : Quaternion) :
    ((CheckAntennaSimple L s pos q_i2b).is_gnss_sats_visible_ = 1 ↔
        inner_product pos (antenna_direction_i L s q_i2b) > 0) ∧
      ((CheckAntennaSimple L s pos q_i2b).is_gnss_sats_visible_ = 0 ↔
        inner_product pos (antenna_direction_i L s q_i2b) ≤ 0) ∧
      (inner_product pos (antenna_direction_i L s q_i2b) = 0 →
        (CheckAntennaSimple L s pos q_i2b).is_gnss_sats_visible_ = 0) := by
  rw [CheckAntennaSimple_eq]
  simp only []
  by_cases h : inner_product pos (antenna_direction_i L s q_i2b) ≤ 0
  · rw [if_pos h]
    refine ⟨?_, ?_, fun _ => rfl⟩
    · constructor
      · intro h1
        exact absurd h1 (by norm_num)
      · intro h1
        exact absurd h (not_le.mpr h1)
    · exact ⟨fun _ => h, fun _ => rfl⟩
  · rw [if_neg h]
    refine ⟨?_, ?_, fun h0 => absurd (le_of_eq h0) h⟩
    · exact ⟨fun _ => not_le.mp h, fun _ => rfl⟩
    · constructor
      · intro h1
        exact absurd h1 (by norm_num)
      · intro h1
        exact absurd h1 h

/-- C25, at a concrete input: the antenna of the simple receiver looks along
`+z`; at `(0, 0, 7000 km)` the flag is `1`, at `(7000 km, 0, 0)` (boresight
perpendicular to the position) it is `0`. -/
theorem simple_antenna_witness :
    (CheckAntennaSimple gnssOps simpleReceiver ⟨0, 0, 7000000⟩
        StarSensor.q_identity).is_gnss_sats_visible_ = 1 ∧
      (CheckAntennaSimple gnssOps simpleReceiver ⟨7000000, 0, 0⟩
        StarSensor.q_identity).is_gnss_sats_visible_ = 0 := by
  have hdir : antenna_direction_i gnssOps simpleReceiver StarSensor.q_identity = ⟨0, 0, 1⟩ :=
    antenna_direction_i_identity simpleReceiver rfl
  refine ⟨(simple_antenna gnssOps simpleReceiver ⟨0, 0, 7000000⟩ StarSensor.q_identity).1.mpr ?_,
    (simple_antenna gnssOps simpleReceiver ⟨7000000, 0, 0⟩ StarSensor.q_identity).2.2 ?_⟩
  · rw [hdir]
    simp only [inner_product]
    norm_num
  · rw [hdir]
    simp only [inner_product]
    norm_num

end GNSSReceiver

namespace libra.RungeKutta

/-! ## Runge-Kutta: one step -/

theorem stageSlope_zero {N : Nat} (f : ℝ → (Fin N → ℝ) → (Fin N → ℝ)) (a : Nat → Nat → ℝ)
    (c : Nat → ℝ) (h t : ℝ) (x : Fin N → ℝ) : stageSlope f a c h t x 0 = f t x := by
  rw [stageSlope]

theorem stageSlope_succ {N : Nat} (f : ℝ → (Fin N → ℝ) → (Fin N → ℝ)) (a : Nat → Nat → ℝ)
    (c : Nat → ℝ) (h t : ℝ) (x : Fin N → ℝ) (i : Nat) :
    stageSlope f a c h t x (i + 1)
      = f (t + c (i + 1) * h)
          (x + h • ∑ j ∈ Finset.range (i + 1), a (i + 1) j • stageSlope f a c h t x j) := by
  rw [stageSlope, Fin.sum_univ_eq_sum_range (fun j => a (i + 1) j • stageSlope f a c h t x j)]

/-- The inner loop of `CalcSlope` and the loop of `Integrate`: adding
`(w j * h) • k j` for `j = 0, …, n - 1` in turn. -/
theorem foldl_accumulate {N : Nat} (w : Nat → ℝ) (h : ℝ) (k : Nat → (Fin N → ℝ))
    (x : Fin N → ℝ) (n : Nat) :
    (List.range n).foldl (fun (state : Fin N → ℝ) (j : Nat) => state + (w j * h) • k j) x
      = x + h • ∑ j ∈ Finset.range n, w j • k j := by
  induction n with
  | zero => simp
  | succ n ih =>
    rw [List.range_succ, List.foldl_append, ih, Finset.sum_range_succ]
    simp only [List.foldl_cons, List.foldl_nil, smul_add, smul_smul]
    rw [add_assoc, mul_comm h (w n)]

/-- The state of the outer loop of `CalcSlope` after the stages `1, …, m`. -/
theorem CalcSlope_loop {N : Nat} (f : ℝ → (Fin N → ℝ) → (Fin N → ℝ)) (rk : RungeKutta N)
    (m : Nat) :
    ∃ k' : Nat → (Fin N → ℝ),
      (List.range' 1 m).foldl
        (fun (r : RungeKutta N) (i : Nat) =>
          let state := (List.range i).foldl
            (fun (state : Fin N → ℝ) (j : Nat) => state + (r.a_ i j * r.step_width_s_) • r.k_ j)
            r.current_state_
          let time_s := r.current_time_s_ + r.c_ i * r.step_width_s_
          { r with k_ := Function.update r.k_ i (f time_s state) })
        { rk with k_ := Function.update rk.k_ 0 (f rk.current_time_s_ rk.current_state_) }
        = { rk with k_ := k' } ∧
      ∀ j, j ≤ m → k' j = stageSlope f rk.a_ rk.c_ rk.step_width_s_ rk.current_time_s_
        rk.current_state_ j := by
  induction m with
  | zero =>
    refine ⟨_, rfl, ?_⟩
    intro j hj
    have : j = 0 := by omega
    subst this
    rw [Function.update_same, stageSlope_zero]
  | succ m ih =>
    obtain ⟨k', hk, hspec⟩ := ih
    rw [List.range'_concat, List.foldl_append, hk]
    simp only [List.foldl_cons, List.foldl_nil, one_mul]
    refine ⟨_, rfl, ?_⟩
    intro j hj
    by_cases hjm : j = 1 + m
    · subst hjm
      rw [Function.update_same, foldl_accumulate (fun j => rk.a_ (1 + m) j), Nat.add_comm 1 m,
        stageSlope_succ]
      have hsum : ∑ j ∈ Finset.range (m + 1), rk.a_ (m + 1) j • k' j
          = ∑ j ∈ Finset.range (m + 1), rk.a_ (m + 1) j • stageSlope f rk.a_ rk.c_
              rk.step_width_s_ rk.current_time_s_ rk.current_state_ j := by
        apply Finset.sum_congr rfl
        intro j hj'
        rw [hspec j (by have := Finset.mem_range.mp hj'; omega)]
      rw [hsum]
    · rw [Function.update_noteq hjm]
      exact hspec j (by omega)

theorem CalcSlope_eq {N : Nat} (f : ℝ → (Fin N → ℝ) → (Fin N → ℝ)) (rk : RungeKutta N) :
    ∃ k' : Nat → (Fin N → ℝ), CalcSlope f rk = { rk with k_ := k' } ∧
      ∀ j, j ≤ rk.stage_ - 1 → k' j = stageSlope f rk.a_ rk.c_ rk.step_width_s_
        rk.current_time_s_ rk.current_state_ j :=
  CalcSlope_loop f rk (rk.stage_ - 1)

theorem Integrate_loop {N : Nat} (r0 : RungeKutta N) (n : Nat) :
    (List.range n).foldl
        (fun (r : RungeKutta N) (i : Nat) =>
          { r with current_state_ := r.current_state_ + (r.b_ i * r.step_width_s_) • r.k_ i })
        r0
      = { r0 with current_state_ := r0.current_state_
            + r0.step_width_s_ • ∑ i ∈ Finset.range n, r0.b_ i • r0.k_ i } := by
  induction n with
  | zero => simp
  | succ n ih =>
    rw [List.range_succ, List.foldl_append, ih, Finset.sum_range_succ]
    simp only [List.foldl_cons, List.foldl_nil, smul_add, smul_smul]
    rw [add_assoc, mul_comm r0.step_width_s_ (r0.b_ n)]

/-- C22: `Integrate` performs one step of the general explicit Runge-Kutta
method.  With `x` the state and `t` the time before the call, `h` the step
width and `s ≥ 1` stages, it leaves `k_0 = f(t, x)` and
`k_i = f(t + c_i * h, x + h * sum_{j < i} a_ij * k_j)` for `1 ≤ i < s`, and the
state `x + h * sum_{i < s} b_i * k_i`; all slopes are those of the state before
the step.  For `s = 1` and `b_0 = 1` the new state is the explicit Euler step
`x + h * f(t, x)`. -/
theorem Integrate_explicit_step {N : Nat} (f : ℝ → (Fin N → ℝ) → (Fin N → ℝ))
    (rk : RungeKutta N) (hs : 1 ≤ rk.stage_) :
    (Integrate f rk).k_ 0 = f rk.current_time_s_ rk.current_state_ ∧
      (∀ i, 1 ≤ i → i < rk.stage_ →
        (Integrate f rk).k_ i
          = f (rk.current_time_s_ + rk.c_ i * rk.step_width_s_)
              (rk.current_state_ + rk.step_width_s_ •
                ∑ j ∈ Finset.range i, rk.a_ i j • (Integrate f rk).k_ j)) ∧
      (Integrate f rk).current_state_
        = rk.current_state_ + rk.step_width_s_ •
            ∑ i ∈ Finset.range rk.stage_, rk.b_ i • (Integrate f rk).k_ i ∧
      (Integrate f rk).current_state_
        = explicitStep f rk.a_ rk.b_ rk.c_ rk.stage_ rk.step_width_s_ rk.current_time_s_
            rk.current_state_ ∧
      (rk.stage_ = 1 → rk.b_ 0 = 1 →
        (Integrate f rk).current_state_
          = rk.current_state_ + rk.step_width_s_ • f rk.current_time_s_ rk.current_state_) := by
  obtain ⟨k', hk, hspec⟩ := CalcSlope_eq f rk
  have hint : Integrate f rk
      = { rk with
          k_ := k'
          current_state_ := rk.current_state_
            + rk.step_width_s_ • ∑ i ∈ Finset.range rk.stage_, rk.b_ i • k' i } := by
    unfold Integrate
    simp only [hk, Integrate_loop]
  have hsum : ∑ i ∈ Finset.range rk.stage_, rk.b_ i • k' i
      = ∑ i ∈ Finset.range rk.stage_, rk.b_ i • stageSlope f rk.a_ rk.c_ rk.step_width_s_
          rk.current_time_s_ rk.current_state_ i := by
    apply Finset.sum_congr rfl
    intro i hi
    rw [hspec i (by have := Finset.mem_range.mp hi; omega)]
  have hstate : (Integrate f rk).current_state_
      = rk.current_state_ + rk.step_width_s_ •
          ∑ i ∈ Finset.range rk.stage_, rk.b_ i • k' i := by
    rw [hint]
  have hk0 : k' 0 = f rk.current_time_s_ rk.current_state_ := by
    rw [hspec 0 (by omega), stageSlope_zero]
  have hkk : (Integrate f rk).k_ = k' := by rw [hint]
  refine ⟨by rw [hkk, hk0], ?_, by rw [hkk]; exact hstate, ?_, ?_⟩
  · intro i hi1 hi2
    rw [hkk, hspec i (by omega)]
    obtain ⟨m, rfl⟩ : ∃ m, i = m + 1 := ⟨i - 1, by omega⟩
    have hsum' : ∑ j ∈ Finset.range (m + 1), rk.a_ (m + 1) j • k' j
        = ∑ j ∈ Finset.range (m + 1), rk.a_ (m + 1) j • stageSlope f rk.a_ rk.c_
            rk.step_width_s_ rk.current_time_s_ rk.current_state_ j := by
      apply Finset.sum_congr rfl
      intro j hj
      rw [hspec j (by have := Finset.mem_range.mp hj; omega)]
    rw [stageSlope_succ, hsum']
  · rw [hstate, hsum]
    rfl
  · intro h1 hb
    rw [hstate, h1, Finset.sum_range_one, hb, one_smul, hk0]

/-- C22, witness: the explicit Euler table on `x' = x`, from `x = 1` with step
`1/10`: the new state is `1 + (1/10) * 1`. -/
theorem Integrate_explicit_step_witness :
    1 ≤ eulerExample.stage_ ∧
      (Integrate (fun _ x => x) eulerExample).current_state_
        = eulerExample.current_state_ + eulerExample.step_width_s_ •
            (fun _ x => x) eulerExample.current_time_s_ eulerExample.current_state_ :=
  ⟨le_refl 1,
    (Integrate_explicit_step (fun _ x => x) eulerExample (le_refl 1)).2.2.2.2 rfl rfl⟩

end libra.RungeKutta

namespace GScalculator

/-! ## Ground-station link calculator: the stored bitrate -/

theorem CalcMaxBitrate_nonneg (g : GScalculator) (sc_ant gs_ant : Antenna) (w : LinkInput) :
    0 ≤ CalcMaxBitrate g sc_ant gs_ant w := by
  unfold CalcMaxBitrate
  split_ifs
  · exact le_refl 0
  · exact div_nonneg (le_of_lt (Real.rpow_pos_of_pos (by norm_num) _)) (by norm_num)
  · exact le_refl 0

theorem CalcMaxBitrate_pos (g : GScalculator) (sc_ant gs_ant : Antenna) (w : LinkInput)
    (ht : sc_ant.IsTransmitter = true) (hr : gs_ant.IsReceiver = true)
    (hm : 0 < margin_for_bitrate_dB g sc_ant gs_ant w) :
    CalcMaxBitrate g sc_ant gs_ant w
      = (10 : ℝ) ^ (margin_for_bitrate_dB g sc_ant gs_ant w / 10) / 1000000 := by
  unfold CalcMaxBitrate
  rw [if_neg (by simp [ht, hr]), if_pos hm]
  rfl

theorem CalcMaxBitrate_zero (g : GScalculator) (sc_ant gs_ant : Antenna) (w : LinkInput)
    (h : sc_ant.IsTransmitter = false ∨ gs_ant.IsReceiver = false ∨
      margin_for_bitrate_dB g sc_ant gs_ant w ≤ 0) :
    CalcMaxBitrate g sc_ant gs_ant w = 0 := by
  unfold CalcMaxBitrate
  rcases h with h | h | h
  · rw [if_pos (by simp [h])]
  · rw [if_pos (by simp [h])]
  · split_ifs with h1 h2
    · rfl
    · exact absurd h2 (not_lt.mpr h)
    · rfl

theorem margin_pass : margin_for_bitrate_dB plainCalculator txAntenna rxAntenna passInput = 10 := by
  simp only [margin_for_bitrate_dB, cn0_dBHz, plainCalculator, construct, txAntenna, rxAntenna]
  ring

/-- C27: after `Update` the stored `max_bitrate_` is never negative; it is `0`
when the ground station does not see the spacecraft, or the spacecraft antenna
is not a transmitter, or the ground-station antenna is not a receiver, or the
margin for bitrate is at most `0` dB, and in no other case; otherwise it is
`10^(margin/10) / 10^6`.  The other members are left as they were. -/
theorem Update_max_bitrate (g : GScalculator) (sc_ant gs_ant : Antenna) (w : LinkInput) :
    0 ≤ (Update g sc_ant gs_ant w).max_bitrate_ ∧
      ((w.is_visible = false ∨ sc_ant.IsTransmitter = false ∨ gs_ant.IsReceiver = false ∨
          margin_for_bitrate_dB g sc_ant gs_ant w ≤ 0) →
        (Update g sc_ant gs_ant w).max_bitrate_ = 0) ∧
      (¬ (w.is_visible = false ∨ sc_ant.IsTransmitter = false ∨ gs_ant.IsReceiver = false ∨
          margin_for_bitrate_dB g sc_ant gs_ant w ≤ 0) →
        (Update g sc_ant gs_ant w).max_bitrate_
            = (10 : ℝ) ^ (margin_for_bitrate_dB g sc_ant gs_ant w / 10) / 10 ^ 6 ∧
          0 < (Update g sc_ant gs_ant w).max_bitrate_) ∧
      Update g sc_ant gs_ant w = { g with max_bitrate_ := (Update g sc_ant gs_ant w).max_bitrate_ } := by
  refine ⟨?_, ?_, ?_, ?_⟩
  · unfold Update
    split_ifs
    · exact CalcMaxBitrate_nonneg g sc_ant gs_ant w
    · exact le_refl 0
  · intro h
    unfold Update
    split_ifs with hv
    · rcases h with h | h
      · rw [hv] at h
        cases h
      · exact CalcMaxBitrate_zero g sc_ant gs_ant w h
    · rfl
  · intro h
    simp only [not_or, Bool.not_eq_false, not_le] at h
    obtain ⟨hv, ht, hr, hm⟩ := h
    have hval : (Update g sc_ant gs_ant w).max_bitrate_
        = (10 : ℝ) ^ (margin_for_bitrate_dB g sc_ant gs_ant w / 10) / 10 ^ 6 := by
      unfold Update
      rw [if_pos hv]
      show CalcMaxBitrate g sc_ant gs_ant w = _
      rw [CalcMaxBitrate_pos g sc_ant gs_ant w ht hr hm]
      norm_num
    refine ⟨hval, ?_⟩
    rw [hval]
    exact div_pos (Real.rpow_pos_of_pos (by norm_num) _) (by norm_num)
  · unfold Update
    split_ifs <;> rfl

/-- C27, witness: a visible pass with a transmitter on board, a receiver on the
ground and a margin of `10` dB stores `10^1 / 10^6`; the same pass out of view
stores `0`. -/
theorem Update_max_bitrate_witness :
    (Update plainCalculator txAntenna rxAntenna passInput).max_bitrate_ = 1 / 100000 ∧
      (Update plainCalculator txAntenna rxAntenna { passInput with is_visible := false }).max_bitrate_
        = 0 := by
  refine ⟨?_, ?_⟩
  · have h := ((Update_max_bitrate plainCalculator txAntenna rxAntenna passInput).2.2.1
      (by
        rw [margin_pass]
        simp only [not_or, Bool.not_eq_false, not_le]
        exact ⟨rfl, rfl, rfl, by norm_num⟩)).1
    rw [h, margin_pass]
    norm_num
  · exact (Update_max_bitrate plainCalculator txAntenna rxAntenna
      { passInput with is_visible := false }).2.1 (Or.inl rfl)

end GScalculator

namespace MoonRotation

/-! ## Moon rotation: the mean-Earth frame -/

theorem CalcNorm_pos (a : Vector3) (h : a ≠ ⟨0, 0, 0⟩) : 0 < a.CalcNorm := by
  unfold Vector3.CalcNorm
  apply Real.sqrt_pos.mpr
  have h0 := StarSensor.InnerProduct_self_nonneg a
  rcases lt_or_eq_of_le h0 with hlt | heq
  · exact hlt
  · exfalso
    apply h
    unfold InnerProduct at heq
    have hx : a.x = 0 := by nlinarith [mul_self_nonneg a.x, mul_self_nonneg a.y, mul_self_nonneg a.z]
    have hy : a.y = 0 := by nlinarith [mul_self_nonneg a.x, mul_self_nonneg a.y, mul_self_nonneg a.z]
    have hz : a.z = 0 := by nlinarith [mul_self_nonneg a.x, mul_self_nonneg a.y, mul_self_nonneg a.z]
    cases a
    simp only at hx hy hz
    subst hx hy hz
    rfl

theorem CalcNorm_mul_self (a : Vector3) : a.CalcNorm * a.CalcNorm = InnerProduct a a :=
  Real.mul_self_sqrt (StarSensor.InnerProduct_self_nonneg a)

theorem CalcNormalizedVector_unit (a : Vector3) (h : a ≠ ⟨0, 0, 0⟩) :
    InnerProduct a.CalcNormalizedVector a.CalcNormalizedVector = 1 := by
  have hpos := CalcNorm_pos a h
  have hsq := CalcNorm_mul_self a
  unfold InnerProduct at hsq ⊢
  unfold Vector3.CalcNormalizedVector
  simp only
  field_simp
  linarith

theorem OuterProduct_ne_zero_left (p v : Vector3) (h : OuterProduct p v ≠ ⟨0, 0, 0⟩) :
    p ≠ ⟨0, 0, 0⟩ := by
  intro hp
  apply h
  subst hp
  simp [OuterProduct]

theorem me_ex_eci_unit (p : Vector3) (h : p ≠ ⟨0, 0, 0⟩) :
    InnerProduct (me_ex_eci p) (me_ex_eci p) = 1 := by
  have hu := CalcNormalizedVector_unit p h
  unfold InnerProduct at hu ⊢
  unfold me_ex_eci Vector3.smul
  simp only
  linear_combination hu

theorem me_ez_eci_unit (p v : Vector3) (h : OuterProduct p v ≠ ⟨0, 0, 0⟩) :
    InnerProduct (me_ez_eci p v) (me_ez_eci p v) = 1 :=
  CalcNormalizedVector_unit (OuterProduct p v) h

theorem me_ex_ez_orthogonal (p v : Vector3) :
    InnerProduct (me_ex_eci p) (me_ez_eci p v) = 0 := by
  unfold InnerProduct me_ex_eci me_ez_eci Vector3.smul Vector3.CalcNormalizedVector OuterProduct
  simp only
  by_cases hn : p.CalcNorm = 0
  · simp [hn]
  by_cases hm :
      Vector3.CalcNorm ⟨p.y * v.z - p.z * v.y, p.z * v.x - p.x * v.z, p.x * v.y - p.y * v.x⟩ = 0
  · simp [hm]
  field_simp
  ring

/-- A frame built from two orthogonal unit vectors `a` and `c` with the middle
vector `c × a` is orthonormal and right-handed. -/
theorem frame_of_unit_pair (a c : Vector3) (ha : InnerProduct a a = 1)
    (hc : InnerProduct c c = 1) (hac : InnerProduct a c = 0) :
    InnerProduct (OuterProduct c a) (OuterProduct c a) = 1 ∧
      InnerProduct a (OuterProduct c a) = 0 ∧
      InnerProduct (OuterProduct c a) c = 0 ∧
      OuterProduct a (OuterProduct c a) = c := by
  unfold InnerProduct at ha hc hac
  refine ⟨?_, ?_, ?_, ?_⟩
  · unfold InnerProduct OuterProduct
    simp only
    linear_combination (c.x * c.x + c.y * c.y + c.z * c.z) * ha + hc
      - (a.x * c.x + a.y * c.y + a.z * c.z) * hac
  · unfold InnerProduct OuterProduct
    simp only
    ring
  · unfold InnerProduct OuterProduct
    simp only
    ring
  · unfold OuterProduct
    simp only
    congr 1
    · linear_combination c.x * ha - a.x * hac
    · linear_combination c.y * ha - a.y * hac
    · linear_combination c.z * ha - a.z * hac

theorem InnerProduct_comm (a b : Vector3) : InnerProduct a b = InnerProduct b a := by
  unfold InnerProduct
  ring

/-- The product of a matrix of three rows with its transpose is the table of
inner products of the rows. -/
theorem dcm_mul_transpose (p v : Vector3)
    (h00 : InnerProduct (me_ex_eci p) (me_ex_eci p) = 1)
    (h01 : InnerProduct (me_ex_eci p) (me_ey_eci p v) = 0)
    (h02 : InnerProduct (me_ex_eci p) (me_ez_eci p v) = 0)
    (h11 : InnerProduct (me_ey_eci p v) (me_ey_eci p v) = 1)
    (h12 : InnerProduct (me_ey_eci p v) (me_ez_eci p v) = 0)
    (h22 : InnerProduct (me_ez_eci p v) (me_ez_eci p v) = 1) :
    CalcDcmEciToMeanEarth p v * (CalcDcmEciToMeanEarth p v).transpose = 1 := by
  have h10 := (InnerProduct_comm (me_ey_eci p v) (me_ex_eci p)).trans h01
  have h20 := (InnerProduct_comm (me_ez_eci p v) (me_ex_eci p)).trans h02
  have h21 := (InnerProduct_comm (me_ez_eci p v) (me_ey_eci p v)).trans h12
  unfold InnerProduct at h00 h01 h02 h11 h12 h22 h10 h20 h21
  ext i j
  fin_cases i <;> fin_cases j <;>
    simp [CalcDcmEciToMeanEarth, Matrix.mul_apply, Fin.sum_univ_three, Vector3.get] <;>
    assumption

/-- C26: for every moon position `p` and velocity `v` with `p × v ≠ 0` the
matrix returned by `CalcDcmEciToMeanEarth` is a proper rotation matrix: its rows
are `ex = -p/|p|`, `ey = ez × ex` and `ez = (p × v)/|p × v|`, they are unit
vectors and mutually orthogonal (`M * Mᵀ = 1`), and right-handed
(`ex × ey = ez`, `det M = 1`). -/
theorem CalcDcmEciToMeanEarth_proper_rotation (p v : Vector3)
    (h : OuterProduct p v ≠ ⟨0, 0, 0⟩) :
    (∀ i, CalcDcmEciToMeanEarth p v 0 i = (me_ex_eci p).get i) ∧
      (∀ i, CalcDcmEciToMeanEarth p v 1 i = (me_ey_eci p v).get i) ∧
      (∀ i, CalcDcmEciToMeanEarth p v 2 i = (me_ez_eci p v).get i) ∧
      me_ex_eci p = ⟨-p.x / p.CalcNorm, -p.y / p.CalcNorm, -p.z / p.CalcNorm⟩ ∧
      me_ey_eci p v = OuterProduct (me_ez_eci p v) (me_ex_eci p) ∧
      me_ez_eci p v = ⟨(OuterProduct p v).x / (OuterProduct p v).CalcNorm,
        (OuterProduct p v).y / (OuterProduct p v).CalcNorm,
        (OuterProduct p v).z / (OuterProduct p v).CalcNorm⟩ ∧
      0 < p.CalcNorm ∧ 0 < (OuterProduct p v).CalcNorm ∧
      InnerProduct (me_ex_eci p) (me_ex_eci p) = 1 ∧
      InnerProduct (me_ey_eci p v) (me_ey_eci p v) = 1 ∧
      InnerProduct (me_ez_eci p v) (me_ez_eci p v) = 1 ∧
      InnerProduct (me_ex_eci p) (me_ey_eci p v) = 0 ∧
      InnerProduct (me_ey_eci p v) (me_ez_eci p v) = 0 ∧
      InnerProduct (me_ex_eci p) (me_ez_eci p v) = 0 ∧
      CalcDcmEciToMeanEarth p v * (CalcDcmEciToMeanEarth p v).transpose = 1 ∧
      OuterProduct (me_ex_eci p) (me_ey_eci p v) = me_ez_eci p v ∧
      (CalcDcmEciToMeanEarth p v).det = 1 := by
  have hp := OuterProduct_ne_zero_left p v h
  have hx := me_ex_eci_unit p hp
  have hz := me_ez_eci_unit p v h
  have hxz := me_ex_ez_orthogonal p v
  obtain ⟨hy, hxy, hyz, hcross⟩ := frame_of_unit_pair (me_ex_eci p) (me_ez_eci p v) hx hz hxz
  have hey : me_ey_eci p v = OuterProduct (me_ez_eci p v) (me_ex_eci p) := rfl
  rw [← hey] at hy hxy hyz hcross
  refine ⟨fun _ => rfl, fun _ => rfl, fun _ => rfl, ?_, hey, rfl, CalcNorm_pos p hp,
    CalcNorm_pos _ h, hx, hy, hz, hxy, hyz, hxz,
    dcm_mul_transpose p v hx hxy hxz hy hyz hz, hcross, ?_⟩
  · unfold me_ex_eci Vector3.smul Vector3.CalcNormalizedVector
    simp only
    congr 1 <;> ring
  · rw [Matrix.det_fin_three]
    have e : ∀ r i, CalcDcmEciToMeanEarth p v r i
        = (match r with
          | 0 => (me_ex_eci p).get i
          | 1 => (me_ey_eci p v).get i
          | 2 => (me_ez_eci p v).get i) := fun _ _ => rfl
    simp only [e, Vector3.get]
    have c1 := congrArg Vector3.x hcross
    have c2 := congrArg Vector3.y hcross
    have c3 := congrArg Vector3.z hcross
    unfold InnerProduct at hz
    simp only [OuterProduct] at c1 c2 c3
    linear_combination hz + (me_ez_eci p v).x * c1 + (me_ez_eci p v).y * c2
      + (me_ez_eci p v).z * c3

/-- C26, witness: the moon at `(3, 0, 4)` moving along `(0, 1, 0)`. -/
theorem CalcDcmEciToMeanEarth_proper_rotation_witness :
    OuterProduct ⟨3, 0, 4⟩ ⟨0, 1, 0⟩ ≠ ⟨0, 0, 0⟩ ∧
      CalcDcmEciToMeanEarth ⟨3, 0, 4⟩ ⟨0, 1, 0⟩
          * (CalcDcmEciToMeanEarth ⟨3, 0, 4⟩ ⟨0, 1, 0⟩).transpose = 1 ∧
      (CalcDcmEciToMeanEarth ⟨3, 0, 4⟩ ⟨0, 1, 0⟩).det = 1 :=
  have h : OuterProduct ⟨3, 0, 4⟩ ⟨0, 1, 0⟩ ≠ ⟨0, 0, 0⟩ := by
    intro hh
    have := congrArg Vector3.x hh
    simp only [OuterProduct] at this
    norm_num at this
  ⟨h, (CalcDcmEciToMeanEarth_proper_rotation ⟨3, 0, 4⟩ ⟨0, 1, 0⟩ h).2.2.2.2.2.2.2.2.2.2.2.2.2.2.1,
    (CalcDcmEciToMeanEarth_proper_rotation ⟨3, 0, 4⟩ ⟨0, 1, 0⟩ h).2.2.2.2.2.2.2.2.2.2.2.2.2.2.2.2⟩

end MoonRotation

end
